import Mathlib

/-!
# clio RPC validation and dispatch core

A shallow embedding of the request-validation and handler-dispatch code of
`src/rpc/common/Validators.h`, `src/rpc/common/impl/Processors.h` and the
handlers built on them, followed by theorems about the embedded definitions.

Conventions of the embedding

* A C++ call either returns a value, leaves by an exception, or has no defined
  behaviour (null dereference, access to an empty optional). `Outcome` keeps
  the three apart and sequencing stops at the first call that does not return.
* `boost::json::value` is the inductive type `Json`; an object is an
  association list read by its first matching key.
* `util::Expected<T, RPC::Status>` is `Except RPC.Status T`.
* Field keys are NUL-free C string literals, so `key.data()` names the same
  key as `key`; the macro `JS(name)` of the legacy handlers is the string
  `name`.
* A string value read through `c_str()` is cut at its first NUL (`c_str`).
* Functions of the rippled library, of `rpc/RPCHelpers.h` and of the backend
  are parameters of the handlers that call them.
-/

namespace boost.json

/-- The value type `boost::json::value`: one constructor per `kind`. A double
carries its IEEE-754 binary64 bit pattern. -/
inductive Json where
  | null
  | bool (b : Bool)
  | int64 (i : Int)
  | uint64 (u : Nat)
  | double (bits : Nat)
  | string (s : String)
  | array (elems : List Json)
  | object (members : List (String × Json))

namespace Json

def is_null : Json → Bool
  | null => true
  | _ => false

def is_bool : Json → Bool
  | bool _ => true
  | _ => false

def is_int64 : Json → Bool
  | int64 _ => true
  | _ => false

def is_uint64 : Json → Bool
  | uint64 _ => true
  | _ => false

def is_double : Json → Bool
  | double _ => true
  | _ => false

def is_string : Json → Bool
  | string _ => true
  | _ => false

def is_array : Json → Bool
  | array _ => true
  | _ => false

def is_object : Json → Bool
  | object _ => true
  | _ => false

end Json

/-- The member stored under `key` in an object, `object::if_contains`. -/
def find (key : String) : List (String × Json) → Option Json
  | [] => none
  | (k, v) :: rest => if k = key then some v else find key rest

/-- Membership test `object::contains`. -/
def contains (members : List (String × Json)) (key : String) : Bool :=
  (find key members).isSome

/-- An object as Boost.JSON stores it: its members in order. -/
abbrev Object := List (String × Json)

end boost.json

open boost.json

/-- Result of running a piece of C++: it returns a value, an exception leaves
it, or its behaviour is undefined. -/
inductive Outcome (α : Type) where
  | returned (a : α)
  | threw
  | undefined
  deriving DecidableEq, Repr

namespace Outcome

/-- Sequencing of statements: the continuation runs only after a return. -/
def bind {α β : Type} (x : Outcome α) (f : α → Outcome β) : Outcome β :=
  match x with
  | returned a => f a
  | threw => threw
  | undefined => undefined

instance : Monad Outcome where
  pure := returned
  bind := bind

/-- Dereference of a `std::optional` or pointer with `*`: an empty one has no
defined behaviour. -/
def deref {α : Type} : Option α → Outcome α
  | some a => returned a
  | none => undefined

end Outcome

namespace boost.json

/-- The checked accessor `object::at(key)`: throws when the key is absent. -/
def Object.at (members : Object) (key : String) : Outcome Json :=
  match find key members with
  | some v => Outcome.returned v
  | none => Outcome.threw

namespace Json

/-- The checked accessor `value::as_string()`: throws on another kind. -/
def as_string : Json → Outcome String
  | string s => Outcome.returned s
  | _ => Outcome.threw

/-- The checked accessor `value::as_object()`: throws on another kind. -/
def as_object : Json → Outcome Object
  | object members => Outcome.returned members
  | _ => Outcome.threw

/-- The checked accessor `value::as_array()`: throws on another kind. -/
def as_array : Json → Outcome (List Json)
  | array elems => Outcome.returned elems
  | _ => Outcome.threw

/-- The checked accessor `value::as_int64()`: throws on another kind, the
unsigned integer kind included. -/
def as_int64 : Json → Outcome Int
  | int64 i => Outcome.returned i
  | _ => Outcome.threw

/-- The checked accessor `value::as_bool()`: throws on another kind. -/
def as_bool : Json → Outcome Bool
  | bool b => Outcome.returned b
  | _ => Outcome.threw

/-- The accessor `value::at(key)`: the value must be an object holding `key`,
otherwise it throws. -/
def «at» (jv : Json) (key : String) : Outcome Json := do
  let members ← jv.as_object
  members.at key

end Json

/-- The checked accessor `array::at(pos)`: throws when out of range. -/
def arrayAt (elems : List Json) (pos : Nat) : Outcome Json :=
  match elems.get? pos with
  | some v => Outcome.returned v
  | none => Outcome.threw

end boost.json

/-- The characters a `std::string` built from `c_str()` keeps: those before
the first NUL. -/
def c_str (s : String) : String :=
  String.mk (s.data.takeWhile (fun c => c ≠ Char.ofNat 0))

/-- Conversion of a signed value to `std::uint32_t`: reduction modulo 2^32. -/
def toUInt32 (i : Int) : Nat :=
  (i % 2 ^ 32).toNat

namespace std

/-- The whitespace `std::isspace` skips in the C locale. -/
def isspace (c : Char) : Bool :=
  c = ' ' ∨ c = '\t' ∨ c = '\n' ∨ c = Char.ofNat 11 ∨ c = Char.ofNat 12 ∨ c = '\r'

/-- The value of a run of decimal digits. -/
def digitsValue (digits : List Char) : Nat :=
  digits.foldl (fun acc c => 10 * acc + (c.toNat - '0'.toNat)) 0

/-- The function `std::stoi(str)` in base 10: leading whitespace and an
optional sign are skipped, the longest run of digits is read; it throws
`std::invalid_argument` when there is no digit and `std::out_of_range` when
the value does not fit an `int`. -/
def stoi (str : String) : Outcome Int :=
  let rest := str.data.dropWhile isspace
  let negative := rest.head? = some '-'
  let unsigned :=
    if rest.head? = some '-' ∨ rest.head? = some '+' then rest.tail else rest
  let digits := unsigned.takeWhile Char.isDigit
  if digits = [] then Outcome.threw
  else
    let value : Int := if negative then -(digitsValue digits : Int) else digitsValue digits
    if value < -(2 ^ 31) ∨ 2 ^ 31 - 1 < value then Outcome.threw
    else Outcome.returned value

end std

namespace RPC

/-- Modelled from the spec: `rpc/Errors.h` is not among the sources. The
protocol-inherited error codes named by the code under `src/`. -/
inductive RippledError where
  | rpcSUCCESS
  | rpcUNKNOWN
  | rpcINTERNAL
  | rpcINVALID_PARAMS
  | rpcCHANNEL_AMT_MALFORMED
  | rpcPUBLIC_MALFORMED
  deriving DecidableEq, Repr

/-- Modelled from the spec: `rpc/Errors.h` is not among the sources. The
server-specific error codes. -/
inductive ClioError where
  | rpcMALFORMED_CURRENCY
  | rpcMALFORMED_REQUEST
  | rpcMALFORMED_OWNER
  | rpcMALFORMED_ADDRESS
  deriving DecidableEq, Repr

/-- The two error families, `std::variant<RippledError, ClioError>`. -/
abbrev CombinedError := RippledError ⊕ ClioError

/-- Modelled from the spec: `rpc/Errors.h` is not among the sources. A Status
is an error kind plus an optional human-readable detail. -/
structure Status where
  code : CombinedError
  message : Option String
  deriving DecidableEq, Repr

/-- The constructor `Status{code}`: a kind and no detail. -/
def Status.ofCode (code : RippledError) : Status :=
  { code := Sum.inl code, message := none }

/-- The constructor `Status{code, message}` for a protocol-inherited code. -/
def Status.ofCodeMessage (code : RippledError) (message : String) : Status :=
  { code := Sum.inl code, message := some message }

/-- The constructor `Status{code, message}` for a server-specific code. -/
def Status.ofClioMessage (code : ClioError) (message : String) : Status :=
  { code := Sum.inr code, message := some message }

/-- The constructor `Status{code}` for a server-specific code. -/
def Status.ofClio (code : ClioError) : Status :=
  { code := Sum.inr code, message := none }

/-- Modelled from the spec: `rpc/Errors.h` is not among the sources. The
message-only constructor `Status{"..."}`, used where rippled reports an error
by its text alone; it carries the generic unknown-error kind. -/
def Status.ofMessage (message : String) : Status :=
  { code := Sum.inl RippledError.rpcUNKNOWN, message := some message }

end RPC

namespace RPCng

/-- The validation result `MaybeError = util::Expected<void, RPC::Status>`. -/
abbrev MaybeError := Except RPC.Status Unit

/-- The processor result `ReturnType = util::Expected<json::value, Status>`. -/
abbrev ReturnType := Except RPC.Status Json

/-- The handler result `HandlerReturnType<Output>`. -/
abbrev HandlerReturnType (Output : Type) := Except RPC.Status Output

/-- A field validator: the `verify(value, key)` member of a requirement. -/
abbrev Validator := Json → String → Outcome MaybeError

/-- Modelled from the spec: `rpc/common/Specs.h` is not among the sources.
Runs the validators of one field in declaration order and stops at the first
that does not return success. -/
def runValidators : List Validator → Json → String → Outcome MaybeError
  | [], _, _ => Outcome.returned (Except.ok ())
  | v :: rest, value, key =>
    match v value key with
    | Outcome.returned (Except.ok ()) => runValidators rest value key
    | other => other

/-- Modelled from the spec: `rpc/common/Specs.h` is not among the sources. A
field key with its ordered chain of validators. -/
structure FieldSpec where
  key : String
  validators : List Validator

/-- Modelled from the spec: validation of one field runs its validators in
declaration order. -/
def FieldSpec.validate (f : FieldSpec) (value : Json) : Outcome MaybeError :=
  runValidators f.validators value f.key

/-- Modelled from the spec: `rpc/common/Specs.h` is not among the sources.
Runs the fields in declaration order and stops at the first that does not
return success. -/
def runFields : List FieldSpec → Json → Outcome MaybeError
  | [], _ => Outcome.returned (Except.ok ())
  | f :: rest, value =>
    match f.validate value with
    | Outcome.returned (Except.ok ()) => runFields rest value
    | other => other

/-- Modelled from the spec: `rpc/common/Specs.h` is not among the sources. A
command schema is the ordered sequence of its field specs. -/
structure RpcSpec where
  fields : List FieldSpec

/-- Modelled from the spec: `validate(document)` iterates the fields in
declaration order and returns on the first failure. -/
def RpcSpec.validate (spec : RpcSpec) (value : Json) : Outcome MaybeError :=
  runFields spec.fields value

namespace validation

/-- The target types a `Type<...>` requirement is instantiated with. `string`
is `std::string`, `array` and `object` are the Boost.JSON containers. -/
inductive Expected where
  | bool
  | string
  | double
  | float
  | int8
  | uint8
  | int16
  | uint16
  | int32
  | uint32
  | int64
  | uint64
  | array
  | object
  deriving DecidableEq, Repr

/-- The trait `std::is_convertible_v<Expected, uint64_t> or
std::is_convertible_v<Expected, int64_t>`: every arithmetic type converts,
`std::string` and the JSON containers do not. -/
def Expected.is_convertible_to_integer : Expected → Bool
  | Expected.string => false
  | Expected.array => false
  | Expected.object => false
  | _ => true

/-- The function template `checkType<Expected>` (Validators.h, lines 35 to
69): the chain of `if constexpr` branches sets `hasError`; a target type that
no branch covers leaves it false. -/
def checkType (expected : Expected) (value : Json) : Bool :=
  let hasError :=
    if expected = Expected.bool then
      !value.is_bool
    else if expected = Expected.string then
      !value.is_string
    else if expected = Expected.double ∨ expected = Expected.float then
      !value.is_double
    else if expected.is_convertible_to_integer then
      !value.is_int64 && !value.is_uint64
    else if expected = Expected.array then
      !value.is_array
    else
      false
  !hasError

/-- The guard shared by the validators, `not value.is_object() or not
value.as_object().contains(key.data())`, and the access
`value.as_object().at(key.data())` behind it. The key is a
`std::string_view` and is handed on as `key.data()`, a `char const*`, so the
lookup reads it up to its first NUL: `none` when `value` is not an object or
does not contain that C string, otherwise the member stored under it. -/
def member (value : Json) (key : String) : Option Json :=
  match value with
  | Json.object members => find (c_str key) members
  | _ => none

/-- The status every built-in validator fails with,
`RPC::Status{RPC::RippledError::rpcINVALID_PARAMS}`. -/
def invalidParams : MaybeError :=
  Except.error (RPC.Status.ofCode RPC.RippledError.rpcINVALID_PARAMS)

/-- The member `Type<Types...>::verify` (Validators.h, lines 121 to 135); the
fold `(checkType<Types>(res) || ...)` is `List.any`. -/
def Type_.verify (types : List Expected) : Validator := fun value key =>
  match member value key with
  | none => Outcome.returned (Except.ok ())
  | some res =>
    let convertible := types.any (fun t => checkType t res)
    if !convertible then Outcome.returned invalidParams
    else Outcome.returned (Except.ok ())

/-- The class template `Between<Type>` with its stored bounds. -/
structure Between (T : Type) where
  min_ : T
  max_ : T

/-- The member `Between<Type>::verify` (Validators.h, lines 165 to 180);
`value_to` is the decoder `boost::json::value_to<Type>`. -/
def Between.verify {T : Type} [LT T] [DecidableRel (fun a b : T => a < b)]
    (self : Between T) (value_to : Json → Outcome T) : Validator := fun value key =>
  match member value key with
  | none => Outcome.returned (Except.ok ())
  | some field => do
    let res ← value_to field
    if res < self.min_ ∨ res > self.max_ then Outcome.returned invalidParams
    else Outcome.returned (Except.ok ())

/-- The class template `EqualTo<Type>` with its stored original. -/
structure EqualTo (T : Type) where
  original_ : T

/-- The member `EqualTo<Type>::verify` (Validators.h, lines 208 to 221). -/
def EqualTo.verify {T : Type} [DecidableEq T]
    (self : EqualTo T) (value_to : Json → Outcome T) : Validator := fun value key =>
  match member value key with
  | none => Outcome.returned (Except.ok ())
  | some field => do
    let res ← value_to field
    if res ≠ self.original_ then Outcome.returned invalidParams
    else Outcome.returned (Except.ok ())

/-- The class template `OneOf<Type>` with its stored options. -/
structure OneOf (T : Type) where
  options_ : List T

/-- The member `OneOf<Type>::verify` (Validators.h, lines 255 to 269);
`std::find` reaching `end` is the option not being found by equality. -/
def OneOf.verify {T : Type} [DecidableEq T]
    (self : OneOf T) (value_to : Json → Outcome T) : Validator := fun value key =>
  match member value key with
  | none => Outcome.returned (Except.ok ())
  | some field => do
    let res ← value_to field
    if self.options_.find? (fun o => decide (o = res)) = none then
      Outcome.returned invalidParams
    else Outcome.returned (Except.ok ())

/-- The exact integer a finite binary64 bit pattern denotes, if it denotes
one: sign bit, 11 exponent bits, 52 fraction bits. -/
def doubleToExactInt (bits : Nat) : Option Int :=
  let negative := bits / 2 ^ 63 % 2 = 1
  let exponent := bits / 2 ^ 52 % 2 ^ 11
  let fraction := bits % 2 ^ 52
  let signed (n : Nat) : Int := if negative then -(n : Int) else (n : Int)
  if exponent = 2047 then none
  else if exponent = 0 then (if fraction = 0 then some 0 else none)
  else
    let mantissa := 2 ^ 52 + fraction
    if 1075 ≤ exponent then some (signed (mantissa * 2 ^ (exponent - 1075)))
    else if mantissa % 2 ^ (1075 - exponent) = 0 then
      some (signed (mantissa / 2 ^ (1075 - exponent)))
    else none

/-- The decoder `boost::json::value_to<T>` for an integer type with range
`lo..hi`, as Boost.JSON `value::to_number<T>` defines it: a number converts
when it is exactly representable in `T`, anything else throws. -/
def value_to_integer (lo hi : Int) : Json → Outcome Int
  | Json.int64 i => if lo ≤ i ∧ i ≤ hi then Outcome.returned i else Outcome.threw
  | Json.uint64 u =>
    if (u : Int) ≤ hi then Outcome.returned (u : Int) else Outcome.threw
  | Json.double bits =>
    match doubleToExactInt bits with
    | some n => if lo ≤ n ∧ n ≤ hi then Outcome.returned n else Outcome.threw
    | none => Outcome.threw
  | _ => Outcome.threw

/-- The decoder `value_to<int>`. -/
def value_to_int : Json → Outcome Int :=
  value_to_integer (-(2 ^ 31)) (2 ^ 31 - 1)

/-- The reading the specification gives to a target type: the runtime kind
of a JSON value that counts as matching it. This definition follows the
words of the specification and not `checkType`; the theorems compare the two. -/
def Expected.matchesKind : Expected → Json → Bool
  | Expected.bool, v => v.is_bool
  | Expected.string, v => v.is_string
  | Expected.double, v => v.is_double
  | Expected.float, v => v.is_double
  | Expected.array, v => v.is_array
  | Expected.object, v => v.is_object
  | _, v => v.is_int64 || v.is_uint64

/-- The integer-like target types: the fixed-width signed and unsigned
integers. -/
def Expected.isInteger : Expected → Bool
  | Expected.int8 => true
  | Expected.uint8 => true
  | Expected.int16 => true
  | Expected.uint16 => true
  | Expected.int32 => true
  | Expected.uint32 => true
  | Expected.int64 => true
  | Expected.uint64 => true
  | _ => false

/-- The floating-point target types, `double` and `float`. -/
def Expected.isFloatingPoint : Expected → Bool
  | Expected.double => true
  | Expected.float => true
  | _ => false

end validation

namespace detail

/-- The two shapes of `process` on a handler with an Input: the concept
`NonCoroutineProcess` and its coroutine counterpart taking the yield context. -/
inductive Process (Input Output Yield : Type) where
  | nonCoroutine (process : Input → Outcome (HandlerReturnType Output))
  | coroutine (process : Input → Yield → Outcome (HandlerReturnType Output))

/-- A handler as the processor sees it: `HandlerWithInput` exposes `spec()`,
the `value_to<Input>` decoder, `process` and the `value_from` encoder;
`HandlerWithoutInput` exposes `process()` and the encoder. -/
inductive Handler (Input Output Yield : Type) where
  | withInput (spec : RpcSpec) (value_to : Json → Outcome Input)
      (process : Process Input Output Yield) (value_from : Output → Outcome Json)
  | withoutInput (process : Unit → Outcome (HandlerReturnType Output))
      (value_from : Output → Outcome Json)

/-- The tail shared by every branch: forward the Status or encode the value. -/
def forward {Output : Type} (value_from : Output → Outcome Json)
    (ret : HandlerReturnType Output) : Outcome ReturnType :=
  match ret with
  | Except.error status => Outcome.returned (Except.error status)
  | Except.ok out => do
    let jv ← value_from out
    Outcome.returned (Except.ok jv)

/-- The call operator of `DefaultProcessor` (Processors.h, lines 33 to 82).
`ptrYield` is the optional pointer to the yield context; it is dereferenced
only for the coroutine shape. -/
def DefaultProcessor {Input Output Yield : Type} (handler : Handler Input Output Yield)
    (value : Json) (ptrYield : Option Yield) : Outcome ReturnType :=
  match handler with
  | Handler.withInput spec value_to process value_from => do
    let ret ← spec.validate value
    match ret with
    | Except.error status => Outcome.returned (Except.error status)
    | Except.ok () =>
      let inData ← value_to value
      match process with
      | Process.nonCoroutine p => do
        let ret ← p inData
        forward value_from ret
      | Process.coroutine p =>
        match ptrYield with
        | none => Outcome.undefined
        | some yield => do
          let ret ← p inData yield
          forward value_from ret
  | Handler.withoutInput process value_from => do
    let ret ← process ()
    forward value_from ret

end detail

end RPCng

/-! ## The rippled library and the backend

The handlers call into the rippled protocol library and into the storage
backend. Neither is code of this repository, so their functions are the
fields of two structures that the handlers take as parameters. -/

namespace ripple

/-- The 256-bit identifier `ripple::uint256`, as the number it holds. -/
abbrev uint256 := Nat

/-- The 160-bit account identifier `ripple::AccountID`. -/
abbrev AccountID := Nat

/-- The 160-bit currency code `ripple::Currency`. -/
abbrev Currency := Nat

/-- A byte string `ripple::Blob`. -/
abbrev Blob := List Nat

/-- The ledger entry types `ripple::LedgerEntryType` the handlers name, and
the NFT page type as one they do not. -/
inductive LedgerEntryType where
  | ltANY
  | ltACCOUNT_ROOT
  | ltDIR_NODE
  | ltRIPPLE_STATE
  | ltTICKET
  | ltOFFER
  | ltESCROW
  | ltPAYCHAN
  | ltCHECK
  | ltDEPOSIT_PREAUTH
  | ltNFTOKEN_PAGE
  deriving DecidableEq, Repr

/-- The ledger header fields the handlers read from `ripple::LedgerInfo`. -/
structure LedgerInfo where
  seq : Nat
  hash : uint256
  deriving DecidableEq, Repr

/-- A deserialised ledger entry `ripple::STLedgerEntry`: its type and its JSON
rendering by `RPC::toJson`. -/
structure STLedgerEntry where
  type : LedgerEntryType
  json : Object

/-- The functions of the rippled library the handlers call. -/
structure Library where
  /-- Hex parser shared by `uint256::parseHex` and the constructor
  `uint256{std::string_view}`. -/
  parseHex : String → Option uint256
  /-- The parser `parseBase58<AccountID>`. -/
  parseBase58AccountID : String → Option AccountID
  /-- The overload `to_currency(currency, code)` reporting success. -/
  to_currency : String → Option Currency
  /-- The value `noCurrency()` that `to_currency(code)` falls back to. -/
  noCurrency : Currency
  /-- Key of `keylet::account`. -/
  account : AccountID → uint256
  /-- Key of `keylet::ownerDir`. -/
  ownerDir : AccountID → uint256
  /-- Key of `keylet::page(root, index)`. -/
  page : uint256 → Nat → uint256
  /-- Key of `keylet::offer`. -/
  offer : AccountID → Nat → uint256
  /-- Key of `keylet::line`. -/
  line : AccountID → AccountID → Currency → uint256
  /-- Key of `keylet::escrow`. -/
  escrow : AccountID → Nat → uint256
  /-- Key of `keylet::depositPreauth`. -/
  depositPreauth : AccountID → AccountID → uint256
  /-- The function `getTicketIndex`. -/
  getTicketIndex : AccountID → Nat → uint256
  /-- The function `strHex` on an identifier. -/
  strHex : uint256 → String
  /-- The function `strHex` on a blob. -/
  strHexBlob : Blob → String
  /-- Construction of an `STLedgerEntry` from the stored bytes and the key;
  the constructor throws on bytes it cannot read. -/
  deserialize : Blob → uint256 → Outcome STLedgerEntry

/-- The constructor `uint256{std::string_view}`: throws on text that is not
the hex form of an identifier. -/
def Library.uint256 (lib : Library) (sv : String) : Outcome uint256 :=
  match lib.parseHex sv with
  | some key => Outcome.returned key
  | none => Outcome.threw

/-- The overload `to_currency(code)` returning the currency, `noCurrency()`
when the code does not parse. -/
def Library.to_currency_value (lib : Library) (code : String) : Currency :=
  match lib.to_currency code with
  | some currency => currency
  | none => lib.noCurrency

end ripple

/-- The range of ledgers the backend holds, `LedgerRange`. -/
structure LedgerRange where
  minSequence : Nat
  maxSequence : Nat
  deriving DecidableEq, Repr

/-- The storage backend as the ledger entry handlers use it; `Yield` is the
coroutine yield context the calls suspend on. -/
structure BackendInterface (Yield : Type) where
  /-- The call `fetchLedgerRange()`. -/
  fetchLedgerRange : Option LedgerRange
  /-- The call `fetchLedgerObject(key, sequence, yield)`; a timeout is an
  exception. -/
  fetchLedgerObject : ripple.uint256 → Nat → Yield → Outcome (Option ripple.Blob)

/-! ## The ledger entry handler (`rpc/ngHandlers/LedgerEntry`) -/

namespace boost.json

/-- The unchecked element access `array::operator[]`: out of range it has no
defined behaviour. -/
def arrayIndex (elems : List Json) (pos : Nat) : Outcome Json :=
  Outcome.deref (elems.get? pos)

/-- The assignment `object[key] = value`: replaces the member stored under
`key`, or appends a new member. -/
def Object.set (members : Object) (key : String) (value : Json) : Object :=
  match members with
  | [] => [(key, value)]
  | (k, v) :: rest => if k = key then (k, value) :: rest else (k, v) :: Object.set rest key value

end boost.json

namespace RPCng

open validation

/-- The decoder `value_to<std::uint32_t>`. -/
def value_to_uint32 : Json → Outcome Int :=
  value_to_integer 0 (2 ^ 32 - 1)

/-- The decoder `value_to<std::uint64_t>`. -/
def value_to_uint64 : Json → Outcome Int :=
  value_to_integer 0 (2 ^ 64 - 1)

/-- The initialiser of `subIndex`, written alike in both ledger entry
handlers: `directory.contains("sub_index") ?
value_to<uint64_t>(directory.at("sub_index")) : 0`. -/
def directorySubIndex (directory : Object) : Outcome Nat :=
  if contains directory "sub_index" then do
    let field ← directory.at "sub_index"
    let n ← value_to_uint64 field
    pure n.toNat
  else pure 0

namespace LedgerEntryHandler

/-- The record `LedgerEntryHandler::Output`. -/
structure Output where
  index : String
  ledgerIndex : Nat
  ledgerHash : String
  node : Option Object := none
  nodeBinary : Option String := none
  validated : Bool := true

/-- The record `LedgerEntryHandler::Input`. -/
structure Input where
  ledgerHash : Option String := none
  ledgerIndex : Option Nat := none
  binary : Bool := false
  index : Option String := none
  expectedType : ripple.LedgerEntryType := ripple.LedgerEntryType.ltANY
  accountRoot : Option String := none
  directory : Option Object := none
  offer : Option Object := none
  rippleStateAccount : Option Object := none
  escrow : Option Object := none
  depositPreauth : Option Object := none
  ticket : Option Object := none

/-- The condition of the first `if` of `rippleStateAccountsCheck`
(LedgerEntry.h, lines 85 to 89), evaluated left to right with the
short-circuit of `||`. -/
def accountsMalformed (value : Json) : Outcome Bool :=
  if !value.is_array then pure true
  else do
    let elems ← value.as_array
    if elems.length != 2 then pure true
    else do
      let first ← arrayIndex elems 0
      if !first.is_string then pure true
      else do
        let second ← arrayIndex elems 1
        if !second.is_string then pure true
        else do
          let a ← first.as_string
          let b ← second.as_string
          pure (decide (a = b))

/-- The function wrapped by the custom validator `rippleStateAccountsCheck`
(LedgerEntry.h, lines 83 to 102). -/
def rippleStateAccountsCheck (lib : ripple.Library) (value : Json) (_key : String) :
    Outcome MaybeError := do
  let malformed ← accountsMalformed value
  if malformed then
    Outcome.returned (Except.error
      (RPC.Status.ofCodeMessage RPC.RippledError.rpcINVALID_PARAMS "malformedAccounts"))
  else do
    let elems ← value.as_array
    let first ← arrayIndex elems 0
    let a ← first.as_string
    let id1 := lib.parseBase58AccountID (c_str a)
    let second ← arrayIndex elems 1
    let b ← second.as_string
    let id2 := lib.parseBase58AccountID (c_str b)
    if id1.isNone ∨ id2.isNone then
      Outcome.returned (Except.error
        (RPC.Status.ofClioMessage RPC.ClioError.rpcMALFORMED_ADDRESS "malformedAddresses"))
    else Outcome.returned (Except.ok ())

/-- The member `composeKeyFromDirectory` (LedgerEntry.cpp, lines 144 to 173).
It is declared `noexcept`: an exception raised inside it ends the program,
which the model reports as `threw`. -/
def composeKeyFromDirectory (lib : ripple.Library) (directory : Object) :
    Outcome (Except RPC.Status ripple.uint256) :=
  if contains directory "dir_root" && contains directory "owner" then
    Outcome.returned (Except.error (RPC.Status.ofCodeMessage
      RPC.RippledError.rpcINVALID_PARAMS "mayNotSpecifyBothDirRootAndOwner"))
  else if !(contains directory "dir_root" || contains directory "owner") then
    Outcome.returned (Except.error (RPC.Status.ofCodeMessage
      RPC.RippledError.rpcINVALID_PARAMS "missingOwnerOrDirRoot"))
  else do
    let subIndex ← directorySubIndex directory
    if contains directory "dir_root" then do
      let field ← directory.at "dir_root"
      let text ← field.as_string
      let uDirRoot ← lib.uint256 (c_str text)
      Outcome.returned (Except.ok (lib.page uDirRoot subIndex))
    else do
      let field ← directory.at "owner"
      let text ← field.as_string
      let ownerID ← Outcome.deref (lib.parseBase58AccountID (c_str text))
      Outcome.returned (Except.ok (lib.page (lib.ownerDir ownerID) subIndex))

/-- The account named by the string member `field` of `object`, as the
expression `parseBase58<AccountID>(object->at(field).as_string().c_str())`
reads it. -/
def accountField (lib : ripple.Library) (object : Object) (field : String) :
    Outcome (Option ripple.AccountID) := do
  let member ← object.at field
  let text ← member.as_string
  pure (lib.parseBase58AccountID (c_str text))

/-- The first part of `process` (LedgerEntry.cpp, lines 31 to 103): the key
of the requested entry, or the Status returned in its place. -/
def entryKey (lib : ripple.Library) (input : Input) :
    Outcome (Except RPC.Status ripple.uint256) :=
  match input.index with
  | some index => do
    let key ← lib.uint256 index
    Outcome.returned (Except.ok key)
  | none =>
  match input.accountRoot with
  | some accountRoot => do
    let account ← Outcome.deref (lib.parseBase58AccountID accountRoot)
    Outcome.returned (Except.ok (lib.account account))
  | none =>
  match input.directory with
  | some directory => composeKeyFromDirectory lib directory
  | none =>
  match input.offer with
  | some offer => do
    let id ← accountField lib offer "account"
    let account ← Outcome.deref id
    let seqField ← offer.at "seq"
    let seq ← value_to_uint32 seqField
    Outcome.returned (Except.ok (lib.offer account seq.toNat))
  | none =>
  match input.rippleStateAccount with
  | some state => do
    let accounts ← state.at "accounts"
    let elems ← accounts.as_array
    let first ← arrayAt elems 0
    let a ← first.as_string
    let id1 := lib.parseBase58AccountID (c_str a)
    let accounts ← state.at "accounts"
    let elems ← accounts.as_array
    let second ← arrayAt elems 1
    let b ← second.as_string
    let id2 := lib.parseBase58AccountID (c_str b)
    let currencyField ← state.at "currency"
    let code ← currencyField.as_string
    let currency := lib.to_currency_value (c_str code)
    let account1 ← Outcome.deref id1
    let account2 ← Outcome.deref id2
    Outcome.returned (Except.ok (lib.line account1 account2 currency))
  | none =>
  match input.escrow with
  | some escrow => do
    let id ← accountField lib escrow "owner"
    let account ← Outcome.deref id
    let seqField ← escrow.at "seq"
    let seq ← seqField.as_int64
    Outcome.returned (Except.ok (lib.escrow account (toUInt32 seq)))
  | none =>
  match input.depositPreauth with
  | some depositPreauth => do
    let owner ← accountField lib depositPreauth "owner"
    let authorized ← accountField lib depositPreauth "authorized"
    let ownerID ← Outcome.deref owner
    let authorizedID ← Outcome.deref authorized
    Outcome.returned (Except.ok (lib.depositPreauth ownerID authorizedID))
  | none =>
  match input.ticket with
  | some ticket => do
    let id ← accountField lib ticket "account"
    let account ← Outcome.deref id
    let seqField ← ticket.at "ticket_seq"
    let seq ← seqField.as_int64
    Outcome.returned (Except.ok (lib.getTicketIndex account (toUInt32 seq)))
  | none =>
    Outcome.returned (Except.error
      (RPC.Status.ofCodeMessage RPC.RippledError.rpcINVALID_PARAMS "unknownOption"))

/-- The helper `RPC::getLedgerInfoFromHashOrSeq` of `rpc/RPCHelpers.h`, which
is not among the sources: from the backend, the yield context, the requested
hash and sequence and the newest sequence it gives the ledger header or a
Status. -/
abbrev GetLedgerInfoFromHashOrSeq (Yield : Type) :=
  BackendInterface Yield → Yield → Option String → Option Nat → Nat →
    Outcome (Except RPC.Status ripple.LedgerInfo)

/-- The second part of `process` (LedgerEntry.cpp, lines 105 to 141): resolve
the ledger, fetch the object stored under `key`, check its type and build the
Output. -/
def lookup {Yield : Type} (lib : ripple.Library) (backend : BackendInterface Yield)
    (getLedgerInfoFromHashOrSeq : GetLedgerInfoFromHashOrSeq Yield)
    (input : Input) (yield : Yield) (key : ripple.uint256) :
    Outcome (HandlerReturnType Output) := do
  let range ← Outcome.deref backend.fetchLedgerRange
  let lgrInfoOrStatus ←
    getLedgerInfoFromHashOrSeq backend yield input.ledgerHash input.ledgerIndex
      range.maxSequence
  match lgrInfoOrStatus with
  | Except.error status => Outcome.returned (Except.error status)
  | Except.ok lgrInfo => do
    let ledgerObject ← backend.fetchLedgerObject key lgrInfo.seq yield
    match ledgerObject with
    | none => Outcome.returned (Except.error (RPC.Status.ofMessage "entryNotFound"))
    | some blob =>
      if blob.length = 0 then
        Outcome.returned (Except.error (RPC.Status.ofMessage "entryNotFound"))
      else do
        let sle ← lib.deserialize blob key
        if input.expectedType ≠ ripple.LedgerEntryType.ltANY ∧
            sle.type ≠ input.expectedType then
          Outcome.returned (Except.error (RPC.Status.ofMessage "unexpectedLedgerType"))
        else if input.binary then
          Outcome.returned (Except.ok
            { index := lib.strHex key, ledgerIndex := lgrInfo.seq,
              ledgerHash := lib.strHex lgrInfo.hash,
              nodeBinary := some (lib.strHexBlob blob) })
        else
          Outcome.returned (Except.ok
            { index := lib.strHex key, ledgerIndex := lgrInfo.seq,
              ledgerHash := lib.strHex lgrInfo.hash,
              node := some sle.json })

/-- The member `LedgerEntryHandler::process` (LedgerEntry.cpp, lines 26 to
142). -/
def process {Yield : Type} (lib : ripple.Library) (backend : BackendInterface Yield)
    (getLedgerInfoFromHashOrSeq : GetLedgerInfoFromHashOrSeq Yield)
    (input : Input) (yield : Yield) : Outcome (HandlerReturnType Output) := do
  let keyOrStatus ← entryKey lib input
  match keyOrStatus with
  | Except.error status => Outcome.returned (Except.error status)
  | Except.ok key => lookup lib backend getLedgerInfoFromHashOrSeq input yield key

/-- The encoder `tag_invoke(value_from_tag, jv, output)` (LedgerEntry.cpp,
lines 175 to 195). -/
def value_from (output : Output) : Outcome Json :=
  let object : Object :=
    [("ledger_hash", Json.string output.ledgerHash),
     ("ledger_index", Json.uint64 output.ledgerIndex),
     ("validated", Json.bool output.validated),
     ("index", Json.string output.index)]
  match output.nodeBinary with
  | some nodeBinary =>
    Outcome.returned (Json.object (object.set "node_binary" (Json.string nodeBinary)))
  | none => do
    let node ← Outcome.deref output.node
    Outcome.returned (Json.object (object.set "node" (Json.object node)))

/-- The entries of the static `indexFieldTypeMap` (LedgerEntry.cpp, lines 225
to 234), in the order they are written. The map is a `std::unordered_map`, so
the order `std::find_if` visits them in is not fixed by the code; the decoder
takes it as a parameter. -/
def indexFieldTypeMap : List (String × ripple.LedgerEntryType) :=
  [("index", ripple.LedgerEntryType.ltANY),
   ("directory", ripple.LedgerEntryType.ltDIR_NODE),
   ("offer", ripple.LedgerEntryType.ltOFFER),
   ("check", ripple.LedgerEntryType.ltCHECK),
   ("escrow", ripple.LedgerEntryType.ltESCROW),
   ("payment_channel", ripple.LedgerEntryType.ltPAYCHAN),
   ("deposit_preauth", ripple.LedgerEntryType.ltDEPOSIT_PREAUTH),
   ("ticket", ripple.LedgerEntryType.ltTICKET)]

/-- The predicate given to `std::find_if` (LedgerEntry.cpp, lines 239 to
243): the field is present and holds a string. -/
def isStringField (jsonObject : Object) (pair : String × ripple.LedgerEntryType) : Bool :=
  match find pair.1 jsonObject with
  | some v => v.is_string
  | none => false

/-- The object stored under `field`, `jv.at(field).as_object()`. -/
def objectField (jv : Json) (field : String) : Outcome Object := do
  let member ← jv.at field
  member.as_object

/-- The string stored under `field` as `jv.at(field).as_string().c_str()`
assigns it to a `std::string`. -/
def stringField (jv : Json) (field : String) : Outcome String := do
  let member ← jv.at field
  let text ← member.as_string
  pure (c_str text)

/-- The decoder `tag_invoke(value_to_tag<Input>, jv)` (LedgerEntry.cpp, lines
197 to 280); `mapOrder` is the order in which the unordered map is visited. -/
def value_to (mapOrder : List (String × ripple.LedgerEntryType)) (jv : Json) :
    Outcome Input := do
  let jsonObject ← jv.as_object
  let input : Input := {}
  let input ←
    if contains jsonObject "ledger_hash" then do
      let ledgerHash ← stringField jv "ledger_hash"
      pure { input with ledgerHash := some ledgerHash }
    else pure input
  let input ←
    if contains jsonObject "ledger_index" then do
      let field ← jsonObject.at "ledger_index"
      if !field.is_string then do
        let member ← jv.at "ledger_index"
        let n ← member.as_int64
        pure { input with ledgerIndex := some (toUInt32 n) }
      else do
        let text ← field.as_string
        if text ≠ "validated" then do
          let digits ← stringField jv "ledger_index"
          let n ← std.stoi digits
          pure { input with ledgerIndex := some (toUInt32 n) }
        else pure input
    else pure input
  let input ←
    if contains jsonObject "binary" then do
      let member ← jv.at "binary"
      let binary ← member.as_bool
      pure { input with binary := binary }
    else pure input
  match mapOrder.find? (isStringField jsonObject) with
  | some indexFieldType => do
    let index ← stringField jv indexFieldType.1
    pure { input with index := some index, expectedType := indexFieldType.2 }
  | none =>
    if contains jsonObject "account_root" then do
      let accountRoot ← stringField jv "account_root"
      pure { input with accountRoot := some accountRoot }
    else if contains jsonObject "directory" then do
      let directory ← objectField jv "directory"
      pure { input with directory := some directory }
    else if contains jsonObject "offer" then do
      let offer ← objectField jv "offer"
      pure { input with offer := some offer }
    else if contains jsonObject "ripple_state" then do
      let state ← objectField jv "ripple_state"
      pure { input with rippleStateAccount := some state }
    else if contains jsonObject "escrow" then do
      let escrow ← objectField jv "escrow"
      pure { input with escrow := some escrow }
    else if contains jsonObject "deposit_preauth" then do
      let depositPreauth ← objectField jv "deposit_preauth"
      pure { input with depositPreauth := some depositPreauth }
    else if contains jsonObject "ticket" then do
      let ticket ← objectField jv "ticket"
      pure { input with ticket := some ticket }
    else pure input

/-! ### The blocks of the decoder

The four blocks of the decoder taken one at a time; `value_to` runs them in
this order, each on the Input left by the one before. -/

/-- The block of the decoder for `ledger_hash` (LedgerEntry.cpp, lines 204 to
207). -/
def decodeLedgerHash (jv : Json) (jsonObject : Object) (input : Input) : Outcome Input :=
  if contains jsonObject "ledger_hash" then do
    let ledgerHash ← stringField jv "ledger_hash"
    pure { input with ledgerHash := some ledgerHash }
  else pure input

/-- The block of the decoder for `ledger_index` (LedgerEntry.cpp, lines 208
to 219). -/
def decodeLedgerIndex (jv : Json) (jsonObject : Object) (input : Input) : Outcome Input :=
  if contains jsonObject "ledger_index" then do
    let field ← jsonObject.at "ledger_index"
    if !field.is_string then do
      let member ← jv.at "ledger_index"
      let n ← member.as_int64
      pure { input with ledgerIndex := some (toUInt32 n) }
    else do
      let text ← field.as_string
      if text ≠ "validated" then do
        let digits ← stringField jv "ledger_index"
        let n ← std.stoi digits
        pure { input with ledgerIndex := some (toUInt32 n) }
      else pure input
  else pure input

/-- The block of the decoder for `binary` (LedgerEntry.cpp, lines 220 to
223). -/
def decodeBinary (jv : Json) (jsonObject : Object) (input : Input) : Outcome Input :=
  if contains jsonObject "binary" then do
    let member ← jv.at "binary"
    let binary ← member.as_bool
    pure { input with binary := binary }
  else pure input

/-- The block of the decoder that sets the entry selector (LedgerEntry.cpp,
lines 224 to 278). -/
def decodeSelector (mapOrder : List (String × ripple.LedgerEntryType)) (jv : Json)
    (jsonObject : Object) (input : Input) : Outcome Input :=
  match mapOrder.find? (isStringField jsonObject) with
  | some indexFieldType => do
    let index ← stringField jv indexFieldType.1
    pure { input with index := some index, expectedType := indexFieldType.2 }
  | none =>
    if contains jsonObject "account_root" then do
      let accountRoot ← stringField jv "account_root"
      pure { input with accountRoot := some accountRoot }
    else if contains jsonObject "directory" then do
      let directory ← objectField jv "directory"
      pure { input with directory := some directory }
    else if contains jsonObject "offer" then do
      let offer ← objectField jv "offer"
      pure { input with offer := some offer }
    else if contains jsonObject "ripple_state" then do
      let state ← objectField jv "ripple_state"
      pure { input with rippleStateAccount := some state }
    else if contains jsonObject "escrow" then do
      let escrow ← objectField jv "escrow"
      pure { input with escrow := some escrow }
    else if contains jsonObject "deposit_preauth" then do
      let depositPreauth ← objectField jv "deposit_preauth"
      pure { input with depositPreauth := some depositPreauth }
    else if contains jsonObject "ticket" then do
      let ticket ← objectField jv "ticket"
      pure { input with ticket := some ticket }
    else pure input

end LedgerEntryHandler

end RPCng

/-! ## The legacy ledger entry handler (`rpc/handlers/LedgerEntry.cpp`) -/

namespace RPC

/-- The handler result `RPC::Result`, `std::variant<Status, json::object>`. -/
abbrev Result := Except Status Object

/-- The fields of `RPC::Context` the handlers read. -/
structure Context (Yield : Type) where
  params : Object
  backend : BackendInterface Yield
  yield : Yield

/-- The helpers of `rpc/RPCHelpers.h` the legacy handlers call; the file is
not among the sources, so they are parameters. -/
structure Helpers (Yield : Type) where
  /-- The helper `getBool(request, field, dfault)`; it throws on a member
  of another kind. -/
  getBool : Object → String → Bool → Outcome Bool
  /-- The helper `ledgerInfoFromRequest(context)`. -/
  ledgerInfoFromRequest : Context Yield → Outcome (Except Status ripple.LedgerInfo)

/-- What the selection part of `doLedgerEntry` leaves behind: the key and the
expected type, or the Status returned in their place. -/
abbrev Selected := Except Status (ripple.uint256 × ripple.LedgerEntryType)

/-- The return of `Status{RippledError::rpcINVALID_PARAMS, message}` from the
selection part. -/
def invalid (message : String) : Outcome Selected :=
  Outcome.returned (Except.error (Status.ofCodeMessage RippledError.rpcINVALID_PARAMS message))

/-- The branch for `index` (lines 56 to 63). -/
def selectIndex (lib : ripple.Library) (request : Object) : Outcome Selected := do
  let field ← request.at "index"
  if !field.is_string then invalid "indexNotString"
  else do
    let text ← field.as_string
    match lib.parseHex (c_str text) with
    | none => Outcome.returned (Except.error (Status.ofClio ClioError.rpcMALFORMED_REQUEST))
    | some key => Outcome.returned (Except.ok (key, ripple.LedgerEntryType.ltANY))

/-- The branch for `account_root` (lines 64 to 77). -/
def selectAccountRoot (lib : ripple.Library) (request : Object) : Outcome Selected := do
  let field ← request.at "account_root"
  if !field.is_string then invalid "account_rootNotString"
  else do
    let text ← field.as_string
    match lib.parseBase58AccountID (c_str text) with
    | none => Outcome.returned (Except.error (Status.ofClio ClioError.rpcMALFORMED_ADDRESS))
    | some account =>
      if account = 0 then
        Outcome.returned (Except.error (Status.ofClio ClioError.rpcMALFORMED_ADDRESS))
      else
        Outcome.returned
          (Except.ok (lib.account account, ripple.LedgerEntryType.ltACCOUNT_ROOT))

/-- The branch for `check` (lines 78 to 88). -/
def selectCheck (lib : ripple.Library) (request : Object) : Outcome Selected := do
  let field ← request.at "check"
  if !field.is_string then invalid "checkNotString"
  else do
    let text ← field.as_string
    match lib.parseHex (c_str text) with
    | none => invalid "checkMalformed"
    | some key => Outcome.returned (Except.ok (key, ripple.LedgerEntryType.ltCHECK))

/-- The test `!object.contains(key) || !object.at(key).is_string()`. -/
def lacksString (object : Object) (key : String) : Bool :=
  match find key object with
  | some v => !v.is_string
  | none => true

/-- The test `!object.contains(key) || !object.at(key).is_int64()`. -/
def lacksInt64 (object : Object) (key : String) : Bool :=
  match find key object with
  | some v => !v.is_int64
  | none => true

/-- The account read by
`parseBase58<AccountID>(object.at(key).as_string().c_str())`. -/
def accountAt (lib : ripple.Library) (object : Object) (key : String) :
    Outcome (Option ripple.AccountID) := do
  let member ← object.at key
  let text ← member.as_string
  pure (lib.parseBase58AccountID (c_str text))

/-- The branch for `deposit_preauth` (lines 89 to 144). -/
def selectDepositPreauth (lib : ripple.Library) (request : Object) : Outcome Selected := do
  let field ← request.at "deposit_preauth"
  if !field.is_object then
    if !field.is_string then invalid "deposit_preauthMalformed"
    else do
      let text ← field.as_string
      match lib.parseHex (c_str text) with
      | none => invalid "deposit_preauthMalformed"
      | some key =>
        Outcome.returned (Except.ok (key, ripple.LedgerEntryType.ltDEPOSIT_PREAUTH))
  else do
    let object ← field.as_object
    if lacksString object "owner" then invalid "malformedOwner"
    else if lacksString object "authorized" then invalid "authorizedNotString"
    else do
      let owner ← accountAt lib object "owner"
      let authorized ← accountAt lib object "authorized"
      match owner with
      | none => invalid "malformedOwner"
      | some ownerID =>
        match authorized with
        | none => invalid "malformedAuthorized"
        | some authorizedID =>
          Outcome.returned (Except.ok
            (lib.depositPreauth ownerID authorizedID,
              ripple.LedgerEntryType.ltDEPOSIT_PREAUTH))

/-- The branch for `directory` (lines 145 to 218). -/
def selectDirectory (lib : ripple.Library) (request : Object) : Outcome Selected := do
  let field ← request.at "directory"
  if !field.is_object then
    if !field.is_string then invalid "directoryNotString"
    else do
      let text ← field.as_string
      match lib.parseHex (c_str text) with
      | none => invalid "malformedDirectory"
      | some key => Outcome.returned (Except.ok (key, ripple.LedgerEntryType.ltDIR_NODE))
  else do
    let directory ← field.as_object
    if contains directory "sub_index" && lacksInt64 directory "sub_index" then
      invalid "sub_indexNotInt"
    else do
      let subIndex ← RPCng.directorySubIndex directory
      if contains directory "dir_root" then
        if contains directory "owner" then invalid "mayNotSpecifyBothDirRootAndOwner"
        else do
          let member ← directory.at "dir_root"
          let text ← member.as_string
          match lib.parseHex (c_str text) with
          | none => invalid "malformedDirRoot"
          | some uDirRoot =>
            Outcome.returned
              (Except.ok (lib.page uDirRoot subIndex, ripple.LedgerEntryType.ltDIR_NODE))
      else if contains directory "owner" then do
        let ownerID ← accountAt lib directory "owner"
        match ownerID with
        | none =>
          Outcome.returned (Except.error (Status.ofClio ClioError.rpcMALFORMED_ADDRESS))
        | some owner =>
          Outcome.returned (Except.ok
            (lib.page (lib.ownerDir owner) subIndex, ripple.LedgerEntryType.ltDIR_NODE))
      else invalid "missingOwnerOrDirRoot"

/-- The branch for `escrow` (lines 219 to 258). -/
def selectEscrow (lib : ripple.Library) (request : Object) : Outcome Selected := do
  let field ← request.at "escrow"
  if !field.is_object then do
    let text ← field.as_string
    match lib.parseHex (c_str text) with
    | none => invalid "malformedEscrow"
    | some key => Outcome.returned (Except.ok (key, ripple.LedgerEntryType.ltESCROW))
  else do
    let object ← field.as_object
    if lacksString object "owner" then invalid "malformedOwner"
    else if lacksInt64 object "seq" then invalid "malformedSeq"
    else do
      let id ← accountAt lib object "owner"
      match id with
      | none =>
        Outcome.returned (Except.error (Status.ofClio ClioError.rpcMALFORMED_ADDRESS))
      | some account => do
        let member ← object.at "seq"
        let seq ← member.as_int64
        Outcome.returned (Except.ok
          (lib.escrow account (toUInt32 seq), ripple.LedgerEntryType.ltESCROW))

/-- The branch for `offer` (lines 259 to 295). -/
def selectOffer (lib : ripple.Library) (request : Object) : Outcome Selected := do
  let field ← request.at "offer"
  if !field.is_object then do
    let text ← field.as_string
    match lib.parseHex (c_str text) with
    | none => invalid "malformedOffer"
    | some key => Outcome.returned (Except.ok (key, ripple.LedgerEntryType.ltOFFER))
  else do
    let offer ← field.as_object
    if lacksString offer "account" then invalid "malformedAccount"
    else if lacksInt64 offer "seq" then invalid "malformedSeq"
    else do
      let id ← accountAt lib offer "account"
      match id with
      | none =>
        Outcome.returned (Except.error (Status.ofClio ClioError.rpcMALFORMED_ADDRESS))
      | some account => do
        let member ← offer.at "seq"
        let seq ← RPCng.value_to_uint32 member
        Outcome.returned (Except.ok
          (lib.offer account seq.toNat, ripple.LedgerEntryType.ltOFFER))

/-- The branch for `payment_channel` (lines 296 to 306). -/
def selectPaymentChannel (lib : ripple.Library) (request : Object) : Outcome Selected := do
  let field ← request.at "payment_channel"
  if !field.is_string then invalid "paymentChannelNotString"
  else do
    let text ← field.as_string
    match lib.parseHex (c_str text) with
    | none => invalid "malformedPaymentChannel"
    | some key => Outcome.returned (Except.ok (key, ripple.LedgerEntryType.ltPAYCHAN))

/-- The shape test on `accounts` of the `ripple_state` branch (lines 324 to
330), evaluated left to right with the short-circuit of `||`. -/
def stateAccountsMalformed (state : Object) : Outcome Bool :=
  if !contains state "accounts" then pure true
  else do
    let accounts ← state.at "accounts"
    if !accounts.is_array then pure true
    else do
      let elems ← accounts.as_array
      if 2 != elems.length then pure true
      else do
        let first ← arrayAt elems 0
        if !first.is_string then pure true
        else do
          let second ← arrayAt elems 1
          if !second.is_string then pure true
          else do
            let a ← first.as_string
            let b ← second.as_string
            pure (decide (a = b))

/-- The string `state.at("accounts").as_array().at(pos).as_string().c_str()`. -/
def stateAccount (state : Object) (pos : Nat) : Outcome String := do
  let accounts ← state.at "accounts"
  let elems ← accounts.as_array
  let element ← arrayAt elems pos
  let text ← element.as_string
  pure (c_str text)

/-- The branch for `ripple_state` (lines 307 to 350). -/
def selectRippleState (lib : ripple.Library) (request : Object) : Outcome Selected := do
  let field ← request.at "ripple_state"
  if !field.is_object then invalid "rippleStateNotObject"
  else do
    let state ← field.as_object
    if lacksString state "currency" then invalid "currencyNotString"
    else do
      let malformed ← stateAccountsMalformed state
      if malformed then invalid "malformedAccounts"
      else do
        let a ← stateAccount state 0
        let b ← stateAccount state 1
        match lib.parseBase58AccountID a, lib.parseBase58AccountID b with
        | some id1, some id2 => do
          let member ← state.at "currency"
          let code ← member.as_string
          match lib.to_currency (c_str code) with
          | none =>
            Outcome.returned (Except.error
              (Status.ofClioMessage ClioError.rpcMALFORMED_CURRENCY "malformedCurrency"))
          | some currency =>
            Outcome.returned (Except.ok
              (lib.line id1 id2 currency, ripple.LedgerEntryType.ltRIPPLE_STATE))
        | _, _ =>
          Outcome.returned (Except.error
            (Status.ofClioMessage ClioError.rpcMALFORMED_ADDRESS "malformedAddresses"))

/-- The branch for `ticket` (lines 351 to 399). -/
def selectTicket (lib : ripple.Library) (request : Object) : Outcome Selected := do
  let field ← request.at "ticket"
  if !field.is_object then
    if !field.is_string then
      Outcome.returned (Except.error
        (Status.ofClioMessage ClioError.rpcMALFORMED_REQUEST "ticketNotString"))
    else do
      let text ← field.as_string
      match lib.parseHex (c_str text) with
      | none =>
        Outcome.returned (Except.error
          (Status.ofClioMessage ClioError.rpcMALFORMED_REQUEST "malformedTicket"))
      | some key => Outcome.returned (Except.ok (key, ripple.LedgerEntryType.ltTICKET))
  else do
    let object ← field.as_object
    if lacksString object "account" then
      Outcome.returned (Except.error (Status.ofClio ClioError.rpcMALFORMED_REQUEST))
    else if lacksInt64 object "ticket_seq" then
      Outcome.returned (Except.error
        (Status.ofClioMessage ClioError.rpcMALFORMED_REQUEST "malformedTicketSeq"))
    else do
      let id ← accountAt lib object "account"
      match id with
      | none =>
        Outcome.returned (Except.error (Status.ofClio ClioError.rpcMALFORMED_OWNER))
      | some account => do
        let member ← object.at "ticket_seq"
        let seq ← member.as_int64
        Outcome.returned (Except.ok
          (lib.getTicketIndex account (toUInt32 seq), ripple.LedgerEntryType.ltTICKET))

/-- The selection part of `doLedgerEntry` (lines 50 to 403): the chain of
`else if (request.contains(...))` in the order it is written. -/
def selectEntry (lib : ripple.Library) (request : Object) : Outcome Selected :=
  if contains request "index" then selectIndex lib request
  else if contains request "account_root" then selectAccountRoot lib request
  else if contains request "check" then selectCheck lib request
  else if contains request "deposit_preauth" then selectDepositPreauth lib request
  else if contains request "directory" then selectDirectory lib request
  else if contains request "escrow" then selectEscrow lib request
  else if contains request "offer" then selectOffer lib request
  else if contains request "payment_channel" then selectPaymentChannel lib request
  else if contains request "ripple_state" then selectRippleState lib request
  else if contains request "ticket" then selectTicket lib request
  else invalid "unknownOption"

/-- The last part of `doLedgerEntry` (lines 405 to 430): fetch the object,
check its type and fill the response. -/
def respond {Yield : Type} (lib : ripple.Library) (context : Context Yield)
    (binary : Bool) (lgrInfo : ripple.LedgerInfo) (key : ripple.uint256)
    (expectedType : ripple.LedgerEntryType) : Outcome Result := do
  let dbResponse ← context.backend.fetchLedgerObject key lgrInfo.seq context.yield
  match dbResponse with
  | none => Outcome.returned (Except.error (Status.ofMessage "entryNotFound"))
  | some blob =>
    if blob.length = 0 then
      Outcome.returned (Except.error (Status.ofMessage "entryNotFound"))
    else do
      let sle ← lib.deserialize blob key
      if expectedType ≠ ripple.LedgerEntryType.ltANY ∧ sle.type ≠ expectedType then
        Outcome.returned (Except.error (Status.ofMessage "unexpectedLedgerType"))
      else
        let response : Object := []
        let response := response.set "index" (Json.string (lib.strHex key))
        let response := response.set "ledger_hash" (Json.string (lib.strHex lgrInfo.hash))
        let response := response.set "ledger_index" (Json.uint64 lgrInfo.seq)
        if binary then
          Outcome.returned (Except.ok
            (response.set "node_binary" (Json.string (lib.strHexBlob blob))))
        else
          Outcome.returned (Except.ok (response.set "node" (Json.object sle.json)))

/-- The handler `doLedgerEntry` (rpc/handlers/LedgerEntry.cpp, lines 36 to
431). -/
def doLedgerEntry {Yield : Type} (lib : ripple.Library) (helpers : Helpers Yield)
    (context : Context Yield) : Outcome Result := do
  let request := context.params
  let binary ← helpers.getBool request "binary" false
  let v ← helpers.ledgerInfoFromRequest context
  match v with
  | Except.error status => Outcome.returned (Except.error status)
  | Except.ok lgrInfo => do
    let selected ← selectEntry lib request
    match selected with
    | Except.error status => Outcome.returned (Except.error status)
    | Except.ok (key, expectedType) => respond lib context binary lgrInfo key expectedType

/-! ### The channel authorize handler (`rpc/handlers/ChannelAuthorize.cpp`) -/

/-- The big-endian bytes of `value` on `width` bytes, as `Serializer::add32`,
`add64` and `addBitString` append them. -/
def bigEndian (width : Nat) (value : Nat) : List Nat :=
  (List.range width).map (fun i => value / 256 ^ (width - 1 - i) % 256)

/-- The function `serializePayChanAuthorization` (lines 32 to 41): the hash
prefix on 32 bits, the channel key on 256 bits, the drops on 64 bits.
`paymentChannelClaim` is the constant `HashPrefix::paymentChannelClaim` of the
rippled library. -/
def serializePayChanAuthorization (paymentChannelClaim : Nat)
    (key : ripple.uint256) (drops : Nat) : ripple.Blob :=
  bigEndian 4 paymentChannelClaim ++ bigEndian 32 key ++ bigEndian 8 drops

/-- What `doChannelAuthorize` calls outside this file: helpers of
`rpc/RPCHelpers.h` and functions of the rippled library. -/
structure ChannelLibrary where
  /-- The helper `keypairFromRequst(request)`: the key pair or a Status. -/
  keypairFromRequst : Object → Outcome (Except Status (ripple.Blob × ripple.Blob))
  /-- The helper `getChannelId(request, channelId)`: the channel id it
  stores, or the Status that converts to true. -/
  getChannelId : Object → Outcome (Except Status ripple.uint256)
  /-- The parser `ripple::to_uint64`. -/
  to_uint64 : String → Option Nat
  /-- The constant `HashPrefix::paymentChannelClaim`. -/
  paymentChannelClaim : Nat
  /-- The function `ripple::sign(pk, sk, message)`; it may throw. -/
  sign : ripple.Blob → ripple.Blob → ripple.Blob → Outcome ripple.Blob
  /-- The function `strHex` on a buffer. -/
  strHex : ripple.Blob → String

/-- The part of `doChannelAuthorize` after the presence checks (lines 59 to
93). -/
def authorize (lib : ChannelLibrary) (request : Object) : Outcome Result := do
  let v ← lib.keypairFromRequst request
  match v with
  | Except.error status => Outcome.returned (Except.error status)
  | Except.ok (pk, sk) => do
    let channel ← lib.getChannelId request
    match channel with
    | Except.error status => Outcome.returned (Except.error status)
    | Except.ok channelId => do
      let amount ← request.at "amount"
      let text ← amount.as_string
      match lib.to_uint64 (c_str text) with
      | none =>
        Outcome.returned (Except.error
          (Status.ofCodeMessage RippledError.rpcCHANNEL_AMT_MALFORMED "couldNotParseAmount"))
      | some drops =>
        let msg := serializePayChanAuthorization lib.paymentChannelClaim channelId drops
        match lib.sign pk sk msg with
        | Outcome.returned buf =>
          let response : Object := []
          Outcome.returned (Except.ok
            (response.set "signature" (Json.string (lib.strHex buf))))
        | Outcome.threw =>
          Outcome.returned (Except.error (Status.ofCode RippledError.rpcINTERNAL))
        | Outcome.undefined => Outcome.undefined

/-- The handler `doChannelAuthorize` (lines 43 to 94). -/
def doChannelAuthorize {Yield : Type} (lib : ChannelLibrary) (context : Context Yield) :
    Outcome Result :=
  let request := context.params
  if !contains request "amount" then
    Outcome.returned (Except.error
      (Status.ofCodeMessage RippledError.rpcINVALID_PARAMS "missingAmount"))
  else do
    let amount ← request.at "amount"
    if !amount.is_string then
      Outcome.returned (Except.error
        (Status.ofCodeMessage RippledError.rpcINVALID_PARAMS "amountNotString"))
    else if !contains request "key_type" && !contains request "secret" then
      Outcome.returned (Except.error
        (Status.ofCodeMessage RippledError.rpcINVALID_PARAMS "missingKeyTypeOrSecret"))
    else authorize lib request

end RPC

/-! ## The channel verify handler (`rpc/handlers/ChannelVerify.cpp`) -/

namespace RPC

/-- What `doChannelVerify` calls outside this file: a helper of
`rpc/RPCHelpers.h` and functions of the rippled library. -/
structure VerifyLibrary where
  /-- The parser `parseBase58<PublicKey>(TokenType::AccountPublic, text)`. -/
  parseBase58PublicKey : String → Option ripple.Blob
  /-- The function `ripple::strUnHex`. -/
  strUnHex : String → Option ripple.Blob
  /-- The function `ripple::publicKeyType` on the bytes of a key: whether they
  have a key type. -/
  publicKeyType : ripple.Blob → Bool
  /-- The helper `getChannelId(request, channelId)`: the channel id it
  stores, or the Status that converts to true. -/
  getChannelId : Object → Outcome (Except Status ripple.uint256)
  /-- The parser `ripple::to_uint64`. -/
  to_uint64 : String → Option Nat
  /-- The constant `HashPrefix::paymentChannelClaim`. -/
  paymentChannelClaim : Nat
  /-- The function `ripple::verify(pk, message, signature, true)`. -/
  verify : ripple.Blob → ripple.Blob → ripple.Blob → Bool

/-- The block of `doChannelVerify` that reads the public key (lines 56 to
78): the key, or the Status returned in its place. -/
def verifyKey (lib : VerifyLibrary) (request : Object) :
    Outcome (Except Status ripple.Blob) := do
  let field ← request.at "public_key"
  let text ← field.as_string
  let strPk := c_str text
  match lib.parseBase58PublicKey strPk with
  | some pk => Outcome.returned (Except.ok pk)
  | none =>
    match lib.strUnHex strPk with
    | none =>
      Outcome.returned (Except.error
        (Status.ofCodeMessage RippledError.rpcPUBLIC_MALFORMED "malformedPublicKey"))
    | some pkHex =>
      if !lib.publicKeyType pkHex then
        Outcome.returned (Except.error
          (Status.ofCodeMessage RippledError.rpcPUBLIC_MALFORMED "invalidKeyType"))
      else Outcome.returned (Except.ok pkHex)

/-- The part of `doChannelVerify` after the presence and type checks (lines
56 to 105). -/
def verifyClaim (lib : VerifyLibrary) (request : Object) : Outcome Result := do
  let key ← verifyKey lib request
  match key with
  | Except.error status => Outcome.returned (Except.error status)
  | Except.ok pk => do
    let channel ← lib.getChannelId request
    match channel with
    | Except.error status => Outcome.returned (Except.error status)
    | Except.ok channelId => do
      let amount ← request.at "amount"
      let text ← amount.as_string
      match lib.to_uint64 (c_str text) with
      | none =>
        Outcome.returned (Except.error
          (Status.ofCodeMessage RippledError.rpcCHANNEL_AMT_MALFORMED "couldNotParseAmount"))
      | some drops => do
        let field ← request.at "signature"
        let hex ← field.as_string
        match lib.strUnHex (c_str hex) with
        | none =>
          Outcome.returned (Except.error
            (Status.ofCodeMessage RippledError.rpcINVALID_PARAMS "invalidSignature"))
        | some sig =>
          if sig.length = 0 then
            Outcome.returned (Except.error
              (Status.ofCodeMessage RippledError.rpcINVALID_PARAMS "invalidSignature"))
          else
            let msg := serializePayChanAuthorization lib.paymentChannelClaim channelId drops
            let response : Object := []
            Outcome.returned (Except.ok
              (response.set "signature_verified" (Json.bool (lib.verify pk msg sig))))

/-- The handler `doChannelVerify` (lines 32 to 106). -/
def doChannelVerify {Yield : Type} (lib : VerifyLibrary) (context : Context Yield) :
    Outcome Result :=
  let request := context.params
  if !contains request "amount" then
    Outcome.returned (Except.error
      (Status.ofCodeMessage RippledError.rpcINVALID_PARAMS "missingAmount"))
  else do
    let amount ← request.at "amount"
    if !amount.is_string then
      Outcome.returned (Except.error
        (Status.ofCodeMessage RippledError.rpcINVALID_PARAMS "amountNotString"))
    else if !contains request "signature" then
      Outcome.returned (Except.error
        (Status.ofCodeMessage RippledError.rpcINVALID_PARAMS "missingSignature"))
    else do
      let signature ← request.at "signature"
      if !signature.is_string then
        Outcome.returned (Except.error
          (Status.ofCodeMessage RippledError.rpcINVALID_PARAMS "signatureNotString"))
      else if !contains request "public_key" then
        Outcome.returned (Except.error
          (Status.ofCodeMessage RippledError.rpcINVALID_PARAMS "missingPublicKey"))
      else do
        let publicKey ← request.at "public_key"
        if !publicKey.is_string then
          Outcome.returned (Except.error
            (Status.ofCodeMessage RippledError.rpcINVALID_PARAMS "publicKeyNotString"))
        else verifyClaim lib request

/-! ### The order of the selectors, in the words of the specification -/

/-- The ten selector fields of legacy `doLedgerEntry` in the order the
specification states, each with the branch that handles it. -/
def legacySelectors (lib : ripple.Library) : List (String × (Object → Outcome Selected)) :=
  [("index", selectIndex lib),
   ("account_root", selectAccountRoot lib),
   ("check", selectCheck lib),
   ("deposit_preauth", selectDepositPreauth lib),
   ("directory", selectDirectory lib),
   ("escrow", selectEscrow lib),
   ("offer", selectOffer lib),
   ("payment_channel", selectPaymentChannel lib),
   ("ripple_state", selectRippleState lib),
   ("ticket", selectTicket lib)]

/-- Selection as the specification words it: the entry is selected by the
first field present in the given order, and with none present the result is
invalid-params `unknownOption`. This definition follows the specification and
not `doLedgerEntry`; the theorems compare the two. -/
def selectByOrder (selectors : List (String × (Object → Outcome Selected)))
    (request : Object) : Outcome Selected :=
  match selectors.find? (fun selector => contains request selector.1) with
  | some selector => selector.2 request
  | none => invalid "unknownOption"

end RPC

/-! ## The gateway balances handler (`rpc/ngHandlers/GatewayBalances.h`) -/

namespace RPCng.GatewayBalancesHandler

/-- The two functions of the rippled library that `hotWalletValidator` calls
besides `parseBase58<AccountID>`. -/
structure PublicKeys where
  /-- The parser `parseBase58<PublicKey>(TokenType::AccountPublic, text)`. -/
  parseBase58PublicKey : String → Option ripple.Blob
  /-- The function `calcAccountID`. -/
  calcAccountID : ripple.Blob → ripple.AccountID

/-- The local function `getAccountID` of `hotWalletValidator`
(GatewayBalances.h, lines 80 to 92): a string is read as an account public
key, then as an account ID; any other value gives no account. -/
def getAccountID (lib : ripple.Library) (keys : PublicKeys) (j : Json) :
    Outcome (Option ripple.AccountID) :=
  if j.is_string then do
    let text ← j.as_string
    match keys.parseBase58PublicKey (c_str text) with
    | some pk => pure (some (keys.calcAccountID pk))
    | none => do
      let again ← j.as_string
      pure (lib.parseBase58AccountID (c_str again))
  else pure none

/-- The loop over `wallets` (GatewayBalances.h, lines 93 to 99): the first
wallet without an account ends it with the Status `key + "Malformed"`. -/
def checkWallets (lib : ripple.Library) (keys : PublicKeys) (key : String) :
    List Json → Outcome MaybeError
  | [] => Outcome.returned (Except.ok ())
  | wallet :: rest => do
    let account ← getAccountID lib keys wallet
    if account.isNone then
      Outcome.returned (Except.error (RPC.Status.ofCodeMessage
        RPC.RippledError.rpcINVALID_PARAMS (key ++ "Malformed")))
    else checkWallets lib keys key rest

/-- The function wrapped by the custom validator `hotWalletValidator`
(GatewayBalances.h, lines 70 to 101). A value that is not an array is put in
a one-element array, `boost::json::array{value}`. -/
def hotWalletValidator (lib : ripple.Library) (keys : PublicKeys) (value : Json)
    (key : String) : Outcome MaybeError :=
  if !value.is_string && !value.is_array then
    Outcome.returned (Except.error (RPC.Status.ofCodeMessage
      RPC.RippledError.rpcINVALID_PARAMS (key ++ "NotStringOrArray")))
  else do
    let wallets ← if value.is_array then value.as_array else pure [value]
    checkWallets lib keys key wallets

end RPCng.GatewayBalancesHandler

/-! ## Stand-ins for the external collaborators

The theorems hold for every library and backend. To run the handlers on
concrete requests the examples use the stand-ins below: identifiers and
accounts are written as decimal numbers, keys are simple arithmetic, and the
backend stores one object. -/

namespace Fixture

/-- Reads a non-empty run of decimal digits. -/
def decimal (text : String) : Option Nat :=
  if text.data ≠ [] ∧ text.data.all Char.isDigit then some (std.digitsValue text.data)
  else none

/-- A library whose parsers read decimal numbers. -/
def lib : ripple.Library where
  parseHex := decimal
  parseBase58AccountID := decimal
  to_currency := decimal
  noCurrency := 0
  account := fun a => 1000 + a
  ownerDir := fun a => 2000 + a
  page := fun root index => root + index
  offer := fun a seq => 3000 + a + seq
  line := fun a b c => 4000 + a + b + c
  escrow := fun a seq => 5000 + a + seq
  depositPreauth := fun a b => 6000 + a + b
  getTicketIndex := fun a seq => 7000 + a + seq
  strHex := fun key => toString key
  strHexBlob := fun blob => toString blob.length
  deserialize := fun _ _ =>
    Outcome.returned { type := ripple.LedgerEntryType.ltACCOUNT_ROOT, json := [] }

/-- A backend holding ledgers 1 to 10 and a three-byte object under key 7. -/
def backend : BackendInterface Unit where
  fetchLedgerRange := some { minSequence := 1, maxSequence := 10 }
  fetchLedgerObject := fun key _ _ =>
    Outcome.returned (if key = 7 then some [1, 2, 3] else none)

/-- A ledger lookup that always resolves to the newest ledger. -/
def getLedgerInfoFromHashOrSeq : RPCng.LedgerEntryHandler.GetLedgerInfoFromHashOrSeq Unit :=
  fun _ _ _ _ maxSequence => Outcome.returned (Except.ok { seq := maxSequence, hash := 99 })

/-- Legacy helpers: `binary` is read when it is a bool, and the ledger always
resolves to ledger 10. -/
def helpers : RPC.Helpers Unit where
  getBool := fun request field dfault =>
    match find field request with
    | none => Outcome.returned dfault
    | some (Json.bool b) => Outcome.returned b
    | some _ => Outcome.threw
  ledgerInfoFromRequest := fun _ => Outcome.returned (Except.ok { seq := 10, hash := 99 })

/-- The legacy context for a request. -/
def context (request : Object) : RPC.Context Unit :=
  { params := request, backend := backend, yield := () }

/-- A channel library: the key pair comes from `secret`, the channel id from
a decimal `channel_id`, amounts are decimal, and signing appends the secret
key to the message. -/
def channel : RPC.ChannelLibrary where
  keypairFromRequst := fun request =>
    match find "secret" request with
    | some (Json.string _) => Outcome.returned (Except.ok ([1], [2]))
    | _ =>
      Outcome.returned (Except.error
        (RPC.Status.ofCodeMessage RPC.RippledError.rpcINVALID_PARAMS "secretNotString"))
  getChannelId := fun request =>
    match find "channel_id" request with
    | some (Json.string text) =>
      match decimal text with
      | some id => Outcome.returned (Except.ok id)
      | none =>
        Outcome.returned (Except.error
          (RPC.Status.ofCodeMessage RPC.RippledError.rpcINVALID_PARAMS "malformedChannelID"))
    | _ =>
      Outcome.returned (Except.error
        (RPC.Status.ofCodeMessage RPC.RippledError.rpcINVALID_PARAMS "missingChannelID"))
  to_uint64 := decimal
  paymentChannelClaim := 1129073920
  sign := fun _ sk msg => Outcome.returned (msg ++ sk)
  strHex := fun buf => toString buf.length

end Fixture

/-- Public keys for the examples: the text `pk` followed by a decimal number
is the key of that account. -/
def Fixture.publicKeys : RPCng.GatewayBalancesHandler.PublicKeys where
  parseBase58PublicKey := fun text =>
    match text.data with
    | 'p' :: 'k' :: digits =>
      if digits ≠ [] ∧ digits.all Char.isDigit then some [std.digitsValue digits] else none
    | _ => none
  calcAccountID := fun pk => pk.headD 0

/-- The example backend without any ledger: `fetchLedgerRange` reports no
range. -/
def Fixture.emptyBackend : BackendInterface Unit where
  fetchLedgerRange := none
  fetchLedgerObject := fun _ _ _ => Outcome.returned none

/-- The example backend with a store that times out: `fetchLedgerObject`
throws. -/
def Fixture.timeoutBackend : BackendInterface Unit where
  fetchLedgerRange := some { minSequence := 1, maxSequence := 10 }
  fetchLedgerObject := fun _ _ _ => Outcome.threw

/-- A verify library for the examples: keys, signatures and amounts are
decimal, every key has a type, and a signature verifies when it is the number
of bytes of the message. -/
def Fixture.verifier : RPC.VerifyLibrary where
  parseBase58PublicKey := fun _ => none
  strUnHex := fun text =>
    match Fixture.decimal text with
    | some n => some [n]
    | none => none
  publicKeyType := fun _ => true
  getChannelId := Fixture.channel.getChannelId
  to_uint64 := Fixture.decimal
  paymentChannelClaim := 1129073920
  verify := fun _ msg sig => decide (sig = [msg.length])

/-- A backend holding ledgers 1 to 10 and a three-byte object under every
key. -/
def Fixture.fullBackend : BackendInterface Unit where
  fetchLedgerRange := some { minSequence := 1, maxSequence := 10 }
  fetchLedgerObject := fun _ _ _ => Outcome.returned (some [1, 2, 3])

/-! ## Lemmas shared by the theorems -/

namespace RPCng

open detail validation

theorem forward_ok_iff {Output : Type} (value_from : Output → Outcome Json)
    (ret : HandlerReturnType Output) (jv : Json) :
    forward value_from ret = Outcome.returned (Except.ok jv) ↔
      ∃ out, ret = Except.ok out ∧ value_from out = Outcome.returned jv := by
  cases ret with
  | error s => simp [forward]
  | ok out =>
    cases h : value_from out <;>
      simp [forward, h, bind, Outcome.bind]

theorem run_ok_iff {Output : Type} (value_from : Output → Outcome Json)
    (run : Outcome (HandlerReturnType Output)) (jv : Json) :
    (run >>= forward value_from) = Outcome.returned (Except.ok jv) ↔
      ∃ out, run = Outcome.returned (Except.ok out) ∧
        value_from out = Outcome.returned jv := by
  cases run with
  | returned ret =>
    simp only [bind, Outcome.bind, forward_ok_iff, Outcome.returned.injEq]
  | threw => simp [bind, Outcome.bind]
  | undefined => simp [bind, Outcome.bind]

end RPCng

/-! ## The processor: validate, decode, invoke, encode -/

namespace RPCng

open detail validation

/-- C1: for a handler with an Input, when `spec().validate(document)` returns
an error Status `s`, `DefaultProcessor` returns exactly `Error s`; the result
is the same for every decoder, every `process` of either shape, every encoder
and every yield pointer, so neither decoding nor `process` takes part in it. -/
theorem DefaultProcessor_forwards_validation_error {Input Output Yield : Type}
    (spec : RpcSpec) (document : Json) (s : RPC.Status)
    (hvalidate : spec.validate document = Outcome.returned (Except.error s))
    (value_to : Json → Outcome Input) (process : Process Input Output Yield)
    (value_from : Output → Outcome Json) (ptrYield : Option Yield) :
    DefaultProcessor (Handler.withInput spec value_to process value_from) document ptrYield
      = Outcome.returned (Except.error s) := by
  simp [DefaultProcessor, hvalidate, bind, Outcome.bind]

/-- Witness for C1: the schema requires `binary` to be a bool, the document
carries a number there, and the decoder and `process` would both throw. -/
theorem DefaultProcessor_forwards_validation_error_witness :
    DefaultProcessor
        (Handler.withInput
          (RpcSpec.mk [FieldSpec.mk "binary" [Type_.verify [Expected.bool]]])
          (fun _ => (Outcome.threw : Outcome Unit))
          (Process.nonCoroutine (fun _ => (Outcome.threw : Outcome (HandlerReturnType Unit))))
          (fun _ => Outcome.threw) : Handler Unit Unit Unit)
        (Json.object [("binary", Json.int64 5)]) none
      = Outcome.returned
          (Except.error (RPC.Status.ofCode RPC.RippledError.rpcINVALID_PARAMS)) :=
  DefaultProcessor_forwards_validation_error
    (RpcSpec.mk [FieldSpec.mk "binary" [Type_.verify [Expected.bool]]])
    (Json.object [("binary", Json.int64 5)])
    (RPC.Status.ofCode RPC.RippledError.rpcINVALID_PARAMS)
    rfl _ _ _ _

/-- C2: for a handler with an Input whose document passes validation and
decodes to `i`, a Status `s` returned by `process` comes back from
`DefaultProcessor` as `Error s`, the very same Status (kind and detail), both
for the synchronous shape and for the suspending shape run with a yield
context. -/
theorem DefaultProcessor_forwards_process_error {Input Output Yield : Type}
    (spec : RpcSpec) (document : Json) (i : Input) (s : RPC.Status)
    (value_to : Json → Outcome Input) (value_from : Output → Outcome Json)
    (hvalidate : spec.validate document = Outcome.returned (Except.ok ()))
    (hdecode : value_to document = Outcome.returned i) :
    (∀ (p : Input → Outcome (HandlerReturnType Output)) (ptrYield : Option Yield),
        p i = Outcome.returned (Except.error s) →
        DefaultProcessor
            (Handler.withInput spec value_to (Process.nonCoroutine p) value_from)
            document ptrYield
          = Outcome.returned (Except.error s)) ∧
    (∀ (p : Input → Yield → Outcome (HandlerReturnType Output)) (yield : Yield),
        p i yield = Outcome.returned (Except.error s) →
        DefaultProcessor
            (Handler.withInput spec value_to (Process.coroutine p) value_from)
            document (some yield)
          = Outcome.returned (Except.error s)) := by
  constructor
  · intro p ptrYield hp
    simp [DefaultProcessor, hvalidate, hdecode, hp, forward, bind, Outcome.bind]
  · intro p yield hp
    simp [DefaultProcessor, hvalidate, hdecode, hp, forward, bind, Outcome.bind]

/-- Witness for C2: an empty schema, a decoder reading the bool under
`binary`, and a `process` that answers every input with a Status carrying the
detail `entryNotFound`. -/
theorem DefaultProcessor_forwards_process_error_witness :
    DefaultProcessor
        (Handler.withInput (RpcSpec.mk [])
          (fun jv => Outcome.returned (member jv "binary").isSome)
          (Process.nonCoroutine (fun _ => Outcome.returned (Except.error
            (RPC.Status.ofCodeMessage RPC.RippledError.rpcUNKNOWN "entryNotFound"))))
          (fun b => Outcome.returned (Json.bool b)) : Handler Bool Bool Unit)
        (Json.object [("binary", Json.bool true)]) none
      = Outcome.returned (Except.error
          (RPC.Status.ofCodeMessage RPC.RippledError.rpcUNKNOWN "entryNotFound")) :=
  (DefaultProcessor_forwards_process_error (RpcSpec.mk [])
    (Json.object [("binary", Json.bool true)]) true
    (RPC.Status.ofCodeMessage RPC.RippledError.rpcUNKNOWN "entryNotFound")
    (fun jv => Outcome.returned (member jv "binary").isSome)
    (fun b => Outcome.returned (Json.bool b)) rfl rfl).1 _ none rfl

/-- C3: for a handler with an Input, `DefaultProcessor` returns a success
document `jv` if and only if validation of the document passes, the document
decodes to an Input on which `process` returns an Output `out`, and `jv` is
the encoding `value_from(out)`. Stated for the synchronous shape and for the
suspending shape, which needs a yield context to run. -/
theorem DefaultProcessor_success_iff {Input Output Yield : Type}
    (spec : RpcSpec) (document : Json) (jv : Json)
    (value_to : Json → Outcome Input) (value_from : Output → Outcome Json)
    (ptrYield : Option Yield) :
    (∀ p : Input → Outcome (HandlerReturnType Output),
        DefaultProcessor
            (Handler.withInput spec value_to (Process.nonCoroutine p) value_from)
            document ptrYield
          = Outcome.returned (Except.ok jv) ↔
        spec.validate document = Outcome.returned (Except.ok ()) ∧
          ∃ i out, value_to document = Outcome.returned i ∧
            p i = Outcome.returned (Except.ok out) ∧
            value_from out = Outcome.returned jv) ∧
    (∀ p : Input → Yield → Outcome (HandlerReturnType Output),
        DefaultProcessor
            (Handler.withInput spec value_to (Process.coroutine p) value_from)
            document ptrYield
          = Outcome.returned (Except.ok jv) ↔
        spec.validate document = Outcome.returned (Except.ok ()) ∧
          ∃ i out yield, ptrYield = some yield ∧
            value_to document = Outcome.returned i ∧
            p i yield = Outcome.returned (Except.ok out) ∧
            value_from out = Outcome.returned jv) := by
  constructor
  · intro p
    cases hv : spec.validate document with
    | returned ret =>
      cases ret with
      | error s => simp [DefaultProcessor, hv, bind, Outcome.bind]
      | ok u =>
        cases hd : value_to document with
        | returned i =>
          have h := run_ok_iff value_from (p i) jv
          simp only [bind, Outcome.bind] at h
          simpa [DefaultProcessor, hv, hd, bind, Outcome.bind] using h
        | threw => simp [DefaultProcessor, hv, hd, bind, Outcome.bind]
        | undefined => simp [DefaultProcessor, hv, hd, bind, Outcome.bind]
    | threw => simp [DefaultProcessor, hv, bind, Outcome.bind]
    | undefined => simp [DefaultProcessor, hv, bind, Outcome.bind]
  · intro p
    cases hv : spec.validate document with
    | returned ret =>
      cases ret with
      | error s => simp [DefaultProcessor, hv, bind, Outcome.bind]
      | ok u =>
        cases hd : value_to document with
        | returned i =>
          cases ptrYield with
          | none => simp [DefaultProcessor, hv, hd, bind, Outcome.bind]
          | some yield =>
            have h := run_ok_iff value_from (p i yield) jv
            simp only [bind, Outcome.bind] at h
            simpa [DefaultProcessor, hv, hd, bind, Outcome.bind] using h
        | threw => simp [DefaultProcessor, hv, hd, bind, Outcome.bind]
        | undefined => simp [DefaultProcessor, hv, hd, bind, Outcome.bind]
    | threw => simp [DefaultProcessor, hv, bind, Outcome.bind]
    | undefined => simp [DefaultProcessor, hv, bind, Outcome.bind]

/-- C4: for a handler that declares no Input, `DefaultProcessor` does not
look at the raw document (the handler has no schema and no decoder to run):
any two documents and yield pointers give the same result, which is `Error s`
when `process()` returns the Status `s` and the encoding `value_from(out)`
when it returns the Output `out`. -/
theorem DefaultProcessor_without_input {Output Yield : Type}
    (process : Unit → Outcome (HandlerReturnType Output))
    (value_from : Output → Outcome Json) (ret : HandlerReturnType Output)
    (hprocess : process () = Outcome.returned ret)
    (document₁ document₂ : Json) (ptrYield₁ ptrYield₂ : Option Yield) :
    DefaultProcessor (Handler.withoutInput process value_from : Handler Unit Output Yield)
        document₁ ptrYield₁
      = DefaultProcessor (Handler.withoutInput process value_from : Handler Unit Output Yield)
        document₂ ptrYield₂ ∧
    (∀ s, ret = Except.error s →
      DefaultProcessor (Handler.withoutInput process value_from : Handler Unit Output Yield)
          document₁ ptrYield₁
        = Outcome.returned (Except.error s)) ∧
    (∀ out jv, ret = Except.ok out → value_from out = Outcome.returned jv →
      DefaultProcessor (Handler.withoutInput process value_from : Handler Unit Output Yield)
          document₁ ptrYield₁
        = Outcome.returned (Except.ok jv)) := by
  refine ⟨rfl, ?_, ?_⟩
  · intro s hs
    subst hs
    simp [DefaultProcessor, hprocess, forward, bind, Outcome.bind]
  · intro out jv hout hjv
    subst hout
    simp [DefaultProcessor, hprocess, forward, hjv, bind, Outcome.bind]

/-- Witness for C4: a handler without Input whose `process()` returns 7,
encoded as a JSON number, run on an object and on null. -/
theorem DefaultProcessor_without_input_witness :
    DefaultProcessor
        (Handler.withoutInput (fun _ => Outcome.returned (Except.ok (7 : Nat)))
          (fun n => Outcome.returned (Json.uint64 n)) : Handler Unit Nat Unit)
        (Json.object [("binary", Json.bool true)]) none
      = Outcome.returned (Except.ok (Json.uint64 7)) :=
  (DefaultProcessor_without_input (fun _ => Outcome.returned (Except.ok (7 : Nat)))
    (fun n => Outcome.returned (Json.uint64 n)) (Except.ok 7) rfl
    (Json.object [("binary", Json.bool true)]) Json.null none none).2.2 7 _ rfl rfl

end RPCng

/-! ## Field validators -/

namespace RPCng.validation

theorem c_str_of_no_nul (text : String) (hnul : ∀ c ∈ text.data, c ≠ Char.ofNat 0) :
    c_str text = text := by
  have htake : text.data.takeWhile (fun c => decide (c ≠ Char.ofNat 0)) = text.data := by
    apply List.takeWhile_eq_self_iff.mpr
    intro c hc
    simpa using hnul c hc
  unfold c_str
  rw [htake]

theorem member_of_absent (value : Json) (key : String)
    (habsent : value.is_object = false ∨
      ∃ members, value = Json.object members ∧ contains members (c_str key) = false) :
    member value key = none := by
  rcases habsent with h | ⟨members, rfl, h⟩
  · cases value <;> simp_all [member, Json.is_object]
  · simpa [member, contains] using h

theorem member_of_present (members : List (String × Json)) (key : String) (field : Json)
    (hfield : find (c_str key) members = some field) :
    member (Json.object members) key = some field := by
  simpa [member] using hfield

/-- Counterexample to C5: the key is `a`, a NUL character, `b`, and the
document is `{"a": 5}`, which does not contain that key. The validators look
up `key.data()`, the C string `a`, find the number 5 under it and judge it:
`Type<bool>`, `Between(0, 1)`, `EqualTo(6)` and `OneOf{1, 2}` all fail with
invalid-params instead of returning success. -/
theorem verify_reads_key_up_to_nul :
    contains [("a", Json.int64 5)] (String.mk ['a', Char.ofNat 0, 'b']) = false ∧
    Type_.verify [Expected.bool] (Json.object [("a", Json.int64 5)])
        (String.mk ['a', Char.ofNat 0, 'b'])
      = Outcome.returned
          (Except.error (RPC.Status.ofCode RPC.RippledError.rpcINVALID_PARAMS)) ∧
    (Between.mk (0 : Int) 1).verify value_to_int (Json.object [("a", Json.int64 5)])
        (String.mk ['a', Char.ofNat 0, 'b'])
      = Outcome.returned
          (Except.error (RPC.Status.ofCode RPC.RippledError.rpcINVALID_PARAMS)) ∧
    (EqualTo.mk (6 : Int)).verify value_to_int (Json.object [("a", Json.int64 5)])
        (String.mk ['a', Char.ofNat 0, 'b'])
      = Outcome.returned
          (Except.error (RPC.Status.ofCode RPC.RippledError.rpcINVALID_PARAMS)) ∧
    (OneOf.mk [(1 : Int), 2]).verify value_to_int (Json.object [("a", Json.int64 5)])
        (String.mk ['a', Char.ofNat 0, 'b'])
      = Outcome.returned
          (Except.error (RPC.Status.ofCode RPC.RippledError.rpcINVALID_PARAMS)) :=
  ⟨rfl, rfl, rfl, rfl, rfl⟩

/-- C5 as amended: absence rule. When the document is not an object, or is an
object that does not contain the key as the validators look it up, which is
`key.data()` read as a C string, the key cut at its first NUL character, the
validators `Type<...>`, `Between`, `EqualTo` and `OneOf` all return success
from `verify(document, key)`, for every list of target types, every stored
bound, value and option list, and every decoder. For a key that holds no NUL
character the key looked up is the key itself. -/
theorem verify_succeeds_when_key_absent {T : Type} [LinearOrder T]
    (value : Json) (key : String)
    (habsent : value.is_object = false ∨
      ∃ members, value = Json.object members ∧ contains members (c_str key) = false)
    (types : List Expected) (value_to : Json → Outcome T)
    (between : Between T) (equalTo : EqualTo T) (oneOf : OneOf T) :
    Type_.verify types value key = Outcome.returned (Except.ok ()) ∧
    between.verify value_to value key = Outcome.returned (Except.ok ()) ∧
    equalTo.verify value_to value key = Outcome.returned (Except.ok ()) ∧
    oneOf.verify value_to value key = Outcome.returned (Except.ok ()) ∧
    ((∀ c ∈ key.data, c ≠ Char.ofNat 0) → c_str key = key) := by
  have h := member_of_absent value key habsent
  refine ⟨?_, ?_, ?_, ?_, c_str_of_no_nul key⟩ <;>
    simp [Type_.verify, Between.verify, EqualTo.verify, OneOf.verify, h]

/-- Witness for the amended C5: the object `{"other": 1}` does not contain
`sub_index`, a key without NUL, and the four validators accept it whatever
they store. -/
theorem verify_succeeds_when_key_absent_witness :
    Type_.verify [Expected.string] (Json.object [("other", Json.int64 1)]) "sub_index"
        = Outcome.returned (Except.ok ()) ∧
    (Between.mk (0 : Int) 100).verify value_to_int
        (Json.object [("other", Json.int64 1)]) "sub_index"
        = Outcome.returned (Except.ok ()) ∧
    (EqualTo.mk (5 : Int)).verify value_to_int
        (Json.object [("other", Json.int64 1)]) "sub_index"
        = Outcome.returned (Except.ok ()) ∧
    (OneOf.mk [(1 : Int), 2, 3]).verify value_to_int
        (Json.object [("other", Json.int64 1)]) "sub_index"
        = Outcome.returned (Except.ok ()) ∧
    c_str "sub_index" = "sub_index" :=
  have h := verify_succeeds_when_key_absent (Json.object [("other", Json.int64 1)])
    "sub_index" (Or.inr ⟨_, rfl, rfl⟩) [Expected.string] value_to_int
    (Between.mk (0 : Int) 100) (EqualTo.mk (5 : Int)) (OneOf.mk [(1 : Int), 2, 3])
  ⟨h.1, h.2.1, h.2.2.1, h.2.2.2.1, h.2.2.2.2 (by decide)⟩

theorem checkType_eq_matchesKind (t : Expected) (ht : t ≠ Expected.object) (v : Json) :
    checkType t v = t.matchesKind v := by
  cases t <;> first
    | exact absurd rfl ht
    | (cases v <;> rfl)

theorem any_checkType_eq (types : List Expected)
    (htypes : ∀ t ∈ types, t ≠ Expected.object) (v : Json) :
    types.any (fun t => checkType t v) = types.any (fun t => t.matchesKind v) := by
  induction types with
  | nil => rfl
  | cons t rest ih =>
    have ht := htypes t (List.mem_cons_self t rest)
    have hrest := ih (fun u hu => htypes u (List.mem_cons_of_mem t hu))
    simp only [List.any_cons, checkType_eq_matchesKind t ht v, hrest]

/-- C6: for every list of target types drawn from bool, string,
floating-point, integer and array (that is, not containing the JSON object
type), and every object document holding `field` under `key`,
`Type<T1..Tn>::verify` returns success if and only if the runtime kind of the
field matches at least one Ti, and otherwise returns the Status
invalid-params. The field is the one the validator reads, stored under
`key.data()`, which is `key` itself when it holds no NUL character. -/
theorem Type_verify_iff (types : List Expected)
    (htypes : ∀ t ∈ types, t ≠ Expected.object)
    (members : List (String × Json)) (key : String) (field : Json)
    (hfield : find (c_str key) members = some field) :
    (Type_.verify types (Json.object members) key = Outcome.returned (Except.ok ()) ↔
      ∃ t ∈ types, t.matchesKind field = true) ∧
    ((¬ ∃ t ∈ types, t.matchesKind field = true) →
      Type_.verify types (Json.object members) key
        = Outcome.returned
            (Except.error (RPC.Status.ofCode RPC.RippledError.rpcINVALID_PARAMS))) := by
  have hm := member_of_present members key field hfield
  have hany := any_checkType_eq types htypes field
  by_cases h : ∃ t ∈ types, t.matchesKind field = true
  · have : types.any (fun t => t.matchesKind field) = true := List.any_eq_true.mpr h
    simp [Type_.verify, hm, hany, this, h]
  · have : types.any (fun t => t.matchesKind field) = false := by
      rw [Bool.eq_false_iff]
      intro hc
      exact h (List.any_eq_true.mp hc)
    simp only [Type_.verify, hm, hany, this, h]
    simp [invalidParams]

/-- Witness for C6: `Type<std::string, uint32_t>` on `{"seq": 7}` succeeds,
since the number matches the integer target. -/
theorem Type_verify_iff_witness :
    Type_.verify [Expected.string, Expected.uint32]
        (Json.object [("seq", Json.int64 7)]) "seq"
      = Outcome.returned (Except.ok ()) :=
  (Type_verify_iff [Expected.string, Expected.uint32] (by decide)
    [("seq", Json.int64 7)] "seq" (Json.int64 7) rfl).1.mpr
    ⟨Expected.uint32, by decide, rfl⟩

/-- C7 fails on the code: `Type<std::string, boost::json::object>` accepts a
field that is neither a string nor an object. `checkType` has no branch for
the JSON object type, so it holds for every value; here the number under
`directory`, and likewise a bool, an array and null, pass `verify`. -/
theorem Type_string_object_accepts_other_kinds :
    Type_.verify [Expected.string, Expected.object]
        (Json.object [("directory", Json.int64 5)]) "directory"
      = Outcome.returned (Except.ok ()) ∧
    Type_.verify [Expected.string, Expected.object]
        (Json.object [("directory", Json.bool true)]) "directory"
      = Outcome.returned (Except.ok ()) ∧
    Type_.verify [Expected.string, Expected.object]
        (Json.object [("directory", Json.array [])]) "directory"
      = Outcome.returned (Except.ok ()) ∧
    Type_.verify [Expected.string, Expected.object]
        (Json.object [("directory", Json.null)]) "directory"
      = Outcome.returned (Except.ok ()) ∧
    (∀ v : Json, checkType Expected.object v = true) :=
  ⟨rfl, rfl, rfl, rfl, fun _ => rfl⟩

/-- C8: numeric type matching in `checkType`. For an integer-like target type
the check holds exactly when the JSON value is a signed or an unsigned
integer, of any sign and magnitude, and it rejects every floating-point
value; for `double` and `float` it holds exactly when the JSON value is a
floating-point number, so it rejects every integer. -/
theorem checkType_numeric (t : Expected) (v : Json) :
    (t.isInteger = true →
      (checkType t v = true ↔ v.is_int64 = true ∨ v.is_uint64 = true) ∧
      (∀ i : Int, checkType t (Json.int64 i) = true) ∧
      (∀ u : Nat, checkType t (Json.uint64 u) = true) ∧
      (∀ bits : Nat, checkType t (Json.double bits) = false)) ∧
    (t.isFloatingPoint = true →
      (checkType t v = true ↔ v.is_double = true) ∧
      (∀ i : Int, checkType t (Json.int64 i) = false) ∧
      (∀ u : Nat, checkType t (Json.uint64 u) = false)) := by
  cases t <;> cases v <;>
    simp [Expected.isInteger, Expected.isFloatingPoint, checkType,
      Expected.is_convertible_to_integer, Json.is_int64, Json.is_uint64, Json.is_double,
      Json.is_bool, Json.is_string, Json.is_array]

/-- Witness for C8: `checkType<uint32_t>` holds for a negative integer and
fails for the double 1.5. -/
theorem checkType_numeric_witness :
    checkType Expected.uint32 (Json.int64 (-3)) = true ∧
    checkType Expected.uint32 (Json.double 4609434218613702656) = false :=
  ⟨((checkType_numeric Expected.uint32 Json.null).1 rfl).2.1 (-3),
   ((checkType_numeric Expected.uint32 Json.null).1 rfl).2.2.2 4609434218613702656⟩

/-- C9: for every `min` and `max` of a totally ordered comparison type and
every object document whose field under `key` is present and decodes to `v`,
`Between(min, max)::verify` returns success if and only if
`min <= v <= max`, both endpoints accepted, and otherwise fails with the
Status invalid-params. The field is the one the validator reads, stored under
`key.data()`, which is `key` itself when it holds no NUL character. -/
theorem Between_verify_iff {T : Type} [LinearOrder T]
    (between : Between T) (value_to : Json → Outcome T)
    (members : List (String × Json)) (key : String) (field : Json) (v : T)
    (hfield : find (c_str key) members = some field)
    (hdecode : value_to field = Outcome.returned v) :
    (between.verify value_to (Json.object members) key = Outcome.returned (Except.ok ()) ↔
      between.min_ ≤ v ∧ v ≤ between.max_) ∧
    (¬ (between.min_ ≤ v ∧ v ≤ between.max_) →
      between.verify value_to (Json.object members) key
        = Outcome.returned
            (Except.error (RPC.Status.ofCode RPC.RippledError.rpcINVALID_PARAMS))) := by
  have hm := member_of_present members key field hfield
  by_cases h : between.min_ ≤ v ∧ v ≤ between.max_
  · have hno : ¬ (v < between.min_ ∨ v > between.max_) := by
      rintro (h1 | h1)
      · exact absurd h.1 (not_le.mpr h1)
      · exact absurd h.2 (not_le.mpr h1)
    simp [Between.verify, hm, hdecode, bind, Outcome.bind, hno, h]
  · have hyes : v < between.min_ ∨ v > between.max_ := by
      by_contra hc
      push_neg at hc
      exact h ⟨hc.1, hc.2⟩
    simp only [Between.verify, hm, hdecode, bind, Outcome.bind, hyes, h]
    simp [invalidParams]

/-- Witness for C9: `Between(0, 100)` on the field `sub_index` rejects
`{"sub_index": 150}` with invalid-params and accepts `{"sub_index": 50}`, the
endpoint `{"sub_index": 100}` included. -/
theorem Between_verify_iff_witness :
    (Between.mk (0 : Int) 100).verify value_to_int
        (Json.object [("sub_index", Json.int64 150)]) "sub_index"
      = Outcome.returned
          (Except.error (RPC.Status.ofCode RPC.RippledError.rpcINVALID_PARAMS)) ∧
    (Between.mk (0 : Int) 100).verify value_to_int
        (Json.object [("sub_index", Json.int64 50)]) "sub_index"
      = Outcome.returned (Except.ok ()) ∧
    (Between.mk (0 : Int) 100).verify value_to_int
        (Json.object [("sub_index", Json.int64 100)]) "sub_index"
      = Outcome.returned (Except.ok ()) :=
  ⟨(Between_verify_iff (Between.mk (0 : Int) 100) value_to_int
      [("sub_index", Json.int64 150)] "sub_index" (Json.int64 150) 150 rfl rfl).2
      (by decide),
   (Between_verify_iff (Between.mk (0 : Int) 100) value_to_int
      [("sub_index", Json.int64 50)] "sub_index" (Json.int64 50) 50 rfl rfl).1.mpr
      (by decide),
   (Between_verify_iff (Between.mk (0 : Int) 100) value_to_int
      [("sub_index", Json.int64 100)] "sub_index" (Json.int64 100) 100 rfl rfl).1.mpr
      (by decide)⟩

/-- C10: for every stored value `x` and every object document whose field
under `key` is present and decodes to `v`, `EqualTo(x)::verify` fails with
the Status invalid-params if and only if `v != x`, and returns success when
`v == x`. The field is the one the validator reads, stored under
`key.data()`, which is `key` itself when it holds no NUL character. -/
theorem EqualTo_verify_iff {T : Type} [DecidableEq T]
    (equalTo : EqualTo T) (value_to : Json → Outcome T)
    (members : List (String × Json)) (key : String) (field : Json) (v : T)
    (hfield : find (c_str key) members = some field)
    (hdecode : value_to field = Outcome.returned v) :
    (equalTo.verify value_to (Json.object members) key
        = Outcome.returned
            (Except.error (RPC.Status.ofCode RPC.RippledError.rpcINVALID_PARAMS)) ↔
      v ≠ equalTo.original_) ∧
    (v = equalTo.original_ →
      equalTo.verify value_to (Json.object members) key
        = Outcome.returned (Except.ok ())) := by
  have hm := member_of_present members key field hfield
  by_cases h : v = equalTo.original_
  · simp [EqualTo.verify, hm, hdecode, bind, Outcome.bind, h]
  · simp [EqualTo.verify, hm, hdecode, bind, Outcome.bind, h, invalidParams]

/-- Witness for C10: `EqualTo(5)` rejects `{"n": 6}` and accepts `{"n": 5}`. -/
theorem EqualTo_verify_iff_witness :
    (EqualTo.mk (5 : Int)).verify value_to_int (Json.object [("n", Json.int64 6)]) "n"
      = Outcome.returned
          (Except.error (RPC.Status.ofCode RPC.RippledError.rpcINVALID_PARAMS)) ∧
    (EqualTo.mk (5 : Int)).verify value_to_int (Json.object [("n", Json.int64 5)]) "n"
      = Outcome.returned (Except.ok ()) :=
  ⟨(EqualTo_verify_iff (EqualTo.mk (5 : Int)) value_to_int
      [("n", Json.int64 6)] "n" (Json.int64 6) 6 rfl rfl).1.mpr (by decide),
   (EqualTo_verify_iff (EqualTo.mk (5 : Int)) value_to_int
      [("n", Json.int64 5)] "n" (Json.int64 5) 5 rfl rfl).2 rfl⟩

end RPCng.validation

/-! ## OneOf, and the Status a failing validator returns -/

namespace RPCng.validation

theorem find_decide_eq_none_iff {T : Type} [DecidableEq T] (options : List T) (v : T) :
    options.find? (fun o => decide (o = v)) = none ↔ v ∉ options := by
  induction options with
  | nil => simp
  | cons o rest ih =>
    by_cases h : o = v
    · simp [List.find?, h]
    · have h2 : ¬ v = o := fun e => h e.symm
      simp [List.find?, h, h2, ih]

/-- C11: for every list of options and every object document whose field
under `key` is present and decodes to `v`, `OneOf(options)::verify` returns
success if and only if `v` equals some element of `options`, and otherwise
fails with the Status invalid-params. The field is the one the validator
reads, stored under `key.data()`, which is `key` itself when it holds no NUL
character. -/
theorem OneOf_verify_iff {T : Type} [DecidableEq T]
    (oneOf : OneOf T) (value_to : Json → Outcome T)
    (members : List (String × Json)) (key : String) (field : Json) (v : T)
    (hfield : find (c_str key) members = some field)
    (hdecode : value_to field = Outcome.returned v) :
    (oneOf.verify value_to (Json.object members) key = Outcome.returned (Except.ok ()) ↔
      v ∈ oneOf.options_) ∧
    (v ∉ oneOf.options_ →
      oneOf.verify value_to (Json.object members) key
        = Outcome.returned
            (Except.error (RPC.Status.ofCode RPC.RippledError.rpcINVALID_PARAMS))) := by
  have hm := member_of_present members key field hfield
  have hfind := find_decide_eq_none_iff oneOf.options_ v
  by_cases h : v ∈ oneOf.options_
  · have hne : ¬ oneOf.options_.find? (fun o => decide (o = v)) = none :=
      fun hc => (hfind.mp hc) h
    simp only [OneOf.verify, hm, hdecode, bind, Outcome.bind, hne, h]
    simp
  · have hnone := hfind.mpr h
    simp only [OneOf.verify, hm, hdecode, bind, Outcome.bind, hnone, h]
    simp [invalidParams]

/-- Witness for C11: `OneOf{1,2,3}` on the field `n` accepts 1, 2 and 3 and
rejects 0 and 4 with invalid-params. -/
theorem OneOf_verify_iff_witness :
    (OneOf.mk [(1 : Int), 2, 3]).verify value_to_int (Json.object [("n", Json.int64 1)]) "n"
      = Outcome.returned (Except.ok ()) ∧
    (OneOf.mk [(1 : Int), 2, 3]).verify value_to_int (Json.object [("n", Json.int64 2)]) "n"
      = Outcome.returned (Except.ok ()) ∧
    (OneOf.mk [(1 : Int), 2, 3]).verify value_to_int (Json.object [("n", Json.int64 3)]) "n"
      = Outcome.returned (Except.ok ()) ∧
    (OneOf.mk [(1 : Int), 2, 3]).verify value_to_int (Json.object [("n", Json.int64 0)]) "n"
      = Outcome.returned
          (Except.error (RPC.Status.ofCode RPC.RippledError.rpcINVALID_PARAMS)) ∧
    (OneOf.mk [(1 : Int), 2, 3]).verify value_to_int (Json.object [("n", Json.int64 4)]) "n"
      = Outcome.returned
          (Except.error (RPC.Status.ofCode RPC.RippledError.rpcINVALID_PARAMS)) :=
  ⟨(OneOf_verify_iff (OneOf.mk [(1 : Int), 2, 3]) value_to_int
      [("n", Json.int64 1)] "n" (Json.int64 1) 1 rfl rfl).1.mpr (by decide),
   (OneOf_verify_iff (OneOf.mk [(1 : Int), 2, 3]) value_to_int
      [("n", Json.int64 2)] "n" (Json.int64 2) 2 rfl rfl).1.mpr (by decide),
   (OneOf_verify_iff (OneOf.mk [(1 : Int), 2, 3]) value_to_int
      [("n", Json.int64 3)] "n" (Json.int64 3) 3 rfl rfl).1.mpr (by decide),
   (OneOf_verify_iff (OneOf.mk [(1 : Int), 2, 3]) value_to_int
      [("n", Json.int64 0)] "n" (Json.int64 0) 0 rfl rfl).2 (by decide),
   (OneOf_verify_iff (OneOf.mk [(1 : Int), 2, 3]) value_to_int
      [("n", Json.int64 4)] "n" (Json.int64 4) 4 rfl rfl).2 (by decide)⟩

/-- Counterexample to C12: `Type<bool>` on `{"binary": 5}`, `Between(0, 100)`
on `{"sub_index": 150}`, `EqualTo(5)` on `{"n": 6}` and `OneOf{1,2,3}` on
`{"n": 4}` each fail with a Status that carries no detail string at all. -/
theorem validation_error_has_no_detail :
    (∃ s, Type_.verify [Expected.bool] (Json.object [("binary", Json.int64 5)]) "binary"
        = Outcome.returned (Except.error s) ∧ s.message = none) ∧
    (∃ s, (Between.mk (0 : Int) 100).verify value_to_int
          (Json.object [("sub_index", Json.int64 150)]) "sub_index"
        = Outcome.returned (Except.error s) ∧ s.message = none) ∧
    (∃ s, (EqualTo.mk (5 : Int)).verify value_to_int (Json.object [("n", Json.int64 6)]) "n"
        = Outcome.returned (Except.error s) ∧ s.message = none) ∧
    (∃ s, (OneOf.mk [(1 : Int), 2, 3]).verify value_to_int
          (Json.object [("n", Json.int64 4)]) "n"
        = Outcome.returned (Except.error s) ∧ s.message = none) :=
  ⟨⟨_, rfl, rfl⟩, ⟨_, rfl, rfl⟩, ⟨_, rfl, rfl⟩, ⟨_, rfl, rfl⟩⟩

/-- C12 as amended: whenever `verify` of `Type`, `Between`, `EqualTo` or
`OneOf` returns an error Status for a key, that Status is exactly
`Status{rpcINVALID_PARAMS}`: the kind invalid-params with no detail string,
the same for every key. -/
theorem validation_error_is_bare_invalid_params {T : Type} [LinearOrder T]
    (types : List Expected) (value_to : Json → Outcome T)
    (between : Between T) (equalTo : EqualTo T) (oneOf : OneOf T)
    (value : Json) (key : String) (s : RPC.Status)
    (hfails : Type_.verify types value key = Outcome.returned (Except.error s) ∨
      between.verify value_to value key = Outcome.returned (Except.error s) ∨
      equalTo.verify value_to value key = Outcome.returned (Except.error s) ∨
      oneOf.verify value_to value key = Outcome.returned (Except.error s)) :
    s = RPC.Status.ofCode RPC.RippledError.rpcINVALID_PARAMS ∧
    s.code = Sum.inl RPC.RippledError.rpcINVALID_PARAMS ∧ s.message = none := by
  have key_fact : s = RPC.Status.ofCode RPC.RippledError.rpcINVALID_PARAMS := by
    rcases hfails with h | h | h | h
    · unfold Type_.verify at h
      cases hm : member value key with
      | none => simp [hm] at h
      | some field =>
        simp only [hm] at h
        split at h
        · simpa [invalidParams] using h.symm
        · simp at h
    · unfold Between.verify at h
      cases hm : member value key with
      | none => simp [hm] at h
      | some field =>
        simp only [hm, bind, Outcome.bind] at h
        cases hd : value_to field with
        | returned res =>
          simp only [hd] at h
          split at h
          · simpa [invalidParams] using h.symm
          · simp at h
        | threw => simp [hd] at h
        | undefined => simp [hd] at h
    · unfold EqualTo.verify at h
      cases hm : member value key with
      | none => simp [hm] at h
      | some field =>
        simp only [hm, bind, Outcome.bind] at h
        cases hd : value_to field with
        | returned res =>
          simp only [hd] at h
          split at h
          · simpa [invalidParams] using h.symm
          · simp at h
        | threw => simp [hd] at h
        | undefined => simp [hd] at h
    · unfold OneOf.verify at h
      cases hm : member value key with
      | none => simp [hm] at h
      | some field =>
        simp only [hm, bind, Outcome.bind] at h
        cases hd : value_to field with
        | returned res =>
          simp only [hd] at h
          split at h
          · simpa [invalidParams] using h.symm
          · simp at h
        | threw => simp [hd] at h
        | undefined => simp [hd] at h
  subst key_fact
  exact ⟨rfl, rfl, rfl⟩

/-- Witness for the amended C12: the Status of `Type<bool>` failing on
`{"binary": 5}` is the bare invalid-params Status. -/
theorem validation_error_is_bare_invalid_params_witness :
    Type_.verify [Expected.bool] (Json.object [("binary", Json.int64 5)]) "binary"
        = Outcome.returned
            (Except.error (RPC.Status.ofCode RPC.RippledError.rpcINVALID_PARAMS)) ∧
    (RPC.Status.ofCode RPC.RippledError.rpcINVALID_PARAMS).message = none :=
  ⟨rfl,
   (validation_error_is_bare_invalid_params [Expected.bool] value_to_int
    (Between.mk 0 100) (EqualTo.mk 5) (OneOf.mk [1, 2, 3])
    (Json.object [("binary", Json.int64 5)]) "binary"
    (RPC.Status.ofCode RPC.RippledError.rpcINVALID_PARAMS) (Or.inl rfl)).2.2⟩

end RPCng.validation

/-! ## A decoder that fails after validation passed -/

namespace RPCng

open detail validation

/-- Counterexample to C13: the schema is empty, so the document passes
validation, and the decoder throws. `DefaultProcessor` returns no Result at
all: the exception leaves it, and in particular the outcome is not an
internal-error Status. -/
theorem DefaultProcessor_decode_failure_escapes :
    DefaultProcessor
        (Handler.withInput (RpcSpec.mk [])
          (fun _ => (Outcome.threw : Outcome Unit))
          (Process.nonCoroutine (fun _ => Outcome.returned (Except.ok ())))
          (fun _ => Outcome.returned Json.null) : Handler Unit Unit Unit)
        (Json.object []) none
      = Outcome.threw ∧
    DefaultProcessor
        (Handler.withInput (RpcSpec.mk [])
          (fun _ => (Outcome.threw : Outcome Unit))
          (Process.nonCoroutine (fun _ => Outcome.returned (Except.ok ())))
          (fun _ => Outcome.returned Json.null) : Handler Unit Unit Unit)
        (Json.object []) none
      ≠ Outcome.returned
          (Except.error (RPC.Status.ofCode RPC.RippledError.rpcINTERNAL)) :=
  ⟨rfl, fun h => Outcome.noConfusion h⟩

/-- C13 as amended: if a document passes validation but the decoder throws,
`DefaultProcessor` returns no Result: the decoder's exception leaves the
processor as it is, for every `process` of either shape, every encoder and
every yield pointer. No default Input is substituted and `process` is not
run. -/
theorem DefaultProcessor_decode_failure {Input Output Yield : Type}
    (spec : RpcSpec) (document : Json)
    (value_to : Json → Outcome Input) (process : Process Input Output Yield)
    (value_from : Output → Outcome Json) (ptrYield : Option Yield)
    (hvalidate : spec.validate document = Outcome.returned (Except.ok ()))
    (hdecode : value_to document = Outcome.threw) :
    DefaultProcessor (Handler.withInput spec value_to process value_from) document ptrYield
      = Outcome.threw := by
  simp [DefaultProcessor, hvalidate, hdecode, bind, Outcome.bind]

/-- Witness for the amended C13: a schema accepting `{"binary": true}` and a
decoder that throws on it; `process` would have returned a value. -/
theorem DefaultProcessor_decode_failure_witness :
    DefaultProcessor
        (Handler.withInput
          (RpcSpec.mk [FieldSpec.mk "binary" [Type_.verify [Expected.bool]]])
          (fun _ => (Outcome.threw : Outcome Unit))
          (Process.nonCoroutine (fun _ => Outcome.returned (Except.ok ())))
          (fun _ => Outcome.returned Json.null) : Handler Unit Unit Unit)
        (Json.object [("binary", Json.bool true)]) none
      = Outcome.threw :=
  DefaultProcessor_decode_failure
    (RpcSpec.mk [FieldSpec.mk "binary" [Type_.verify [Expected.bool]]])
    (Json.object [("binary", Json.bool true)]) _ _ _ none rfl rfl

end RPCng

/-! ## Decoding the ledger entry Input -/

namespace RPCng.LedgerEntryHandler

/-- C14 fails on the code: on documents of the validated shape the decoder
can throw. A `ledger_index` given as the decimal string of an unsigned 32-bit
number above 2147483647 makes `std::stoi` throw, and a `ledger_index` given as
a JSON integer of the unsigned kind makes `as_int64()` throw; both for every
order in which the index field map is visited. A number that fits is decoded. -/
theorem value_to_throws_on_validated_ledger_index :
    (∀ mapOrder, value_to mapOrder
        (Json.object [("ledger_index", Json.string "4294967295")])
      = Outcome.threw) ∧
    (∀ mapOrder, value_to mapOrder
        (Json.object [("ledger_index", Json.uint64 9223372036854775808)])
      = Outcome.threw) ∧
    (∃ input, value_to indexFieldTypeMap
        (Json.object [("ledger_index", Json.string "2147483647")])
      = Outcome.returned input ∧ input.ledgerIndex = some 2147483647) :=
  ⟨fun _ => rfl, fun _ => rfl, ⟨_, rfl, rfl⟩⟩

end RPCng.LedgerEntryHandler

/-! ## The channel authorize handler -/

namespace RPC

theorem at_of_find (request : Object) (key : String) (v : Json)
    (h : find key request = some v) : request.at key = Outcome.returned v := by
  simp [Object.at, h]

theorem contains_of_find (request : Object) (key : String) (v : Json)
    (h : find key request = some v) : contains request key = true := by
  simp [contains, h]

/-- C16: for every request object that does not contain `amount`,
`doChannelAuthorize` returns `Status{invalid-params, "missingAmount"}`,
whatever the other fields, the library and the rest of the context are. -/
theorem doChannelAuthorize_missing_amount {Yield : Type} (lib : ChannelLibrary)
    (context : Context Yield) (habsent : contains context.params "amount" = false) :
    doChannelAuthorize lib context
      = Outcome.returned (Except.error
          (Status.ofCodeMessage RippledError.rpcINVALID_PARAMS "missingAmount")) := by
  simp [doChannelAuthorize, habsent]

/-- Witness for C16: the empty document, which also lacks `key_type` and
`secret`, and a document that carries a secret but no amount. -/
theorem doChannelAuthorize_missing_amount_witness :
    doChannelAuthorize Fixture.channel (Fixture.context [])
      = Outcome.returned (Except.error
          (Status.ofCodeMessage RippledError.rpcINVALID_PARAMS "missingAmount")) ∧
    doChannelAuthorize Fixture.channel (Fixture.context [("secret", Json.string "s")])
      = Outcome.returned (Except.error
          (Status.ofCodeMessage RippledError.rpcINVALID_PARAMS "missingAmount")) :=
  ⟨doChannelAuthorize_missing_amount Fixture.channel (Fixture.context []) rfl,
   doChannelAuthorize_missing_amount Fixture.channel
     (Fixture.context [("secret", Json.string "s")]) rfl⟩

/-- C17: for every request object whose `amount` is present, a string amount
with neither `key_type` nor `secret` present gives
`Status{invalid-params, "missingKeyTypeOrSecret"}`; an amount that is not a
string gives `Status{invalid-params, "amountNotString"}`, whether or not
`key_type` or `secret` is present. -/
theorem doChannelAuthorize_amount_checks {Yield : Type} (lib : ChannelLibrary)
    (context : Context Yield) (amount : Json)
    (hamount : find "amount" context.params = some amount) :
    (amount.is_string = true →
      contains context.params "key_type" = false →
      contains context.params "secret" = false →
      doChannelAuthorize lib context
        = Outcome.returned (Except.error
            (Status.ofCodeMessage RippledError.rpcINVALID_PARAMS "missingKeyTypeOrSecret"))) ∧
    (amount.is_string = false →
      doChannelAuthorize lib context
        = Outcome.returned (Except.error
            (Status.ofCodeMessage RippledError.rpcINVALID_PARAMS "amountNotString"))) := by
  have hc := contains_of_find _ _ _ hamount
  have ha := at_of_find _ _ _ hamount
  constructor
  · intro hs hk hsec
    simp [doChannelAuthorize, hc, ha, hs, hk, hsec, bind, Outcome.bind]
  · intro hs
    simp [doChannelAuthorize, hc, ha, hs, bind, Outcome.bind]

/-- Witness for C17: `{"amount": "100"}` reports the missing key type or
secret, and `{"amount": 100}` reports the amount first. -/
theorem doChannelAuthorize_amount_checks_witness :
    doChannelAuthorize Fixture.channel (Fixture.context [("amount", Json.string "100")])
      = Outcome.returned (Except.error
          (Status.ofCodeMessage RippledError.rpcINVALID_PARAMS "missingKeyTypeOrSecret")) ∧
    doChannelAuthorize Fixture.channel (Fixture.context [("amount", Json.int64 100)])
      = Outcome.returned (Except.error
          (Status.ofCodeMessage RippledError.rpcINVALID_PARAMS "amountNotString")) :=
  ⟨(doChannelAuthorize_amount_checks Fixture.channel
      (Fixture.context [("amount", Json.string "100")]) (Json.string "100") rfl).1
      rfl rfl rfl,
   (doChannelAuthorize_amount_checks Fixture.channel
      (Fixture.context [("amount", Json.int64 100)]) (Json.int64 100) rfl).2 rfl⟩

/-- Counterexample to C18: with a string amount and a secret from which the
key pair is derived, the handler still returns a Status when the channel id
does not resolve (here `{"amount":"100","secret":"s"}` names no channel), and
when the amount string is not a number of drops. -/
theorem doChannelAuthorize_string_amount_and_secret_not_enough :
    Fixture.channel.keypairFromRequst
        [("amount", Json.string "100"), ("secret", Json.string "s")]
      = Outcome.returned (Except.ok ([1], [2])) ∧
    doChannelAuthorize Fixture.channel
        (Fixture.context [("amount", Json.string "100"), ("secret", Json.string "s")])
      = Outcome.returned (Except.error
          (Status.ofCodeMessage RippledError.rpcINVALID_PARAMS "missingChannelID")) ∧
    doChannelAuthorize Fixture.channel
        (Fixture.context [("amount", Json.string "abc"), ("secret", Json.string "s"),
          ("channel_id", Json.string "5")])
      = Outcome.returned (Except.error
          (Status.ofCodeMessage RippledError.rpcCHANNEL_AMT_MALFORMED
            "couldNotParseAmount")) :=
  ⟨rfl, rfl, rfl⟩

/-- C18 as amended: for a request with a string amount and `key_type` or
`secret` present, from which a key pair is derived, whose channel id
resolves, whose amount parses as a number of drops and for which signing does
not throw, `doChannelAuthorize` returns a success response whose `signature`
field is the hex encoding of the signature over the serialized claim: hash
prefix, channel id, amount in drops. -/
theorem doChannelAuthorize_signs {Yield : Type} (lib : ChannelLibrary)
    (context : Context Yield) (text : String) (pk sk buf : ripple.Blob)
    (channelId : ripple.uint256) (drops : Nat)
    (hamount : find "amount" context.params = some (Json.string text))
    (hkey : contains context.params "key_type" = true ∨
      contains context.params "secret" = true)
    (hpair : lib.keypairFromRequst context.params = Outcome.returned (Except.ok (pk, sk)))
    (hchannel : lib.getChannelId context.params = Outcome.returned (Except.ok channelId))
    (hdrops : lib.to_uint64 (c_str text) = some drops)
    (hsign : lib.sign pk sk
        (serializePayChanAuthorization lib.paymentChannelClaim channelId drops)
      = Outcome.returned buf) :
    doChannelAuthorize lib context
      = Outcome.returned (Except.ok [("signature", Json.string (lib.strHex buf))]) ∧
    find "signature" [("signature", Json.string (lib.strHex buf))]
      = some (Json.string (lib.strHex buf)) := by
  have hc := contains_of_find _ _ _ hamount
  have ha := at_of_find _ _ _ hamount
  have hnot : (!contains context.params "key_type" && !contains context.params "secret")
      = false := by
    rcases hkey with h | h <;> simp [h]
  refine ⟨?_, by simp [find]⟩
  simp only [doChannelAuthorize, hc, ha, Json.is_string, hnot, bind, Outcome.bind,
    authorize, hpair, hchannel, Json.as_string, hdrops, hsign, Object.set]
  simp

/-- Witness for the amended C18: the request
`{"amount":"100","secret":"s","channel_id":"5"}` is signed; the signed message
is the 44-byte claim. -/
theorem doChannelAuthorize_signs_witness :
    doChannelAuthorize Fixture.channel
        (Fixture.context [("amount", Json.string "100"), ("secret", Json.string "s"),
          ("channel_id", Json.string "5")])
      = Outcome.returned (Except.ok
          [("signature", Json.string
            (Fixture.channel.strHex
              (serializePayChanAuthorization 1129073920 5 100 ++ [2])))]) ∧
    (serializePayChanAuthorization 1129073920 5 100).length = 44 :=
  ⟨(doChannelAuthorize_signs Fixture.channel
      (Fixture.context [("amount", Json.string "100"), ("secret", Json.string "s"),
        ("channel_id", Json.string "5")])
      "100" [1] [2] (serializePayChanAuthorization 1129073920 5 100 ++ [2]) 5 100
      rfl (Or.inr rfl) rfl rfl rfl rfl).1,
   by decide⟩

end RPC

/-! ## An object the backend does not hold -/

namespace RPCng.LedgerEntryHandler

/-- C15: when the entry key is derived and the ledger header resolves, and
the backend reports the object as absent for that key and ledger sequence (no
value, or an empty blob), the handler returns the Status with the message
`entryNotFound`, which is not an internal-error Status. First
`LedgerEntryHandler::process`, then legacy `doLedgerEntry`. -/
theorem entryNotFound_when_object_absent {Yield : Type} (lib : ripple.Library) :
    (∀ (backend : BackendInterface Yield)
        (getLedgerInfoFromHashOrSeq : GetLedgerInfoFromHashOrSeq Yield)
        (input : Input) (yield : Yield) (key : ripple.uint256) (range : LedgerRange)
        (lgrInfo : ripple.LedgerInfo),
        entryKey lib input = Outcome.returned (Except.ok key) →
        backend.fetchLedgerRange = some range →
        getLedgerInfoFromHashOrSeq backend yield input.ledgerHash input.ledgerIndex
            range.maxSequence = Outcome.returned (Except.ok lgrInfo) →
        (backend.fetchLedgerObject key lgrInfo.seq yield = Outcome.returned none ∨
          backend.fetchLedgerObject key lgrInfo.seq yield = Outcome.returned (some [])) →
        process lib backend getLedgerInfoFromHashOrSeq input yield
          = Outcome.returned (Except.error (RPC.Status.ofMessage "entryNotFound"))) ∧
    (∀ (helpers : RPC.Helpers Yield) (context : RPC.Context Yield) (binary : Bool)
        (lgrInfo : ripple.LedgerInfo) (key : ripple.uint256)
        (expectedType : ripple.LedgerEntryType),
        helpers.getBool context.params "binary" false = Outcome.returned binary →
        helpers.ledgerInfoFromRequest context = Outcome.returned (Except.ok lgrInfo) →
        RPC.selectEntry lib context.params
          = Outcome.returned (Except.ok (key, expectedType)) →
        (context.backend.fetchLedgerObject key lgrInfo.seq context.yield
            = Outcome.returned none ∨
          context.backend.fetchLedgerObject key lgrInfo.seq context.yield
            = Outcome.returned (some [])) →
        RPC.doLedgerEntry lib helpers context
          = Outcome.returned (Except.error (RPC.Status.ofMessage "entryNotFound"))) ∧
    (RPC.Status.ofMessage "entryNotFound").message = some "entryNotFound" ∧
    (RPC.Status.ofMessage "entryNotFound").code ≠ Sum.inl RPC.RippledError.rpcINTERNAL := by
  refine ⟨?_, ?_, rfl, by decide⟩
  · intro backend getInfo input yield key range lgrInfo hkey hrange hinfo hfetch
    rcases hfetch with h | h <;>
      simp [process, lookup, hkey, hrange, hinfo, h, Outcome.deref, bind, Outcome.bind]
  · intro helpers context binary lgrInfo key expectedType hbool hinfo hsel hfetch
    rcases hfetch with h | h <;>
      simp [RPC.doLedgerEntry, RPC.respond, hbool, hinfo, hsel, h, bind, Outcome.bind]

/-- Witness for C15: the request names the index 8, the ledger resolves, and
the backend stores nothing under key 8; both handlers answer
`entryNotFound`. -/
theorem entryNotFound_when_object_absent_witness :
    process Fixture.lib Fixture.backend Fixture.getLedgerInfoFromHashOrSeq
        { index := some "8" } ()
      = Outcome.returned (Except.error (RPC.Status.ofMessage "entryNotFound")) ∧
    RPC.doLedgerEntry Fixture.lib Fixture.helpers
        (Fixture.context [("index", Json.string "8")])
      = Outcome.returned (Except.error (RPC.Status.ofMessage "entryNotFound")) :=
  ⟨(entryNotFound_when_object_absent Fixture.lib).1 Fixture.backend
      Fixture.getLedgerInfoFromHashOrSeq { index := some "8" } () 8
      { minSequence := 1, maxSequence := 10 } { seq := 10, hash := 99 }
      rfl rfl rfl (Or.inl rfl),
   (entryNotFound_when_object_absent Fixture.lib).2.1 Fixture.helpers
      (Fixture.context [("index", Json.string "8")]) false { seq := 10, hash := 99 } 8
      ripple.LedgerEntryType.ltANY rfl rfl rfl (Or.inl rfl)⟩

end RPCng.LedgerEntryHandler

/-! ## Keys of directories and the accounts of a trust line -/

namespace RPCng.LedgerEntryHandler

theorem accountsMalformed_pair (a b : String) :
    accountsMalformed (Json.array [Json.string a, Json.string b])
      = Outcome.returned (decide (a = b)) := by
  simp [accountsMalformed, Json.is_array, Json.as_array, arrayIndex, Outcome.deref,
    Json.is_string, Json.as_string, bind, Outcome.bind, pure]

theorem accountsMalformed_other (value : Json)
    (hshape : ¬ ∃ a b, value = Json.array [Json.string a, Json.string b]) :
    accountsMalformed value = Outcome.returned true := by
  cases value with
  | array elems =>
    match elems, hshape with
    | [], _ => rfl
    | [_], _ => rfl
    | _ :: _ :: _ :: _, _ =>
      simp [accountsMalformed, Json.is_array, Json.as_array, bind, Outcome.bind, pure]
    | [first, second], hshape =>
      cases first <;> cases second <;>
        first
          | (simp [accountsMalformed, Json.is_array, Json.as_array, arrayIndex,
              Outcome.deref, Json.is_string, bind, Outcome.bind, pure]; done)
          | exact (hshape ⟨_, _, rfl⟩).elim
  | _ => rfl

/-- C20: `rippleStateAccountsCheck` returns success if and only if the value
is an array of exactly two strings that differ and each parse (read as C
strings) as a base58 account address. When the shape fails (not an array,
size other than 2, a non-string element, or two equal strings) it returns
invalid-params `malformedAccounts`, whatever the addresses; when the shape
holds but an address does not parse it returns the malformed-address Status
`malformedAddresses`. -/
theorem rippleStateAccountsCheck_spec (lib : ripple.Library) (value : Json) (key : String) :
    (rippleStateAccountsCheck lib value key = Outcome.returned (Except.ok ()) ↔
      ∃ a b, value = Json.array [Json.string a, Json.string b] ∧ a ≠ b ∧
        (lib.parseBase58AccountID (c_str a)).isSome = true ∧
        (lib.parseBase58AccountID (c_str b)).isSome = true) ∧
    ((¬ ∃ a b, value = Json.array [Json.string a, Json.string b] ∧ a ≠ b) →
      rippleStateAccountsCheck lib value key
        = Outcome.returned (Except.error (RPC.Status.ofCodeMessage
            RPC.RippledError.rpcINVALID_PARAMS "malformedAccounts"))) ∧
    (∀ a b, value = Json.array [Json.string a, Json.string b] → a ≠ b →
      (lib.parseBase58AccountID (c_str a) = none ∨
        lib.parseBase58AccountID (c_str b) = none) →
      rippleStateAccountsCheck lib value key
        = Outcome.returned (Except.error (RPC.Status.ofClioMessage
            RPC.ClioError.rpcMALFORMED_ADDRESS "malformedAddresses"))) := by
  by_cases hshape : ∃ a b, value = Json.array [Json.string a, Json.string b]
  · obtain ⟨a, b, rfl⟩ := hshape
    have hm := accountsMalformed_pair a b
    by_cases hab : a = b
    · subst hab
      simp [rippleStateAccountsCheck, hm, bind, Outcome.bind]
    · have hrun : rippleStateAccountsCheck lib (Json.array [Json.string a, Json.string b]) key
          = if (lib.parseBase58AccountID (c_str a)).isNone ∨
              (lib.parseBase58AccountID (c_str b)).isNone then
              Outcome.returned (Except.error (RPC.Status.ofClioMessage
                RPC.ClioError.rpcMALFORMED_ADDRESS "malformedAddresses"))
            else Outcome.returned (Except.ok ()) := by
        simp [rippleStateAccountsCheck, hm, hab, Json.as_array, arrayIndex,
          Outcome.deref, Json.as_string, bind, Outcome.bind]
      rw [hrun]
      cases h1 : lib.parseBase58AccountID (c_str a) <;>
        cases h2 : lib.parseBase58AccountID (c_str b)
      · simp [h1, hab]
      · simp [h1, hab]
      · simp [h1, h2, hab]
      · simp only [Option.isNone_some, Bool.false_eq_true, or_self, if_false]
        refine ⟨⟨fun _ => ⟨a, b, rfl, hab, by simp [h1], by simp [h2]⟩, fun _ => trivial⟩,
          fun hno => absurd ⟨a, b, rfl, hab⟩ hno, ?_⟩
        · intro a2 b2 heq hne hnone
          simp only [Json.array.injEq, List.cons.injEq, Json.string.injEq, and_true] at heq
          obtain ⟨rfl, rfl⟩ := heq
          simp [h1, h2] at hnone
  · have hm := accountsMalformed_other value hshape
    have hno : ¬ ∃ a b, value = Json.array [Json.string a, Json.string b] ∧ a ≠ b :=
      fun ⟨a, b, h, _⟩ => hshape ⟨a, b, h⟩
    refine ⟨?_, ?_, ?_⟩
    · constructor
      · intro h
        simp [rippleStateAccountsCheck, hm, bind, Outcome.bind] at h
      · rintro ⟨a, b, h, _⟩
        exact absurd ⟨a, b, h⟩ hshape
    · intro _
      simp [rippleStateAccountsCheck, hm, bind, Outcome.bind]
    · intro a b h
      exact absurd ⟨a, b, h⟩ hshape

/-- Witness for C20: two different parsable accounts pass, the same account
twice is malformed even though it parses, and an unparsable second account
gives the malformed-address Status. -/
theorem rippleStateAccountsCheck_spec_witness :
    rippleStateAccountsCheck Fixture.lib
        (Json.array [Json.string "12", Json.string "13"]) "accounts"
      = Outcome.returned (Except.ok ()) ∧
    rippleStateAccountsCheck Fixture.lib
        (Json.array [Json.string "12", Json.string "12"]) "accounts"
      = Outcome.returned (Except.error (RPC.Status.ofCodeMessage
          RPC.RippledError.rpcINVALID_PARAMS "malformedAccounts")) ∧
    rippleStateAccountsCheck Fixture.lib
        (Json.array [Json.string "12", Json.string "x"]) "accounts"
      = Outcome.returned (Except.error (RPC.Status.ofClioMessage
          RPC.ClioError.rpcMALFORMED_ADDRESS "malformedAddresses")) :=
  ⟨(rippleStateAccountsCheck_spec Fixture.lib
      (Json.array [Json.string "12", Json.string "13"]) "accounts").1.mpr
      ⟨"12", "13", rfl, by decide, rfl, rfl⟩,
   (rippleStateAccountsCheck_spec Fixture.lib
      (Json.array [Json.string "12", Json.string "12"]) "accounts").2.1
      (by
        rintro ⟨a, b, h, hne⟩
        simp only [Json.array.injEq, List.cons.injEq, Json.string.injEq, and_true] at h
        exact hne (h.1.symm.trans h.2)),
   (rippleStateAccountsCheck_spec Fixture.lib
      (Json.array [Json.string "12", Json.string "x"]) "accounts").2.2 "12" "x" rfl
      (by decide) (Or.inr rfl)⟩

end RPCng.LedgerEntryHandler

/-! ## The hot wallet check -/

namespace RPCng.GatewayBalancesHandler

theorem getAccountID_string (lib : ripple.Library) (keys : PublicKeys) (s : String) :
    getAccountID lib keys (Json.string s)
      = Outcome.returned
          (match keys.parseBase58PublicKey (c_str s) with
           | some pk => some (keys.calcAccountID pk)
           | none => lib.parseBase58AccountID (c_str s)) := by
  cases h : keys.parseBase58PublicKey (c_str s) <;>
    simp [getAccountID, Json.is_string, Json.as_string, h, bind, Outcome.bind, pure]

theorem getAccountID_isSome_iff (lib : ripple.Library) (keys : PublicKeys) (j : Json) :
    (∃ account, getAccountID lib keys j = Outcome.returned (some account)) ↔
      ∃ s, j = Json.string s ∧
        ((keys.parseBase58PublicKey (c_str s)).isSome = true ∨
          (lib.parseBase58AccountID (c_str s)).isSome = true) := by
  cases j with
  | string s =>
    rw [getAccountID_string]
    cases h1 : keys.parseBase58PublicKey (c_str s) <;>
      cases h2 : lib.parseBase58AccountID (c_str s) <;> simp [h1, h2]
  | _ => simp [getAccountID, Json.is_string, pure]

theorem getAccountID_returns (lib : ripple.Library) (keys : PublicKeys) (j : Json) :
    ∃ account, getAccountID lib keys j = Outcome.returned account := by
  cases j with
  | string s => exact ⟨_, getAccountID_string lib keys s⟩
  | _ => exact ⟨none, by simp [getAccountID, Json.is_string, pure]⟩

theorem checkWallets_cases (lib : ripple.Library) (keys : PublicKeys) (key : String)
    (wallets : List Json) :
    (checkWallets lib keys key wallets = Outcome.returned (Except.ok ()) ∧
      ∀ w ∈ wallets, ∃ account, getAccountID lib keys w = Outcome.returned (some account)) ∨
    (checkWallets lib keys key wallets
        = Outcome.returned (Except.error (RPC.Status.ofCodeMessage
            RPC.RippledError.rpcINVALID_PARAMS (key ++ "Malformed"))) ∧
      ¬ ∀ w ∈ wallets, ∃ account, getAccountID lib keys w = Outcome.returned (some account)) := by
  induction wallets with
  | nil => left; exact ⟨rfl, by simp⟩
  | cons w rest ih =>
    obtain ⟨account, hw⟩ := getAccountID_returns lib keys w
    cases account with
    | none =>
      right
      refine ⟨by simp [checkWallets, hw, bind, Outcome.bind], ?_⟩
      intro hall
      obtain ⟨a, ha⟩ := hall w (List.mem_cons_self w rest)
      rw [hw] at ha
      cases ha
    | some a =>
      have hstep : checkWallets lib keys key (w :: rest) = checkWallets lib keys key rest := by
        simp [checkWallets, hw, bind, Outcome.bind]
      rw [hstep]
      rcases ih with ⟨hok, hall⟩ | ⟨herr, hnot⟩
      · left
        refine ⟨hok, ?_⟩
        intro x hx
        rcases List.mem_cons.mp hx with rfl | hx
        · exact ⟨a, hw⟩
        · exact hall x hx
      · right
        refine ⟨herr, ?_⟩
        intro hall
        exact hnot (fun x hx => hall x (List.mem_cons_of_mem w hx))

theorem hotWalletValidator_array (lib : ripple.Library) (keys : PublicKeys)
    (elems : List Json) (key : String) :
    hotWalletValidator lib keys (Json.array elems) key = checkWallets lib keys key elems := by
  simp [hotWalletValidator, Json.is_string, Json.is_array, Json.as_array, bind, Outcome.bind]

theorem hotWalletValidator_string (lib : ripple.Library) (keys : PublicKeys)
    (s : String) (key : String) :
    hotWalletValidator lib keys (Json.string s) key
      = checkWallets lib keys key [Json.string s] := by
  simp [hotWalletValidator, Json.is_string, Json.is_array, bind, Outcome.bind, pure]

/-- C21: `hotWalletValidator` returns success if and only if the value is a
string that parses (read as a C string) as an account public key or as an
account ID, or an array all of whose elements are such strings, the empty
array included. A value that is neither a string nor an array gives
invalid-params with the detail `key + "NotStringOrArray"`; a string or array
with an element that does not parse gives invalid-params with the detail
`key + "Malformed"`. A single string is judged exactly as the one-element
array holding it. -/
theorem hotWalletValidator_spec (lib : ripple.Library) (keys : PublicKeys)
    (value : Json) (key : String) :
    (hotWalletValidator lib keys value key = Outcome.returned (Except.ok ()) ↔
      (∃ s, value = Json.string s ∧
        ((keys.parseBase58PublicKey (c_str s)).isSome = true ∨
          (lib.parseBase58AccountID (c_str s)).isSome = true)) ∨
      (∃ elems, value = Json.array elems ∧ ∀ e ∈ elems, ∃ s, e = Json.string s ∧
        ((keys.parseBase58PublicKey (c_str s)).isSome = true ∨
          (lib.parseBase58AccountID (c_str s)).isSome = true))) ∧
    (value.is_string = false → value.is_array = false →
      hotWalletValidator lib keys value key
        = Outcome.returned (Except.error (RPC.Status.ofCodeMessage
            RPC.RippledError.rpcINVALID_PARAMS (key ++ "NotStringOrArray")))) ∧
    ((value.is_string = true ∨ value.is_array = true) →
      hotWalletValidator lib keys value key ≠ Outcome.returned (Except.ok ()) →
      hotWalletValidator lib keys value key
        = Outcome.returned (Except.error (RPC.Status.ofCodeMessage
            RPC.RippledError.rpcINVALID_PARAMS (key ++ "Malformed")))) ∧
    (∀ s, hotWalletValidator lib keys (Json.string s) key
      = hotWalletValidator lib keys (Json.array [Json.string s]) key) := by
  refine ⟨?_, ?_, ?_, ?_⟩
  · cases value with
    | string s =>
      rw [hotWalletValidator_string]
      rcases checkWallets_cases lib keys key [Json.string s] with ⟨hok, hall⟩ | ⟨herr, hnot⟩
      · rw [hok]
        have h := (getAccountID_isSome_iff lib keys (Json.string s)).mp
          (hall _ (List.mem_singleton.mpr rfl))
        simp only [true_iff]
        left
        obtain ⟨t, ht, hp⟩ := h
        exact ⟨t, ht, hp⟩
      · rw [herr]
        constructor
        · intro h
          cases h
        · rintro (⟨t, ht, hp⟩ | ⟨elems, he, _⟩)
          · exfalso
            apply hnot
            intro w hw
            rw [List.mem_singleton.mp hw]
            exact (getAccountID_isSome_iff lib keys (Json.string s)).mpr ⟨t, ht, hp⟩
          · cases he
    | array elems =>
      rw [hotWalletValidator_array]
      rcases checkWallets_cases lib keys key elems with ⟨hok, hall⟩ | ⟨herr, hnot⟩
      · rw [hok]
        simp only [true_iff]
        right
        exact ⟨elems, rfl, fun e he => (getAccountID_isSome_iff lib keys e).mp (hall e he)⟩
      · rw [herr]
        constructor
        · intro h
          cases h
        · rintro (⟨t, ht, _⟩ | ⟨elems2, he, hall⟩)
          · cases ht
          · exfalso
            apply hnot
            intro w hw
            simp only [Json.array.injEq] at he
            subst he
            exact (getAccountID_isSome_iff lib keys w).mpr (hall w hw)
    | null => simp [hotWalletValidator, Json.is_string, Json.is_array]
    | bool b => simp [hotWalletValidator, Json.is_string, Json.is_array]
    | int64 i => simp [hotWalletValidator, Json.is_string, Json.is_array]
    | uint64 u => simp [hotWalletValidator, Json.is_string, Json.is_array]
    | double d => simp [hotWalletValidator, Json.is_string, Json.is_array]
    | object m => simp [hotWalletValidator, Json.is_string, Json.is_array]
  · intro hs ha
    simp [hotWalletValidator, hs, ha]
  · intro hkind hne
    cases value with
    | string s =>
      rw [hotWalletValidator_string] at hne ⊢
      rcases checkWallets_cases lib keys key [Json.string s] with ⟨hok, _⟩ | ⟨herr, _⟩
      · exact absurd hok hne
      · exact herr
    | array elems =>
      rw [hotWalletValidator_array] at hne ⊢
      rcases checkWallets_cases lib keys key elems with ⟨hok, _⟩ | ⟨herr, _⟩
      · exact absurd hok hne
      · exact herr
    | null => simp [Json.is_string, Json.is_array] at hkind
    | bool b => simp [Json.is_string, Json.is_array] at hkind
    | int64 i => simp [Json.is_string, Json.is_array] at hkind
    | uint64 u => simp [Json.is_string, Json.is_array] at hkind
    | double d => simp [Json.is_string, Json.is_array] at hkind
    | object m => simp [Json.is_string, Json.is_array] at hkind
  · intro s
    rw [hotWalletValidator_string, hotWalletValidator_array]

/-- Witness for C21: a public key and an account ID pass as an array, the
empty array passes, a number is neither string nor array, and a string that
does not parse is malformed. -/
theorem hotWalletValidator_spec_witness :
    hotWalletValidator Fixture.lib Fixture.publicKeys
        (Json.array [Json.string "pk5", Json.string "12"]) "hotwallet"
      = Outcome.returned (Except.ok ()) ∧
    hotWalletValidator Fixture.lib Fixture.publicKeys (Json.array []) "hotwallet"
      = Outcome.returned (Except.ok ()) ∧
    hotWalletValidator Fixture.lib Fixture.publicKeys (Json.int64 5) "hotwallet"
      = Outcome.returned (Except.error (RPC.Status.ofCodeMessage
          RPC.RippledError.rpcINVALID_PARAMS ("hotwallet" ++ "NotStringOrArray"))) ∧
    hotWalletValidator Fixture.lib Fixture.publicKeys (Json.string "x") "hotwallet"
      = Outcome.returned (Except.error (RPC.Status.ofCodeMessage
          RPC.RippledError.rpcINVALID_PARAMS ("hotwallet" ++ "Malformed"))) :=
  ⟨(hotWalletValidator_spec Fixture.lib Fixture.publicKeys
      (Json.array [Json.string "pk5", Json.string "12"]) "hotwallet").1.mpr
      (Or.inr ⟨_, rfl, by
        intro e he
        simp only [List.mem_cons, List.mem_singleton, List.not_mem_nil, or_false] at he
        rcases he with rfl | rfl
        · exact ⟨"pk5", rfl, Or.inl rfl⟩
        · exact ⟨"12", rfl, Or.inr rfl⟩⟩),
   (hotWalletValidator_spec Fixture.lib Fixture.publicKeys (Json.array []) "hotwallet").1.mpr
      (Or.inr ⟨[], rfl, by simp⟩),
   (hotWalletValidator_spec Fixture.lib Fixture.publicKeys (Json.int64 5) "hotwallet").2.1
      rfl rfl,
   (hotWalletValidator_spec Fixture.lib Fixture.publicKeys (Json.string "x") "hotwallet").2.2.1
      (Or.inl rfl) (by
        intro h
        have h2 : hotWalletValidator Fixture.lib Fixture.publicKeys (Json.string "x")
            "hotwallet" = Outcome.returned (Except.error (RPC.Status.ofCodeMessage
              RPC.RippledError.rpcINVALID_PARAMS ("hotwallet" ++ "Malformed"))) := rfl
        rw [h2] at h
        cases h)⟩

end RPCng.GatewayBalancesHandler

/-! ## What `process` returns and how it is encoded -/

namespace RPCng.LedgerEntryHandler

theorem bind_eq_returned {α β : Type} (x : Outcome α) (f : α → Outcome β) (b : β) :
    (x >>= f) = Outcome.returned b ↔ ∃ a, x = Outcome.returned a ∧ f a = Outcome.returned b := by
  cases x <;> simp [bind, Outcome.bind]

/-- The Output that the last lines of `process` build (LedgerEntry.cpp, lines
129 to 141). -/
theorem lookup_ok {Yield : Type} (lib : ripple.Library) (backend : BackendInterface Yield)
    (getLedgerInfoFromHashOrSeq : GetLedgerInfoFromHashOrSeq Yield)
    (input : Input) (yield : Yield) (key : ripple.uint256) (out : Output)
    (h : lookup lib backend getLedgerInfoFromHashOrSeq input yield key
      = Outcome.returned (Except.ok out)) :
    ∃ (lgrInfo : ripple.LedgerInfo) (blob : ripple.Blob) (sle : ripple.STLedgerEntry),
      backend.fetchLedgerObject key lgrInfo.seq yield = Outcome.returned (some blob) ∧
      lib.deserialize blob key = Outcome.returned sle ∧
      out = (if input.binary then
          { index := lib.strHex key, ledgerIndex := lgrInfo.seq,
            ledgerHash := lib.strHex lgrInfo.hash,
            nodeBinary := some (lib.strHexBlob blob) }
        else
          { index := lib.strHex key, ledgerIndex := lgrInfo.seq,
            ledgerHash := lib.strHex lgrInfo.hash,
            node := some sle.json }) := by
  unfold lookup at h
  obtain ⟨range, _, h⟩ := (bind_eq_returned _ _ _).mp h
  obtain ⟨info, _, h⟩ := (bind_eq_returned _ _ _).mp h
  cases info with
  | error status => cases h
  | ok lgrInfo =>
    obtain ⟨ledgerObject, hfetch, h⟩ := (bind_eq_returned _ _ _).mp h
    cases ledgerObject with
    | none => cases h
    | some blob =>
      simp only at h
      split at h
      · cases h
      · obtain ⟨sle, hsle, h⟩ := (bind_eq_returned _ _ _).mp h
        refine ⟨lgrInfo, blob, sle, hfetch, hsle, ?_⟩
        split at h
        · cases h
        · split at h
          · rename_i hb
            simp only [Outcome.returned.injEq, Except.ok.injEq] at h
            simp [hb, h]
          · rename_i hb
            simp only [Outcome.returned.injEq, Except.ok.injEq] at h
            simp [hb, h]

theorem process_ok {Yield : Type} (lib : ripple.Library) (backend : BackendInterface Yield)
    (getLedgerInfoFromHashOrSeq : GetLedgerInfoFromHashOrSeq Yield)
    (input : Input) (yield : Yield) (out : Output)
    (h : process lib backend getLedgerInfoFromHashOrSeq input yield
      = Outcome.returned (Except.ok out)) :
    ∃ key, entryKey lib input = Outcome.returned (Except.ok key) ∧
      lookup lib backend getLedgerInfoFromHashOrSeq input yield key
        = Outcome.returned (Except.ok out) := by
  unfold process at h
  obtain ⟨keyOrStatus, hkey, h⟩ := (bind_eq_returned _ _ _).mp h
  cases keyOrStatus with
  | error status => cases h
  | ok key => exact ⟨key, hkey, h⟩

/-- C22: every Output returned by `process` has exactly one of `node` and
`nodeBinary` set, `nodeBinary` if and only if `input.binary` is true; on it
`value_from` reads no unset optional and returns the object with
`ledger_hash`, `ledger_index`, `validated`, `index` and then `node_binary`
(binary) or `node` (otherwise), and no other member. -/
theorem value_from_total_on_process_output {Yield : Type} (lib : ripple.Library)
    (backend : BackendInterface Yield)
    (getLedgerInfoFromHashOrSeq : GetLedgerInfoFromHashOrSeq Yield)
    (input : Input) (yield : Yield) (out : Output)
    (hprocess : process lib backend getLedgerInfoFromHashOrSeq input yield
      = Outcome.returned (Except.ok out)) :
    out.nodeBinary.isSome = input.binary ∧
    out.node.isSome = !input.binary ∧
    ∃ payloadKey payload,
      value_from out = Outcome.returned (Json.object
        [("ledger_hash", Json.string out.ledgerHash),
         ("ledger_index", Json.uint64 out.ledgerIndex),
         ("validated", Json.bool out.validated),
         ("index", Json.string out.index),
         (payloadKey, payload)]) ∧
      ((input.binary = true ∧ payloadKey = "node_binary" ∧
          ∃ text, out.nodeBinary = some text ∧ payload = Json.string text) ∨
        (input.binary = false ∧ payloadKey = "node" ∧
          ∃ node, out.node = some node ∧ payload = Json.object node)) := by
  obtain ⟨key, _, hlookup⟩ := process_ok lib backend getLedgerInfoFromHashOrSeq input yield
    out hprocess
  obtain ⟨lgrInfo, blob, sle, _, _, hout⟩ :=
    lookup_ok lib backend getLedgerInfoFromHashOrSeq input yield key out hlookup
  cases hb : input.binary with
  | true =>
    simp only [hb, if_true] at hout
    subst hout
    refine ⟨rfl, rfl, "node_binary", Json.string (lib.strHexBlob blob), ?_, ?_⟩
    · simp [value_from, Object.set]
    · exact Or.inl ⟨rfl, rfl, _, rfl, rfl⟩
  | false =>
    simp only [hb, Bool.false_eq_true, if_false] at hout
    subst hout
    refine ⟨rfl, rfl, "node", Json.object sle.json, ?_, ?_⟩
    · simp [value_from, Object.set, Outcome.deref, bind, Outcome.bind]
    · exact Or.inr ⟨rfl, rfl, _, rfl, rfl⟩

/-- Witness for C22: the object under key 7 is found; asked for in binary
form the Output has `nodeBinary` only, and its encoding ends with
`node_binary`. -/
theorem value_from_total_on_process_output_witness :
    process Fixture.lib Fixture.backend Fixture.getLedgerInfoFromHashOrSeq
        { index := some "7", binary := true } ()
      = Outcome.returned (Except.ok
          { index := Fixture.lib.strHex 7, ledgerIndex := 10,
            ledgerHash := Fixture.lib.strHex 99,
            nodeBinary := some (Fixture.lib.strHexBlob [1, 2, 3]) }) ∧
    (some (Fixture.lib.strHexBlob [1, 2, 3])).isSome = true ∧
    (none : Option Object).isSome = !true :=
  ⟨rfl,
   (value_from_total_on_process_output Fixture.lib Fixture.backend
      Fixture.getLedgerInfoFromHashOrSeq { index := some "7", binary := true } ()
      { index := Fixture.lib.strHex 7, ledgerIndex := 10,
        ledgerHash := Fixture.lib.strHex 99,
        nodeBinary := some (Fixture.lib.strHexBlob [1, 2, 3]) } rfl).1,
   (value_from_total_on_process_output Fixture.lib Fixture.backend
      Fixture.getLedgerInfoFromHashOrSeq { index := some "7", binary := true } ()
      { index := Fixture.lib.strHex 7, ledgerIndex := 10,
        ledgerHash := Fixture.lib.strHex 99,
        nodeBinary := some (Fixture.lib.strHexBlob [1, 2, 3]) } rfl).2.1⟩

end RPCng.LedgerEntryHandler

/-! ## Order of schema validation -/

namespace RPCng

theorem runValidators_first_failure (pre post : List Validator) (v : Validator)
    (value : Json) (key : String) (a : RPC.Status)
    (hpre : ∀ w ∈ pre, w value key = Outcome.returned (Except.ok ()))
    (hv : v value key = Outcome.returned (Except.error a)) :
    runValidators (pre ++ v :: post) value key = Outcome.returned (Except.error a) := by
  induction pre with
  | nil => simp [runValidators, hv]
  | cons w rest ih =>
    have hw := hpre w (List.mem_cons_self w rest)
    have hrest := ih (fun x hx => hpre x (List.mem_cons_of_mem w hx))
    simp [runValidators, hw, hrest]

theorem runValidators_ok_iff (validators : List Validator) (value : Json) (key : String) :
    runValidators validators value key = Outcome.returned (Except.ok ()) ↔
      ∀ v ∈ validators, v value key = Outcome.returned (Except.ok ()) := by
  induction validators with
  | nil => simp [runValidators]
  | cons v rest ih =>
    cases hv : v value key with
    | returned ret =>
      cases ret with
      | error s => simp [runValidators, hv]
      | ok u => simp [runValidators, hv, ih]
    | threw => simp [runValidators, hv]
    | undefined => simp [runValidators, hv]

theorem runFields_first_failure (pre post : List FieldSpec) (f : FieldSpec)
    (value : Json) (a : RPC.Status)
    (hpre : ∀ g ∈ pre, g.validate value = Outcome.returned (Except.ok ()))
    (hf : f.validate value = Outcome.returned (Except.error a)) :
    runFields (pre ++ f :: post) value = Outcome.returned (Except.error a) := by
  induction pre with
  | nil => simp [runFields, hf]
  | cons g rest ih =>
    have hg := hpre g (List.mem_cons_self g rest)
    have hrest := ih (fun x hx => hpre x (List.mem_cons_of_mem g hx))
    simp [runFields, hg, hrest]

theorem runFields_ok_iff (fields : List FieldSpec) (value : Json) :
    runFields fields value = Outcome.returned (Except.ok ()) ↔
      ∀ f ∈ fields, f.validate value = Outcome.returned (Except.ok ()) := by
  induction fields with
  | nil => simp [runFields]
  | cons f rest ih =>
    cases hf : f.validate value with
    | returned ret =>
      cases ret with
      | error s => simp [runFields, hf]
      | ok u => simp [runFields, hf, ih]
    | threw => simp [runFields, hf]
    | undefined => simp [runFields, hf]

/-- C23: fail-fast ordering of schema validation. For a schema with the
fields `[A, B]` and a document on which A's validator chain fails with the
Status `a`, `validate` returns exactly `a`, whatever B would do. In general
`validate` returns the failure of the first failing field in declaration
order, a field returns the failure of its first failing validator in
declaration order, and `validate` returns success exactly when every
validator of every field returns success. -/
theorem validate_fail_fast (document : Json) :
    (∀ (A B : FieldSpec) (a : RPC.Status),
      A.validate document = Outcome.returned (Except.error a) →
      (RpcSpec.mk [A, B]).validate document = Outcome.returned (Except.error a)) ∧
    (∀ (pre post : List FieldSpec) (f : FieldSpec) (a : RPC.Status),
      (∀ g ∈ pre, g.validate document = Outcome.returned (Except.ok ())) →
      f.validate document = Outcome.returned (Except.error a) →
      (RpcSpec.mk (pre ++ f :: post)).validate document
        = Outcome.returned (Except.error a)) ∧
    (∀ (pre post : List Validator) (v : Validator) (key : String) (a : RPC.Status),
      (∀ w ∈ pre, w document key = Outcome.returned (Except.ok ())) →
      v document key = Outcome.returned (Except.error a) →
      (FieldSpec.mk key (pre ++ v :: post)).validate document
        = Outcome.returned (Except.error a)) ∧
    (∀ spec : RpcSpec,
      spec.validate document = Outcome.returned (Except.ok ()) ↔
        ∀ f ∈ spec.fields, ∀ v ∈ f.validators,
          v document f.key = Outcome.returned (Except.ok ())) := by
  refine ⟨?_, ?_, ?_, ?_⟩
  · intro A B a hA
    exact runFields_first_failure [] [B] A document a (by simp) hA
  · intro pre post f a hpre hf
    exact runFields_first_failure pre post f document a hpre hf
  · intro pre post v key a hpre hv
    exact runValidators_first_failure pre post v document key a hpre hv
  · intro spec
    unfold RpcSpec.validate
    rw [runFields_ok_iff]
    constructor
    · intro h f hf
      exact (runValidators_ok_iff f.validators document f.key).mp (h f hf)
    · intro h f hf
      exact (runValidators_ok_iff f.validators document f.key).mpr (h f hf)

/-- Witness for C23: field A fails with the detail `a` and field B would fail
with the detail `b`; the schema `[A, B]` reports `a`. -/
theorem validate_fail_fast_witness :
    (RpcSpec.mk
        [FieldSpec.mk "A" [fun _ _ => Outcome.returned (Except.error
            (RPC.Status.ofCodeMessage RPC.RippledError.rpcINVALID_PARAMS "a"))],
         FieldSpec.mk "B" [fun _ _ => Outcome.returned (Except.error
            (RPC.Status.ofCodeMessage RPC.RippledError.rpcINVALID_PARAMS "b"))]]).validate
        (Json.object [])
      = Outcome.returned (Except.error
          (RPC.Status.ofCodeMessage RPC.RippledError.rpcINVALID_PARAMS "a")) :=
  (validate_fail_fast (Json.object [])).1
    (FieldSpec.mk "A" [fun _ _ => Outcome.returned (Except.error
        (RPC.Status.ofCodeMessage RPC.RippledError.rpcINVALID_PARAMS "a"))])
    (FieldSpec.mk "B" [fun _ _ => Outcome.returned (Except.error
        (RPC.Status.ofCodeMessage RPC.RippledError.rpcINVALID_PARAMS "b"))])
    (RPC.Status.ofCodeMessage RPC.RippledError.rpcINVALID_PARAMS "a") rfl

end RPCng

/-! ## The error family of a malformed address -/

namespace RPCng.LedgerEntryHandler

/-- Counterexample to C24: for the accounts `["12", "x"]`, whose second
address does not parse, the check of the new handler and the `ripple_state`
branch of the legacy handler both return the detail `malformedAddresses` with
a kind of the server-specific family, `ClioError::rpcMALFORMED_ADDRESS`; it is
no kind of the protocol-inherited family. -/
theorem malformedAddresses_not_protocol_inherited :
    rippleStateAccountsCheck Fixture.lib
        (Json.array [Json.string "12", Json.string "x"]) "accounts"
      = Outcome.returned (Except.error
          { code := Sum.inr RPC.ClioError.rpcMALFORMED_ADDRESS,
            message := some "malformedAddresses" }) ∧
    RPC.selectRippleState Fixture.lib
        [("ripple_state", Json.object
          [("accounts", Json.array [Json.string "12", Json.string "x"]),
           ("currency", Json.string "1")])]
      = Outcome.returned (Except.error
          { code := Sum.inr RPC.ClioError.rpcMALFORMED_ADDRESS,
            message := some "malformedAddresses" }) ∧
    (∀ code : RPC.RippledError,
      (Sum.inr RPC.ClioError.rpcMALFORMED_ADDRESS : RPC.CombinedError) ≠ Sum.inl code) :=
  ⟨rfl, rfl, fun _ h => Sum.noConfusion h⟩

theorem stateAccountsMalformed_pair (state : Object) (a b : String)
    (haccounts : find "accounts" state = some (Json.array [Json.string a, Json.string b])) :
    RPC.stateAccountsMalformed state = Outcome.returned (decide (a = b)) := by
  simp [RPC.stateAccountsMalformed, contains, haccounts, Object.at, Json.is_array,
    Json.as_array, arrayAt, Json.is_string, Json.as_string, bind, Outcome.bind, pure]

theorem stateAccount_pair (state : Object) (a b : String)
    (haccounts : find "accounts" state = some (Json.array [Json.string a, Json.string b])) :
    RPC.stateAccount state 0 = Outcome.returned (c_str a) ∧
    RPC.stateAccount state 1 = Outcome.returned (c_str b) := by
  constructor <;>
    simp [RPC.stateAccount, haccounts, Object.at, Json.as_array, arrayAt, Json.as_string,
      bind, Outcome.bind, pure]

/-- C24 as amended: the Status returned for an unparseable account address
of `ripple_state`, with the detail `malformedAddresses`, carries the
malformed-address kind that the code takes from the server-specific family
(`ClioError::rpcMALFORMED_ADDRESS`), whereas invalid-params is a kind of the
protocol-inherited family (`RippledError`). This holds for the check of the
new handler and for the `ripple_state` branch of legacy `doLedgerEntry`. -/
theorem malformedAddresses_is_server_specific (lib : ripple.Library) (a b : String)
    (hdiffer : a ≠ b)
    (hparse : lib.parseBase58AccountID (c_str a) = none ∨
      lib.parseBase58AccountID (c_str b) = none) :
    (∀ key, rippleStateAccountsCheck lib (Json.array [Json.string a, Json.string b]) key
      = Outcome.returned (Except.error
          (RPC.Status.ofClioMessage RPC.ClioError.rpcMALFORMED_ADDRESS
            "malformedAddresses"))) ∧
    (∀ (request state : Object) (code : String),
      find "ripple_state" request = some (Json.object state) →
      find "currency" state = some (Json.string code) →
      find "accounts" state = some (Json.array [Json.string a, Json.string b]) →
      RPC.selectRippleState lib request
        = Outcome.returned (Except.error
            (RPC.Status.ofClioMessage RPC.ClioError.rpcMALFORMED_ADDRESS
              "malformedAddresses"))) ∧
    (RPC.Status.ofClioMessage RPC.ClioError.rpcMALFORMED_ADDRESS "malformedAddresses").code
      = Sum.inr RPC.ClioError.rpcMALFORMED_ADDRESS ∧
    (RPC.Status.ofCode RPC.RippledError.rpcINVALID_PARAMS).code
      = Sum.inl RPC.RippledError.rpcINVALID_PARAMS := by
  refine ⟨?_, ?_, rfl, rfl⟩
  · intro key
    have hm := accountsMalformed_pair a b
    rcases hparse with h | h <;>
      simp [rippleStateAccountsCheck, hm, hdiffer, h, Json.as_array, arrayIndex,
        Outcome.deref, Json.as_string, bind, Outcome.bind]
  · intro request state code hstate hcurrency haccounts
    have hm := stateAccountsMalformed_pair state a b haccounts
    obtain ⟨h0, h1⟩ := stateAccount_pair state a b haccounts
    rcases hparse with h | h
    · simp [RPC.selectRippleState, Object.at, hstate, Json.is_object, Json.as_object,
        RPC.lacksString, hcurrency, Json.is_string, hm, hdiffer, h0, h1, h, bind,
        Outcome.bind]
    · cases h2 : lib.parseBase58AccountID (c_str a) <;>
        simp [RPC.selectRippleState, Object.at, hstate, Json.is_object, Json.as_object,
          RPC.lacksString, hcurrency, Json.is_string, hm, hdiffer, h0, h1, h, h2, bind,
          Outcome.bind]

/-- Witness for the amended C24: the accounts `"12"` and `"x"`. -/
theorem malformedAddresses_is_server_specific_witness :
    rippleStateAccountsCheck Fixture.lib
        (Json.array [Json.string "12", Json.string "x"]) "accounts"
      = Outcome.returned (Except.error
          (RPC.Status.ofClioMessage RPC.ClioError.rpcMALFORMED_ADDRESS
            "malformedAddresses")) :=
  (malformedAddresses_is_server_specific Fixture.lib "12" "x" (by decide)
    (Or.inr rfl)).1 "accounts"

end RPCng.LedgerEntryHandler

/-! ## Round trip of the encoded Output -/

namespace RPCng.LedgerEntryHandler

/-- C25: round trip of the `ledger_entry` Output encoding. On Outputs having
exactly one of `node` and `nodeBinary` set, which are the ones `process`
produces, `value_from` is injective: two such Outputs with the same encoded
document are equal, so in `index`, `ledgerIndex`, `ledgerHash`, `validated`
and `node` or `nodeBinary`. Hence a decoder exists with
`decode(encode(x)) == x` for each of them. -/
theorem value_from_round_trip :
    (∀ (x y : Output) (jv : Json),
      x.node.isSome ≠ x.nodeBinary.isSome → y.node.isSome ≠ y.nodeBinary.isSome →
      value_from x = Outcome.returned jv → value_from y = Outcome.returned jv → x = y) ∧
    (∃ decode : Json → Option Output, ∀ (x : Output) (jv : Json),
      x.node.isSome ≠ x.nodeBinary.isSome →
      value_from x = Outcome.returned jv → decode jv = some x) := by
  have inj : ∀ (x y : Output) (jv : Json),
      x.node.isSome ≠ x.nodeBinary.isSome → y.node.isSome ≠ y.nodeBinary.isSome →
      value_from x = Outcome.returned jv → value_from y = Outcome.returned jv → x = y := by
    intro x y jv hx hy hxe hye
    rw [← hye] at hxe
    obtain ⟨xi, xl, xh, xn, xb, xv⟩ := x
    obtain ⟨yi, yl, yh, yn, yb, yv⟩ := y
    cases xn <;> cases xb <;> cases yn <;> cases yb <;>
      simp [value_from, Object.set, Outcome.deref, bind, Outcome.bind] at hx hy hxe ⊢ <;>
      simp_all
  refine ⟨inj, ?_⟩
  classical
  refine ⟨fun jv =>
    if h : ∃ x : Output, x.node.isSome ≠ x.nodeBinary.isSome ∧
        value_from x = Outcome.returned jv
    then some (Classical.choose h) else none, ?_⟩
  intro x jv hx hxe
  have h : ∃ x : Output, x.node.isSome ≠ x.nodeBinary.isSome ∧
      value_from x = Outcome.returned jv := ⟨x, hx, hxe⟩
  simp only [h, dif_pos]
  have hc := Classical.choose_spec h
  exact congrArg some (inj _ _ jv hc.1 hx hc.2 hxe)

/-- Witness for C25: the binary Output for key 7 has `nodeBinary` only, its
encoding is the five-member object, and an Output with that encoding is that
Output. -/
theorem value_from_round_trip_witness :
    value_from
        { index := "7", ledgerIndex := 10, ledgerHash := "99", nodeBinary := some "3" }
      = Outcome.returned (Json.object
          [("ledger_hash", Json.string "99"), ("ledger_index", Json.uint64 10),
           ("validated", Json.bool true), ("index", Json.string "7"),
           ("node_binary", Json.string "3")]) ∧
    ({ index := "7", ledgerIndex := 10, ledgerHash := "99", nodeBinary := some "3" } : Output)
      = { index := "7", ledgerIndex := 10, ledgerHash := "99", nodeBinary := some "3" } :=
  ⟨rfl,
   value_from_round_trip.1
     { index := "7", ledgerIndex := 10, ledgerHash := "99", nodeBinary := some "3" }
     { index := "7", ledgerIndex := 10, ledgerHash := "99", nodeBinary := some "3" }
     (Json.object
        [("ledger_hash", Json.string "99"), ("ledger_index", Json.uint64 10),
         ("validated", Json.bool true), ("index", Json.string "7"),
         ("node_binary", Json.string "3")])
     (by decide) (by decide) rfl rfl⟩

/-! ## A request that names no entry -/

/-- C26: for every Input in which none of `index`, `accountRoot`,
`directory`, `offer`, `rippleStateAccount`, `escrow`, `depositPreauth` and
`ticket` is set, `process` returns `Status{invalid-params, "unknownOption"}`,
for every library, backend, ledger lookup and yield context: the backend is
not consulted before this error. -/
theorem process_unknownOption {Yield : Type} (lib : ripple.Library)
    (backend : BackendInterface Yield)
    (getLedgerInfoFromHashOrSeq : GetLedgerInfoFromHashOrSeq Yield)
    (input : Input) (yield : Yield)
    (hindex : input.index = none) (haccountRoot : input.accountRoot = none)
    (hdirectory : input.directory = none) (hoffer : input.offer = none)
    (hstate : input.rippleStateAccount = none) (hescrow : input.escrow = none)
    (hdeposit : input.depositPreauth = none) (hticket : input.ticket = none) :
    process lib backend getLedgerInfoFromHashOrSeq input yield
      = Outcome.returned (Except.error
          (RPC.Status.ofCodeMessage RPC.RippledError.rpcINVALID_PARAMS "unknownOption")) := by
  simp [process, entryKey, hindex, haccountRoot, hdirectory, hoffer, hstate, hescrow,
    hdeposit, hticket, bind, Outcome.bind]

/-- Witness for C26: an Input that only asks for the binary form, on a
backend without any ledger and on one whose store times out. -/
theorem process_unknownOption_witness :
    process Fixture.lib Fixture.emptyBackend Fixture.getLedgerInfoFromHashOrSeq
        { binary := true } ()
      = Outcome.returned (Except.error
          (RPC.Status.ofCodeMessage RPC.RippledError.rpcINVALID_PARAMS "unknownOption")) ∧
    process Fixture.lib Fixture.timeoutBackend Fixture.getLedgerInfoFromHashOrSeq
        { binary := true } ()
      = Outcome.returned (Except.error
          (RPC.Status.ofCodeMessage RPC.RippledError.rpcINVALID_PARAMS "unknownOption")) :=
  ⟨process_unknownOption Fixture.lib Fixture.emptyBackend
      Fixture.getLedgerInfoFromHashOrSeq { binary := true } ()
      rfl rfl rfl rfl rfl rfl rfl rfl,
   process_unknownOption Fixture.lib Fixture.timeoutBackend
      Fixture.getLedgerInfoFromHashOrSeq { binary := true } ()
      rfl rfl rfl rfl rfl rfl rfl rfl⟩

end RPCng.LedgerEntryHandler

/-! ## The index fields of the decoder -/

namespace RPCng.LedgerEntryHandler

theorem find_of_perm_unique {α : Type} (p : α → Bool) (l l0 : List α) (e : α)
    (hperm : l.Perm l0) (he : e ∈ l0) (hp : p e = true)
    (huniq : ∀ x ∈ l0, p x = true → x = e) : l.find? p = some e := by
  cases h : l.find? p with
  | none =>
    have := List.find?_eq_none.mp h e (hperm.mem_iff.mpr he)
    exact absurd hp this
  | some x =>
    have hx : p x = true := List.find?_some h
    have hmem : x ∈ l := List.mem_of_find?_eq_some h
    rw [huniq x (hperm.mem_iff.mp hmem) hx]

theorem stringField_of_find (members : Object) (field text : String)
    (h : find field members = some (Json.string text)) :
    stringField (Json.object members) field = Outcome.returned (c_str text) := by
  simp [stringField, Json.at, Json.as_object, Object.at, h, Json.as_string, bind,
    Outcome.bind, pure]

theorem value_to_selected (mapOrder : List (String × ripple.LedgerEntryType))
    (members : Object) (entry : String × ripple.LedgerEntryType) (text : String)
    (hfind : mapOrder.find? (isStringField members) = some entry)
    (hfield : find entry.1 members = some (Json.string text))
    (out : Input) (h : value_to mapOrder (Json.object members) = Outcome.returned out) :
    out.index = some (c_str text) ∧ out.expectedType = entry.2 ∧
    out.accountRoot = none ∧ out.directory = none ∧ out.offer = none ∧
    out.rippleStateAccount = none ∧ out.escrow = none ∧ out.depositPreauth = none ∧
    out.ticket = none := by
  have hs := stringField_of_find members entry.1 text hfield
  simp only [value_to, Json.as_object, bind, Outcome.bind, hfind, hs, pure] at h
  repeat' split at h
  all_goals first
    | (cases h; done)
    | (simp only [Outcome.returned.injEq] at h; subst h; simp)

theorem value_to_selected_plain (mapOrder : List (String × ripple.LedgerEntryType))
    (members : Object) (entry : String × ripple.LedgerEntryType) (text : String)
    (hfind : mapOrder.find? (isStringField members) = some entry)
    (hfield : find entry.1 members = some (Json.string text))
    (hhash : contains members "ledger_hash" = false)
    (hindex : contains members "ledger_index" = false)
    (hbinary : contains members "binary" = false) :
    value_to mapOrder (Json.object members)
      = Outcome.returned { index := some (c_str text), expectedType := entry.2 } := by
  have hs := stringField_of_find members entry.1 text hfield
  simp [value_to, Json.as_object, bind, Outcome.bind, hfind, hs, pure, hhash, hindex, hbinary]

theorem find_index_entry (mapOrder : List (String × ripple.LedgerEntryType))
    (hperm : mapOrder.Perm indexFieldTypeMap) (members : Object)
    (entry : String × ripple.LedgerEntryType) (text : String)
    (hentry : entry ∈ indexFieldTypeMap)
    (hfield : find entry.1 members = some (Json.string text))
    (hothers : ∀ other ∈ indexFieldTypeMap, other ≠ entry →
      ∀ s, find other.1 members ≠ some (Json.string s)) :
    mapOrder.find? (isStringField members) = some entry := by
  apply find_of_perm_unique _ _ _ _ hperm hentry
  · simp [isStringField, hfield, Json.is_string]
  · intro x hx hstring
    by_contra hne
    have hno := hothers x hx hne
    unfold isStringField at hstring
    cases hf : find x.1 members with
    | none => simp [hf] at hstring
    | some v =>
      cases v <;> simp [hf, Json.is_string] at hstring
      exact hno _ hf

/-- Counterexample to C27: the only index field present is `index`, holding
the string `ab`, a NUL character, `c`. The decoded Input has the index `ab`,
which is not that string: the decoder assigns the field through `c_str()`.
The same holds for every order in which the field map is visited. -/
theorem value_to_index_cut_at_nul :
    value_to indexFieldTypeMap
        (Json.object [("index", Json.string (String.mk ['a', 'b', Char.ofNat 0, 'c']))])
      = Outcome.returned { index := some "ab" } ∧
    (some "ab" : Option String) ≠ some (String.mk ['a', 'b', Char.ofNat 0, 'c']) ∧
    (∀ mapOrder : List (String × ripple.LedgerEntryType),
      mapOrder.Perm indexFieldTypeMap →
      value_to mapOrder
          (Json.object [("index", Json.string (String.mk ['a', 'b', Char.ofNat 0, 'c']))])
        = Outcome.returned { index := some "ab" }) := by
  refine ⟨rfl, by decide, ?_⟩
  intro mapOrder hperm
  have hfind := find_index_entry mapOrder hperm
    [("index", Json.string (String.mk ['a', 'b', Char.ofNat 0, 'c']))]
    ("index", ripple.LedgerEntryType.ltANY) (String.mk ['a', 'b', Char.ofNat 0, 'c'])
    (by decide) rfl (by
      intro other hother hne s
      simp only [indexFieldTypeMap, List.mem_cons, List.mem_singleton, List.not_mem_nil,
        or_false] at hother
      rcases hother with rfl | rfl | rfl | rfl | rfl | rfl | rfl | rfl
      · exact absurd rfl hne
      all_goals (intro h; cases h))
  exact value_to_selected_plain mapOrder _ _ _ hfind rfl rfl rfl rfl

/-- C27 as amended: for every object document in which exactly one of the
fields `index`, `directory`, `offer`, `check`, `escrow`, `payment_channel`,
`deposit_preauth`, `ticket` is present with a string value, and for every
order in which the field map is visited, an Input returned by the decoder has
`index` equal to that string cut at its first NUL character (the string
itself when it holds none), `expectedType` equal to the type saved for that
field, and no other entry selector set. When `ledger_hash`, `ledger_index`
and `binary` are absent the decoder returns that Input. -/
theorem value_to_index_field (mapOrder : List (String × ripple.LedgerEntryType))
    (hperm : mapOrder.Perm indexFieldTypeMap) (members : Object)
    (entry : String × ripple.LedgerEntryType) (text : String)
    (hentry : entry ∈ indexFieldTypeMap)
    (hfield : find entry.1 members = some (Json.string text))
    (hothers : ∀ other ∈ indexFieldTypeMap, other ≠ entry →
      ∀ s, find other.1 members ≠ some (Json.string s)) :
    (∀ input, value_to mapOrder (Json.object members) = Outcome.returned input →
      input.index = some (c_str text) ∧ input.expectedType = entry.2 ∧
      input.accountRoot = none ∧ input.directory = none ∧ input.offer = none ∧
      input.rippleStateAccount = none ∧ input.escrow = none ∧
      input.depositPreauth = none ∧ input.ticket = none) ∧
    (contains members "ledger_hash" = false → contains members "ledger_index" = false →
      contains members "binary" = false →
      value_to mapOrder (Json.object members)
        = Outcome.returned { index := some (c_str text), expectedType := entry.2 }) ∧
    ((∀ c ∈ text.data, c ≠ Char.ofNat 0) → c_str text = text) := by
  have hfind := find_index_entry mapOrder hperm members entry text hentry hfield hothers
  refine ⟨?_, ?_, ?_⟩
  · intro input h
    exact value_to_selected mapOrder members entry text hfind hfield input h
  · intro hhash hindex hbinary
    exact value_to_selected_plain mapOrder members entry text hfind hfield hhash hindex
      hbinary
  · intro hnul
    have htake : text.data.takeWhile (fun c => decide (c ≠ Char.ofNat 0)) = text.data := by
      apply List.takeWhile_eq_self_iff.mpr
      intro c hc
      simpa using hnul c hc
    unfold c_str
    rw [htake]

/-- Witness for the amended C27: the document holds `check` as a string and
`directory` as an object; the Input has the index of the check, the check
type and no directory, also when the map is visited in reverse order. -/
theorem value_to_index_field_witness :
    value_to indexFieldTypeMap.reverse
        (Json.object [("directory", Json.object [("owner", Json.string "12")]),
          ("check", Json.string "77")])
      = Outcome.returned
          { index := some (c_str "77"), expectedType := ripple.LedgerEntryType.ltCHECK } ∧
    c_str "77" = "77" :=
  ⟨(value_to_index_field indexFieldTypeMap.reverse (List.reverse_perm indexFieldTypeMap)
      [("directory", Json.object [("owner", Json.string "12")]), ("check", Json.string "77")]
      ("check", ripple.LedgerEntryType.ltCHECK) "77" (by decide) rfl (by
        intro other hother hne s
        simp only [indexFieldTypeMap, List.mem_cons, List.mem_singleton, List.not_mem_nil,
          or_false] at hother
        rcases hother with rfl | rfl | rfl | rfl | rfl | rfl | rfl | rfl
        all_goals first
          | exact absurd rfl hne
          | (intro h; cases h))).2.1 rfl rfl rfl,
   by decide⟩

end RPCng.LedgerEntryHandler

/-! ## The type of the fetched entry -/

namespace RPCng.LedgerEntryHandler

/-- C28: when the key and the ledger header resolve and the backend holds a
non-empty object that deserialises to the entry `sle`, the handler returns
the Status `unexpectedLedgerType` if and only if the expected type is not the
any-type and differs from the type of `sle`; otherwise it returns a success
value. First `LedgerEntryHandler::process`, then legacy `doLedgerEntry`. -/
theorem unexpectedLedgerType_iff {Yield : Type} (lib : ripple.Library) :
    (∀ (backend : BackendInterface Yield)
        (getLedgerInfoFromHashOrSeq : GetLedgerInfoFromHashOrSeq Yield)
        (input : Input) (yield : Yield) (key : ripple.uint256) (range : LedgerRange)
        (lgrInfo : ripple.LedgerInfo) (blob : ripple.Blob) (sle : ripple.STLedgerEntry),
        entryKey lib input = Outcome.returned (Except.ok key) →
        backend.fetchLedgerRange = some range →
        getLedgerInfoFromHashOrSeq backend yield input.ledgerHash input.ledgerIndex
            range.maxSequence = Outcome.returned (Except.ok lgrInfo) →
        backend.fetchLedgerObject key lgrInfo.seq yield = Outcome.returned (some blob) →
        blob ≠ [] →
        lib.deserialize blob key = Outcome.returned sle →
        (process lib backend getLedgerInfoFromHashOrSeq input yield
            = Outcome.returned (Except.error (RPC.Status.ofMessage "unexpectedLedgerType")) ↔
          input.expectedType ≠ ripple.LedgerEntryType.ltANY ∧
            sle.type ≠ input.expectedType) ∧
        (¬ (input.expectedType ≠ ripple.LedgerEntryType.ltANY ∧
            sle.type ≠ input.expectedType) →
          ∃ out, process lib backend getLedgerInfoFromHashOrSeq input yield
            = Outcome.returned (Except.ok out))) ∧
    (∀ (helpers : RPC.Helpers Yield) (context : RPC.Context Yield) (binary : Bool)
        (lgrInfo : ripple.LedgerInfo) (key : ripple.uint256)
        (expectedType : ripple.LedgerEntryType) (blob : ripple.Blob)
        (sle : ripple.STLedgerEntry),
        helpers.getBool context.params "binary" false = Outcome.returned binary →
        helpers.ledgerInfoFromRequest context = Outcome.returned (Except.ok lgrInfo) →
        RPC.selectEntry lib context.params
          = Outcome.returned (Except.ok (key, expectedType)) →
        context.backend.fetchLedgerObject key lgrInfo.seq context.yield
          = Outcome.returned (some blob) →
        blob ≠ [] →
        lib.deserialize blob key = Outcome.returned sle →
        (RPC.doLedgerEntry lib helpers context
            = Outcome.returned (Except.error (RPC.Status.ofMessage "unexpectedLedgerType")) ↔
          expectedType ≠ ripple.LedgerEntryType.ltANY ∧ sle.type ≠ expectedType) ∧
        (¬ (expectedType ≠ ripple.LedgerEntryType.ltANY ∧ sle.type ≠ expectedType) →
          ∃ response, RPC.doLedgerEntry lib helpers context
            = Outcome.returned (Except.ok response))) := by
  constructor
  · intro backend getInfo input yield key range lgrInfo blob sle hkey hrange hinfo hfetch
      hblob hsle
    have hlen : ¬ blob.length = 0 := fun h => hblob (List.length_eq_zero.mp h)
    by_cases hcond : input.expectedType ≠ ripple.LedgerEntryType.ltANY ∧
        sle.type ≠ input.expectedType
    · simp [process, lookup, hkey, hrange, hinfo, hfetch, hlen, hsle, hcond, Outcome.deref,
        bind, Outcome.bind]
    · cases hb : input.binary <;>
        simp [process, lookup, hkey, hrange, hinfo, hfetch, hlen, hsle, hcond, hb,
          Outcome.deref, bind, Outcome.bind]
  · intro helpers context binary lgrInfo key expectedType blob sle hbool hinfo hsel hfetch
      hblob hsle
    have hlen : ¬ blob.length = 0 := fun h => hblob (List.length_eq_zero.mp h)
    by_cases hcond : expectedType ≠ ripple.LedgerEntryType.ltANY ∧ sle.type ≠ expectedType
    · simp [RPC.doLedgerEntry, RPC.respond, hbool, hinfo, hsel, hfetch, hlen, hsle, hcond,
        bind, Outcome.bind]
    · cases binary <;>
        simp [RPC.doLedgerEntry, RPC.respond, hbool, hinfo, hsel, hfetch, hlen, hsle, hcond,
          bind, Outcome.bind]

/-- Witness for C28: the object under key 7 is an account root. Asked for as
a check it is of an unexpected type, in both handlers; asked for by index it
is returned. -/
theorem unexpectedLedgerType_iff_witness :
    process Fixture.lib Fixture.backend Fixture.getLedgerInfoFromHashOrSeq
        { index := some "7", expectedType := ripple.LedgerEntryType.ltCHECK } ()
      = Outcome.returned (Except.error (RPC.Status.ofMessage "unexpectedLedgerType")) ∧
    RPC.doLedgerEntry Fixture.lib Fixture.helpers
        (Fixture.context [("check", Json.string "7")])
      = Outcome.returned (Except.error (RPC.Status.ofMessage "unexpectedLedgerType")) ∧
    (∃ out, process Fixture.lib Fixture.backend Fixture.getLedgerInfoFromHashOrSeq
        { index := some "7" } ()
      = Outcome.returned (Except.ok out)) :=
  ⟨((unexpectedLedgerType_iff Fixture.lib).1 Fixture.backend
      Fixture.getLedgerInfoFromHashOrSeq
      { index := some "7", expectedType := ripple.LedgerEntryType.ltCHECK } () 7
      { minSequence := 1, maxSequence := 10 } { seq := 10, hash := 99 } [1, 2, 3]
      { type := ripple.LedgerEntryType.ltACCOUNT_ROOT, json := [] }
      rfl rfl rfl rfl (by decide) rfl).1.mpr ⟨by decide, by decide⟩,
   ((unexpectedLedgerType_iff Fixture.lib).2 Fixture.helpers
      (Fixture.context [("check", Json.string "7")]) false { seq := 10, hash := 99 } 7
      ripple.LedgerEntryType.ltCHECK [1, 2, 3]
      { type := ripple.LedgerEntryType.ltACCOUNT_ROOT, json := [] }
      rfl rfl rfl rfl (by decide) rfl).1.mpr ⟨by decide, by decide⟩,
   ((unexpectedLedgerType_iff Fixture.lib).1 Fixture.backend
      Fixture.getLedgerInfoFromHashOrSeq { index := some "7" } () 7
      { minSequence := 1, maxSequence := 10 } { seq := 10, hash := 99 } [1, 2, 3]
      { type := ripple.LedgerEntryType.ltACCOUNT_ROOT, json := [] }
      rfl rfl rfl rfl (by decide) rfl).2 (by decide)⟩

end RPCng.LedgerEntryHandler

/-! ## Accessors of the legacy handler, and a backend without ledgers -/

namespace RPC

/-- C29 fails on the code: legacy `doLedgerEntry` applies `as_string()` to
values it has not checked. An `escrow` or `offer` value that is neither an
object nor a string, and a `dir_root` or `owner` inside `directory` that is
not a string, make the accessor throw, for every library; the whole handler
then throws although the ledger header resolved. The sibling branch for
`ticket` checks the kind first and returns a Status. -/
theorem doLedgerEntry_unchecked_accessors :
    (∀ lib : ripple.Library,
      selectEntry lib [("escrow", Json.int64 5)] = Outcome.threw) ∧
    (∀ lib : ripple.Library,
      selectEntry lib [("offer", Json.int64 5)] = Outcome.threw) ∧
    (∀ lib : ripple.Library,
      selectEntry lib [("directory", Json.object [("dir_root", Json.int64 5)])]
        = Outcome.threw) ∧
    (∀ lib : ripple.Library,
      selectEntry lib [("directory", Json.object [("owner", Json.int64 5)])]
        = Outcome.threw) ∧
    doLedgerEntry Fixture.lib Fixture.helpers (Fixture.context [("escrow", Json.int64 5)])
      = Outcome.threw ∧
    (∀ lib : ripple.Library,
      selectEntry lib [("ticket", Json.int64 5)]
        = Outcome.returned (Except.error
            (Status.ofClioMessage ClioError.rpcMALFORMED_REQUEST "ticketNotString"))) :=
  ⟨fun _ => rfl, fun _ => rfl, fun _ => rfl, fun _ => rfl, rfl, fun _ => rfl⟩

end RPC

namespace RPCng.LedgerEntryHandler

/-- C30 fails on the code: `process` reads `range->maxSequence`
(LedgerEntry.cpp, line 112) from the optional that `fetchLedgerRange()`
returned (line 106) without testing it. Whenever a key is derived from the
Input, for every library, ledger lookup and object store, on a backend that
reports no range `process` dereferences the empty optional, which is
undefined behaviour, and returns no Result. The Input naming the index 8 is
such an Input; on the backend with ledgers 1 to 10 the same Input gets a
Result. -/
theorem process_dereferences_absent_range :
    (∀ {Yield : Type} (lib : ripple.Library) (backend : BackendInterface Yield)
        (getLedgerInfoFromHashOrSeq : GetLedgerInfoFromHashOrSeq Yield)
        (input : Input) (yield : Yield) (key : ripple.uint256),
      entryKey lib input = Outcome.returned (Except.ok key) →
      backend.fetchLedgerRange = none →
      process lib backend getLedgerInfoFromHashOrSeq input yield = Outcome.undefined) ∧
    Fixture.emptyBackend.fetchLedgerRange = none ∧
    (∀ (getLedgerInfoFromHashOrSeq : GetLedgerInfoFromHashOrSeq Unit)
        (fetchLedgerObject : ripple.uint256 → Nat → Unit → Outcome (Option ripple.Blob)),
      process Fixture.lib
          { fetchLedgerRange := none, fetchLedgerObject := fetchLedgerObject }
          getLedgerInfoFromHashOrSeq { index := some "8" } ()
        = Outcome.undefined) ∧
    process Fixture.lib Fixture.emptyBackend Fixture.getLedgerInfoFromHashOrSeq
        { index := some "8" } ()
      = Outcome.undefined ∧
    process Fixture.lib Fixture.backend Fixture.getLedgerInfoFromHashOrSeq
        { index := some "8" } ()
      = Outcome.returned (Except.error (RPC.Status.ofMessage "entryNotFound")) := by
  refine ⟨?_, rfl, fun _ _ => rfl, rfl, rfl⟩
  intro Yield lib backend getLedgerInfoFromHashOrSeq input yield key hkey hrange
  simp [process, lookup, hkey, hrange, Outcome.deref, bind, Outcome.bind]

end RPCng.LedgerEntryHandler

/-! ## The checks of the channel verify handler -/

namespace RPC

/-- C36: `doChannelVerify` applies its presence and type checks in a fixed
order and returns the Status of the first that fails, each of kind
invalid-params: `missingAmount`, `amountNotString`, `missingSignature`,
`signatureNotString`, `missingPublicKey`, `publicKeyNotString`. Each line
holds for every library and whatever the fields of the later checks
contain. -/
theorem doChannelVerify_checks_in_order {Yield : Type} (lib : VerifyLibrary)
    (context : Context Yield) :
    (contains context.params "amount" = false →
      doChannelVerify lib context = Outcome.returned (Except.error
        (Status.ofCodeMessage RippledError.rpcINVALID_PARAMS "missingAmount"))) ∧
    (∀ amount, find "amount" context.params = some amount →
      (amount.is_string = false →
        doChannelVerify lib context = Outcome.returned (Except.error
          (Status.ofCodeMessage RippledError.rpcINVALID_PARAMS "amountNotString"))) ∧
      (amount.is_string = true →
        (contains context.params "signature" = false →
          doChannelVerify lib context = Outcome.returned (Except.error
            (Status.ofCodeMessage RippledError.rpcINVALID_PARAMS "missingSignature"))) ∧
        (∀ signature, find "signature" context.params = some signature →
          (signature.is_string = false →
            doChannelVerify lib context = Outcome.returned (Except.error
              (Status.ofCodeMessage RippledError.rpcINVALID_PARAMS "signatureNotString"))) ∧
          (signature.is_string = true →
            (contains context.params "public_key" = false →
              doChannelVerify lib context = Outcome.returned (Except.error
                (Status.ofCodeMessage RippledError.rpcINVALID_PARAMS "missingPublicKey"))) ∧
            (∀ publicKey, find "public_key" context.params = some publicKey →
              publicKey.is_string = false →
              doChannelVerify lib context = Outcome.returned (Except.error
                (Status.ofCodeMessage RippledError.rpcINVALID_PARAMS
                  "publicKeyNotString"))))))) := by
  constructor
  · intro habsent
    simp [doChannelVerify, habsent]
  · intro amount hamount
    have hca := contains_of_find _ _ _ hamount
    have haa := at_of_find _ _ _ hamount
    constructor
    · intro hs
      simp [doChannelVerify, hca, haa, hs, bind, Outcome.bind]
    · intro hs
      constructor
      · intro habsent
        simp [doChannelVerify, hca, haa, hs, habsent, bind, Outcome.bind]
      · intro signature hsignature
        have hcs := contains_of_find _ _ _ hsignature
        have has := at_of_find _ _ _ hsignature
        constructor
        · intro hss
          simp [doChannelVerify, hca, haa, hs, hcs, has, hss, bind, Outcome.bind]
        · intro hss
          constructor
          · intro habsent
            simp [doChannelVerify, hca, haa, hs, hcs, has, hss, habsent, bind, Outcome.bind]
          · intro publicKey hpublicKey hps
            have hcp := contains_of_find _ _ _ hpublicKey
            have hap := at_of_find _ _ _ hpublicKey
            simp [doChannelVerify, hca, haa, hs, hcs, has, hss, hcp, hap, hps, bind,
              Outcome.bind]

/-- Witness for C36: a request without amount but with a malformed signature
reports the amount; one with a string amount and a signature that is a number
reports the signature, although the public key is missing as well. -/
theorem doChannelVerify_checks_in_order_witness :
    doChannelVerify Fixture.verifier (Fixture.context [("signature", Json.int64 5)])
      = Outcome.returned (Except.error
          (Status.ofCodeMessage RippledError.rpcINVALID_PARAMS "missingAmount")) ∧
    doChannelVerify Fixture.verifier
        (Fixture.context [("amount", Json.string "100"), ("signature", Json.int64 5)])
      = Outcome.returned (Except.error
          (Status.ofCodeMessage RippledError.rpcINVALID_PARAMS "signatureNotString")) :=
  ⟨(doChannelVerify_checks_in_order Fixture.verifier
      (Fixture.context [("signature", Json.int64 5)])).1 rfl,
   ((((doChannelVerify_checks_in_order Fixture.verifier
      (Fixture.context [("amount", Json.string "100"), ("signature", Json.int64 5)])).2
      (Json.string "100") rfl).2 rfl).2 (Json.int64 5) rfl).1 rfl⟩

end RPC

/-! ## The order of the selectors in the legacy handler -/

namespace RPC

theorem selectIndex_ne_unknownOption (lib : ripple.Library) (request : Object) :
    selectIndex lib request ≠ invalid "unknownOption" := by
  intro h
  simp only [selectIndex, invalid, bind, Outcome.bind, pure] at h
  repeat' split at h
  all_goals first
    | cases h
    | simp [Status.ofCodeMessage, Status.ofClio, Status.ofClioMessage] at h

theorem selectAccountRoot_ne_unknownOption (lib : ripple.Library) (request : Object) :
    selectAccountRoot lib request ≠ invalid "unknownOption" := by
  intro h
  simp only [selectAccountRoot, invalid, bind, Outcome.bind, pure] at h
  repeat' split at h
  all_goals first
    | cases h
    | simp [Status.ofCodeMessage, Status.ofClio, Status.ofClioMessage] at h

theorem selectCheck_ne_unknownOption (lib : ripple.Library) (request : Object) :
    selectCheck lib request ≠ invalid "unknownOption" := by
  intro h
  simp only [selectCheck, invalid, bind, Outcome.bind, pure] at h
  repeat' split at h
  all_goals first
    | cases h
    | simp [Status.ofCodeMessage, Status.ofClio, Status.ofClioMessage] at h

theorem selectDepositPreauth_ne_unknownOption (lib : ripple.Library) (request : Object) :
    selectDepositPreauth lib request ≠ invalid "unknownOption" := by
  intro h
  simp only [selectDepositPreauth, invalid, bind, Outcome.bind, accountAt, pure] at h
  repeat' split at h
  all_goals first
    | cases h
    | simp [Status.ofCodeMessage, Status.ofClio, Status.ofClioMessage] at h

theorem selectDirectory_ne_unknownOption (lib : ripple.Library) (request : Object) :
    selectDirectory lib request ≠ invalid "unknownOption" := by
  intro h
  simp only [selectDirectory, invalid, bind, Outcome.bind, accountAt, pure] at h
  repeat' split at h
  all_goals first
    | cases h
    | simp [Status.ofCodeMessage, Status.ofClio, Status.ofClioMessage] at h

theorem selectEscrow_ne_unknownOption (lib : ripple.Library) (request : Object) :
    selectEscrow lib request ≠ invalid "unknownOption" := by
  intro h
  simp only [selectEscrow, invalid, bind, Outcome.bind, accountAt, pure] at h
  repeat' split at h
  all_goals first
    | cases h
    | simp [Status.ofCodeMessage, Status.ofClio, Status.ofClioMessage] at h

theorem selectOffer_ne_unknownOption (lib : ripple.Library) (request : Object) :
    selectOffer lib request ≠ invalid "unknownOption" := by
  intro h
  simp only [selectOffer, invalid, bind, Outcome.bind, accountAt, pure] at h
  repeat' split at h
  all_goals first
    | cases h
    | simp [Status.ofCodeMessage, Status.ofClio, Status.ofClioMessage] at h

theorem selectPaymentChannel_ne_unknownOption (lib : ripple.Library) (request : Object) :
    selectPaymentChannel lib request ≠ invalid "unknownOption" := by
  intro h
  simp only [selectPaymentChannel, invalid, bind, Outcome.bind, pure] at h
  repeat' split at h
  all_goals first
    | cases h
    | simp [Status.ofCodeMessage, Status.ofClio, Status.ofClioMessage] at h

theorem selectRippleState_ne_unknownOption (lib : ripple.Library) (request : Object) :
    selectRippleState lib request ≠ invalid "unknownOption" := by
  intro h
  simp only [selectRippleState, invalid, bind, Outcome.bind, pure] at h
  repeat' split at h
  all_goals first
    | cases h
    | simp [Status.ofCodeMessage, Status.ofClio, Status.ofClioMessage] at h

theorem selectTicket_ne_unknownOption (lib : ripple.Library) (request : Object) :
    selectTicket lib request ≠ invalid "unknownOption" := by
  intro h
  simp only [selectTicket, invalid, bind, Outcome.bind, accountAt, pure] at h
  repeat' split at h
  all_goals cases h

theorem selector_ne_unknownOption (lib : ripple.Library) (request : Object)
    (selector : String × (Object → Outcome Selected))
    (hmem : selector ∈ legacySelectors lib) :
    selector.2 request ≠ invalid "unknownOption" := by
  simp only [legacySelectors, List.mem_cons, List.mem_singleton, List.not_mem_nil,
    or_false] at hmem
  rcases hmem with rfl | rfl | rfl | rfl | rfl | rfl | rfl | rfl | rfl | rfl
  · exact selectIndex_ne_unknownOption lib request
  · exact selectAccountRoot_ne_unknownOption lib request
  · exact selectCheck_ne_unknownOption lib request
  · exact selectDepositPreauth_ne_unknownOption lib request
  · exact selectDirectory_ne_unknownOption lib request
  · exact selectEscrow_ne_unknownOption lib request
  · exact selectOffer_ne_unknownOption lib request
  · exact selectPaymentChannel_ne_unknownOption lib request
  · exact selectRippleState_ne_unknownOption lib request
  · exact selectTicket_ne_unknownOption lib request

theorem selectEntry_eq_selectByOrder (lib : ripple.Library) (request : Object) :
    selectEntry lib request = selectByOrder (legacySelectors lib) request := by
  unfold selectEntry selectByOrder legacySelectors
  simp only [List.find?]
  cases h0 : contains request "index" with
  | true => simp
  | false =>
    cases h1 : contains request "account_root" with
    | true => simp
    | false =>
      cases h2 : contains request "check" with
      | true => simp
      | false =>
        cases h3 : contains request "deposit_preauth" with
        | true => simp
        | false =>
          cases h4 : contains request "directory" with
          | true => simp
          | false =>
            cases h5 : contains request "escrow" with
            | true => simp
            | false =>
              cases h6 : contains request "offer" with
              | true => simp
              | false =>
                cases h7 : contains request "payment_channel" with
                | true => simp
                | false =>
                  cases h8 : contains request "ripple_state" with
                  | true => simp
                  | false =>
                    cases h9 : contains request "ticket" with
                    | true => simp
                    | false =>
                      simp

theorem find_first_present {α : Type} (p : α → Bool) (pre post : List α) (x : α)
    (hpre : ∀ y ∈ pre, p y = false) (hx : p x = true) :
    (pre ++ x :: post).find? p = some x := by
  induction pre with
  | nil => simp [List.find?, hx]
  | cons y rest ih =>
    have hy := hpre y (List.mem_cons_self y rest)
    have hrest := ih (fun z hz => hpre z (List.mem_cons_of_mem y hz))
    simp [List.find?, hy, hrest]

theorem respond_ne_unknownOption {Yield : Type} (lib : ripple.Library)
    (context : Context Yield) (binary : Bool) (lgrInfo : ripple.LedgerInfo)
    (key : ripple.uint256) (expectedType : ripple.LedgerEntryType) :
    respond lib context binary lgrInfo key expectedType
      ≠ Outcome.returned (Except.error
          (Status.ofCodeMessage RippledError.rpcINVALID_PARAMS "unknownOption")) := by
  intro h
  simp only [respond, bind, Outcome.bind] at h
  repeat' split at h
  all_goals cases h

/-- C35: legacy `doLedgerEntry` selects the entry by the first field present
in the order `index`, `account_root`, `check`, `deposit_preauth`,
`directory`, `escrow`, `offer`, `payment_channel`, `ripple_state`, `ticket`:
its selection is the branch of that field, whatever the later fields hold.
For a request whose ledger header resolves it returns invalid-params
`unknownOption` if and only if none of the ten fields is present. -/
theorem doLedgerEntry_selects_first_present (lib : ripple.Library) (request : Object) :
    selectEntry lib request = selectByOrder (legacySelectors lib) request ∧
    (∀ (pre post : List (String × (Object → Outcome Selected)))
        (selector : String × (Object → Outcome Selected)),
      legacySelectors lib = pre ++ selector :: post →
      (∀ earlier ∈ pre, contains request earlier.1 = false) →
      contains request selector.1 = true →
      selectEntry lib request = selector.2 request) ∧
    (∀ {Yield : Type} (helpers : Helpers Yield) (context : Context Yield) (binary : Bool)
        (lgrInfo : ripple.LedgerInfo),
      context.params = request →
      helpers.getBool context.params "binary" false = Outcome.returned binary →
      helpers.ledgerInfoFromRequest context = Outcome.returned (Except.ok lgrInfo) →
      (doLedgerEntry lib helpers context
          = Outcome.returned (Except.error
              (Status.ofCodeMessage RippledError.rpcINVALID_PARAMS "unknownOption")) ↔
        ∀ selector ∈ legacySelectors lib, contains request selector.1 = false)) := by
  have hsel := selectEntry_eq_selectByOrder lib request
  refine ⟨hsel, ?_, ?_⟩
  · intro pre post selector hlist hpre hpresent
    rw [hsel]
    unfold selectByOrder
    rw [hlist, find_first_present (fun s => contains request s.1) pre post selector hpre
      hpresent]
  · intro Yield helpers context binary lgrInfo hparams hbool hinfo
    subst hparams
    have hrun : doLedgerEntry lib helpers context
        = (selectEntry lib context.params >>= fun selected =>
            match selected with
            | Except.error status => Outcome.returned (Except.error status)
            | Except.ok (key, expectedType) =>
              respond lib context binary lgrInfo key expectedType) := by
      simp [doLedgerEntry, hbool, hinfo, bind, Outcome.bind]
    rw [hrun, hsel]
    unfold selectByOrder
    cases hfind : (legacySelectors lib).find? (fun s => contains context.params s.1) with
    | none =>
      have hall := List.find?_eq_none.mp hfind
      simp only [invalid, bind, Outcome.bind, true_iff]
      intro selector hmem
      simpa using hall selector hmem
    | some selector =>
      have hmem : selector ∈ legacySelectors lib := List.mem_of_find?_eq_some hfind
      have hpresent : contains context.params selector.1 = true := by
        simpa using List.find?_some hfind
      have hne := selector_ne_unknownOption lib context.params selector hmem
      constructor
      · intro h
        exfalso
        simp only [bind, Outcome.bind] at h
        cases hres : selector.2 context.params with
        | returned selected =>
          rw [hres] at h
          cases selected with
          | error status =>
            simp only [Outcome.returned.injEq, Except.error.injEq] at h
            apply hne
            rw [hres, h]
            rfl
          | ok pair =>
            obtain ⟨key, expectedType⟩ := pair
            exact respond_ne_unknownOption lib context binary lgrInfo key expectedType h
        | threw => rw [hres] at h; cases h
        | undefined => rw [hres] at h; cases h
      · intro hnone
        have := hnone selector hmem
        rw [hpresent] at this
        cases this

/-- Witness for C35: with `index` and a malformed `escrow` both present the
selection is that of `index`, and the empty request has an unknown option. -/
theorem doLedgerEntry_selects_first_present_witness :
    selectEntry Fixture.lib [("escrow", Json.int64 5), ("index", Json.string "7")]
      = selectIndex Fixture.lib [("escrow", Json.int64 5), ("index", Json.string "7")] ∧
    doLedgerEntry Fixture.lib Fixture.helpers (Fixture.context [])
      = Outcome.returned (Except.error
          (Status.ofCodeMessage RippledError.rpcINVALID_PARAMS "unknownOption")) :=
  ⟨(doLedgerEntry_selects_first_present Fixture.lib
      [("escrow", Json.int64 5), ("index", Json.string "7")]).2.1
      [] _ ("index", selectIndex Fixture.lib) rfl (by simp) rfl,
   ((doLedgerEntry_selects_first_present Fixture.lib []).2.2 Fixture.helpers
      (Fixture.context []) false { seq := 10, hash := 99 } rfl rfl rfl).mpr
      (fun _ _ => rfl)⟩

end RPC

/-! ## The order in which the index field map is visited -/

namespace RPCng.LedgerEntryHandler

theorem value_to_congr (mapOrder₁ mapOrder₂ : List (String × ripple.LedgerEntryType))
    (members : Object)
    (hfind : mapOrder₁.find? (isStringField members)
      = mapOrder₂.find? (isStringField members)) :
    value_to mapOrder₁ (Json.object members) = value_to mapOrder₂ (Json.object members) := by
  simp only [value_to, Json.as_object, bind, Outcome.bind, hfind]

theorem find_perm_of_at_most_one {α : Type} (p : α → Bool) (l₁ l₂ l0 : List α)
    (h₁ : l₁.Perm l0) (h₂ : l₂.Perm l0)
    (hone : ∀ x ∈ l0, ∀ y ∈ l0, p x = true → p y = true → x = y) :
    l₁.find? p = l₂.find? p := by
  cases h : l₁.find? p with
  | none =>
    have hall := List.find?_eq_none.mp h
    symm
    apply List.find?_eq_none.mpr
    intro x hx
    exact hall x (h₁.mem_iff.mpr (h₂.mem_iff.mp hx))
  | some e =>
    have he : p e = true := List.find?_some h
    have hmem : e ∈ l0 := h₁.mem_iff.mp (List.mem_of_find?_eq_some h)
    symm
    exact find_of_perm_unique p l₂ l0 e h₂ hmem he (fun x hx hpx => hone x hx e hmem hpx he)

/-- Counterexample to C32: the document holds `index` and `check`, both
strings. Visiting the field map in the order it is written gives the index
`1` with the any-type; visiting it in the reverse order gives the index `2`
with the check type. -/
theorem value_to_depends_on_map_order :
    value_to indexFieldTypeMap
        (Json.object [("index", Json.string "1"), ("check", Json.string "2")])
      = Outcome.returned { index := some "1", expectedType := ripple.LedgerEntryType.ltANY } ∧
    value_to indexFieldTypeMap.reverse
        (Json.object [("index", Json.string "1"), ("check", Json.string "2")])
      = Outcome.returned
          { index := some "2", expectedType := ripple.LedgerEntryType.ltCHECK } ∧
    indexFieldTypeMap.reverse.Perm indexFieldTypeMap :=
  ⟨rfl, rfl, List.reverse_perm indexFieldTypeMap⟩

/-- C32 as amended: for every object document in which at most one of the
eight fields of the index field map is present with a string value, and for
every two orderings of the map's eight entries, the decoder gives the same
outcome, so the same index and expectedType. -/
theorem value_to_order_independent
    (mapOrder₁ mapOrder₂ : List (String × ripple.LedgerEntryType)) (members : Object)
    (hperm₁ : mapOrder₁.Perm indexFieldTypeMap) (hperm₂ : mapOrder₂.Perm indexFieldTypeMap)
    (hone : ∀ x ∈ indexFieldTypeMap, ∀ y ∈ indexFieldTypeMap,
      isStringField members x = true → isStringField members y = true → x = y) :
    value_to mapOrder₁ (Json.object members) = value_to mapOrder₂ (Json.object members) :=
  value_to_congr mapOrder₁ mapOrder₂ members
    (find_perm_of_at_most_one (isStringField members) mapOrder₁ mapOrder₂ indexFieldTypeMap
      hperm₁ hperm₂ hone)

/-- Witness for the amended C32: with `check` the only string among the
index fields, the written order and its reverse decode alike. -/
theorem value_to_order_independent_witness :
    value_to indexFieldTypeMap
        (Json.object [("directory", Json.object []), ("check", Json.string "2")])
      = value_to indexFieldTypeMap.reverse
        (Json.object [("directory", Json.object []), ("check", Json.string "2")]) :=
  value_to_order_independent indexFieldTypeMap indexFieldTypeMap.reverse
    [("directory", Json.object []), ("check", Json.string "2")]
    (List.Perm.refl _) (List.reverse_perm indexFieldTypeMap) (by
      intro x hx y hy hpx hpy
      simp only [indexFieldTypeMap, List.mem_cons, List.mem_singleton, List.not_mem_nil,
        or_false] at hx hy
      rcases hx with rfl | rfl | rfl | rfl | rfl | rfl | rfl | rfl <;>
        rcases hy with rfl | rfl | rfl | rfl | rfl | rfl | rfl | rfl <;>
        first
          | rfl
          | (exfalso; revert hpx; decide)
          | (exfalso; revert hpy; decide))

end RPCng.LedgerEntryHandler

/-! ## The decoder block by block -/

namespace RPCng.LedgerEntryHandler

theorem Outcome_bind_assoc {α β γ : Type} (x : Outcome α) (f : α → Outcome β)
    (g : β → Outcome γ) :
    (x.bind f).bind g = x.bind (fun a => (f a).bind g) := by
  cases x <;> rfl

theorem Outcome_ite_bind {α β : Type} (c : Prop) [Decidable c] (x y : Outcome α)
    (f : α → Outcome β) :
    (if c then x else y).bind f = if c then x.bind f else y.bind f := by
  split <;> rfl

theorem Outcome_returned_bind {α β : Type} (a : α) (f : α → Outcome β) :
    (Outcome.returned a).bind f = f a := rfl

theorem Outcome_bind_eq_returned {α β : Type} (x : Outcome α) (f : α → Outcome β) (b : β) :
    x.bind f = Outcome.returned b ↔ ∃ a, x = Outcome.returned a ∧ f a = Outcome.returned b := by
  cases x <;> simp [Outcome.bind]

/-- The decoder is its four blocks run in order on the empty Input. -/
theorem value_to_blocks (mapOrder : List (String × ripple.LedgerEntryType)) (jv : Json) :
    value_to mapOrder jv
      = (jv.as_object).bind fun jsonObject =>
        (decodeLedgerHash jv jsonObject {}).bind fun hashed =>
        (decodeLedgerIndex jv jsonObject hashed).bind fun indexed =>
        (decodeBinary jv jsonObject indexed).bind fun flagged =>
        decodeSelector mapOrder jv jsonObject flagged := by
  simp only [value_to, decodeLedgerHash, decodeLedgerIndex, decodeBinary, decodeSelector,
    bind, pure, Outcome_bind_assoc, Outcome_ite_bind, Outcome_returned_bind]

theorem decodeLedgerHash_keeps (jv : Json) (jsonObject : Object) (input out : Input)
    (h : decodeLedgerHash jv jsonObject input = Outcome.returned out) :
    ∃ ledgerHash, out = { input with ledgerHash := ledgerHash } := by
  simp only [decodeLedgerHash, bind, Outcome.bind, pure] at h
  repeat' split at h
  all_goals cases h
  all_goals exact ⟨_, rfl⟩

theorem decodeLedgerIndex_keeps (jv : Json) (jsonObject : Object) (input out : Input)
    (h : decodeLedgerIndex jv jsonObject input = Outcome.returned out) :
    ∃ ledgerIndex, out = { input with ledgerIndex := ledgerIndex } := by
  simp only [decodeLedgerIndex, bind, Outcome.bind, pure] at h
  repeat' split at h
  all_goals cases h
  all_goals exact ⟨_, rfl⟩

theorem decodeBinary_keeps (jv : Json) (jsonObject : Object) (input out : Input)
    (h : decodeBinary jv jsonObject input = Outcome.returned out) :
    ∃ binary, out = { input with binary := binary } := by
  simp only [decodeBinary, bind, Outcome.bind, pure] at h
  repeat' split at h
  all_goals cases h
  all_goals exact ⟨_, rfl⟩

/-- What reaches the last block: an Input with no selector and the any-type. -/
theorem value_to_reaches_selector (mapOrder : List (String × ripple.LedgerEntryType))
    (jv : Json) (out : Input) (h : value_to mapOrder jv = Outcome.returned out) :
    ∃ (jsonObject : Object) (ledgerHash : Option String) (ledgerIndex : Option Nat)
      (binary : Bool),
      jv = Json.object jsonObject ∧
      decodeSelector mapOrder jv jsonObject
          { ledgerHash := ledgerHash, ledgerIndex := ledgerIndex, binary := binary }
        = Outcome.returned out := by
  rw [value_to_blocks] at h
  obtain ⟨jsonObject, hobject, h⟩ := (Outcome_bind_eq_returned _ _ _).mp h
  obtain ⟨hashed, hhash, h⟩ := (Outcome_bind_eq_returned _ _ _).mp h
  obtain ⟨indexed, hindex, h⟩ := (Outcome_bind_eq_returned _ _ _).mp h
  obtain ⟨flagged, hbinary, h⟩ := (Outcome_bind_eq_returned _ _ _).mp h
  obtain ⟨ledgerHash, rfl⟩ := decodeLedgerHash_keeps jv jsonObject _ _ hhash
  obtain ⟨ledgerIndex, rfl⟩ := decodeLedgerIndex_keeps jv jsonObject _ _ hindex
  obtain ⟨binary, rfl⟩ := decodeBinary_keeps jv jsonObject _ _ hbinary
  refine ⟨jsonObject, ledgerHash, ledgerIndex, binary, ?_, h⟩
  cases jv <;> simp [Json.as_object] at hobject
  rw [hobject]

end RPCng.LedgerEntryHandler

/-! ## The invariant of the decoded Input -/

namespace RPCng.LedgerEntryHandler

/-- C33: every Input the decoder returns has at most one of index,
accountRoot, directory, offer, rippleStateAccount, escrow, depositPreauth and
ticket set, and its expectedType differs from the any-type only if index is
set. This holds for every visiting order of the index field map. -/
theorem value_to_at_most_one_selector (mapOrder : List (String × ripple.LedgerEntryType))
    (jv : Json) (input : Input) (h : value_to mapOrder jv = Outcome.returned input) :
    [input.index.isSome, input.accountRoot.isSome, input.directory.isSome,
      input.offer.isSome, input.rippleStateAccount.isSome, input.escrow.isSome,
      input.depositPreauth.isSome, input.ticket.isSome].count true ≤ 1 ∧
    (input.expectedType ≠ ripple.LedgerEntryType.ltANY → input.index.isSome = true) := by
  obtain ⟨jsonObject, ledgerHash, ledgerIndex, binary, -, h⟩ :=
    value_to_reaches_selector mapOrder jv input h
  simp only [decodeSelector, bind, Outcome.bind, pure] at h
  repeat' split at h
  all_goals cases h
  all_goals simp

theorem value_to_at_most_one_selector_witness :
    value_to indexFieldTypeMap
        (Json.object [("ledger_index", Json.int64 7), ("offer", Json.string "0A")])
      = Outcome.returned
          { ledgerIndex := some 7, index := some "0A",
            expectedType := ripple.LedgerEntryType.ltOFFER } ∧
    ([(some "0A" : Option String).isSome, (none : Option String).isSome,
        (none : Option Object).isSome, (none : Option Object).isSome,
        (none : Option Object).isSome, (none : Option Object).isSome,
        (none : Option Object).isSome, (none : Option Object).isSome].count true ≤ 1 ∧
      (ripple.LedgerEntryType.ltOFFER ≠ ripple.LedgerEntryType.ltANY →
        (some "0A" : Option String).isSome = true)) :=
  ⟨rfl, value_to_at_most_one_selector indexFieldTypeMap
    (Json.object [("ledger_index", Json.int64 7), ("offer", Json.string "0A")])
    { ledgerIndex := some 7, index := some "0A",
      expectedType := ripple.LedgerEntryType.ltOFFER } rfl⟩

end RPCng.LedgerEntryHandler

/-! ## The entry type each handler derives from the request -/

namespace RPC

theorem selectIndex_type (lib : ripple.Library) (request : Object) (key : ripple.uint256)
    (expectedType : ripple.LedgerEntryType)
    (h : selectIndex lib request = Outcome.returned (Except.ok (key, expectedType))) :
    expectedType = ripple.LedgerEntryType.ltANY := by
  simp only [selectIndex, invalid, bind, Outcome.bind, pure] at h
  repeat' split at h
  all_goals cases h
  all_goals rfl

theorem selectAccountRoot_type (lib : ripple.Library) (request : Object) (key : ripple.uint256)
    (expectedType : ripple.LedgerEntryType)
    (h : selectAccountRoot lib request = Outcome.returned (Except.ok (key, expectedType))) :
    expectedType = ripple.LedgerEntryType.ltACCOUNT_ROOT := by
  simp only [selectAccountRoot, invalid, bind, Outcome.bind, pure] at h
  repeat' split at h
  all_goals cases h
  all_goals rfl

theorem selectCheck_type (lib : ripple.Library) (request : Object) (key : ripple.uint256)
    (expectedType : ripple.LedgerEntryType)
    (h : selectCheck lib request = Outcome.returned (Except.ok (key, expectedType))) :
    expectedType = ripple.LedgerEntryType.ltCHECK := by
  simp only [selectCheck, invalid, bind, Outcome.bind, pure] at h
  repeat' split at h
  all_goals cases h
  all_goals rfl

theorem selectDepositPreauth_type (lib : ripple.Library) (request : Object) (key : ripple.uint256)
    (expectedType : ripple.LedgerEntryType)
    (h : selectDepositPreauth lib request = Outcome.returned (Except.ok (key, expectedType))) :
    expectedType = ripple.LedgerEntryType.ltDEPOSIT_PREAUTH := by
  simp only [selectDepositPreauth, invalid, bind, Outcome.bind, accountAt, pure] at h
  repeat' split at h
  all_goals cases h
  all_goals rfl

theorem selectDirectory_type (lib : ripple.Library) (request : Object) (key : ripple.uint256)
    (expectedType : ripple.LedgerEntryType)
    (h : selectDirectory lib request = Outcome.returned (Except.ok (key, expectedType))) :
    expectedType = ripple.LedgerEntryType.ltDIR_NODE := by
  simp only [selectDirectory, invalid, bind, Outcome.bind, accountAt, pure] at h
  repeat' split at h
  all_goals cases h
  all_goals rfl

theorem selectEscrow_type (lib : ripple.Library) (request : Object) (key : ripple.uint256)
    (expectedType : ripple.LedgerEntryType)
    (h : selectEscrow lib request = Outcome.returned (Except.ok (key, expectedType))) :
    expectedType = ripple.LedgerEntryType.ltESCROW := by
  simp only [selectEscrow, invalid, bind, Outcome.bind, accountAt, pure] at h
  repeat' split at h
  all_goals cases h
  all_goals rfl

theorem selectOffer_type (lib : ripple.Library) (request : Object) (key : ripple.uint256)
    (expectedType : ripple.LedgerEntryType)
    (h : selectOffer lib request = Outcome.returned (Except.ok (key, expectedType))) :
    expectedType = ripple.LedgerEntryType.ltOFFER := by
  simp only [selectOffer, invalid, bind, Outcome.bind, accountAt, pure] at h
  repeat' split at h
  all_goals cases h
  all_goals rfl

theorem selectPaymentChannel_type (lib : ripple.Library) (request : Object) (key : ripple.uint256)
    (expectedType : ripple.LedgerEntryType)
    (h : selectPaymentChannel lib request = Outcome.returned (Except.ok (key, expectedType))) :
    expectedType = ripple.LedgerEntryType.ltPAYCHAN := by
  simp only [selectPaymentChannel, invalid, bind, Outcome.bind, pure] at h
  repeat' split at h
  all_goals cases h
  all_goals rfl

theorem selectRippleState_type (lib : ripple.Library) (request : Object) (key : ripple.uint256)
    (expectedType : ripple.LedgerEntryType)
    (h : selectRippleState lib request = Outcome.returned (Except.ok (key, expectedType))) :
    expectedType = ripple.LedgerEntryType.ltRIPPLE_STATE := by
  simp only [selectRippleState, invalid, bind, Outcome.bind, pure] at h
  repeat' split at h
  all_goals cases h
  all_goals rfl

theorem selectTicket_type (lib : ripple.Library) (request : Object) (key : ripple.uint256)
    (expectedType : ripple.LedgerEntryType)
    (h : selectTicket lib request = Outcome.returned (Except.ok (key, expectedType))) :
    expectedType = ripple.LedgerEntryType.ltTICKET := by
  simp only [selectTicket, invalid, bind, Outcome.bind, accountAt, pure] at h
  repeat' split at h
  all_goals cases h
  all_goals rfl

theorem selectIndex_string (lib : ripple.Library) (request : Object) (key : ripple.uint256)
    (expectedType : ripple.LedgerEntryType)
    (h : selectIndex lib request = Outcome.returned (Except.ok (key, expectedType))) :
    ∃ text, find "index" request = some (Json.string text) := by
  cases hf : find "index" request with
  | none => simp [selectIndex, Object.at, hf, bind, Outcome.bind] at h
  | some v =>
    cases v <;>
      simp [selectIndex, Object.at, hf, Json.is_string, invalid, bind, Outcome.bind] at h ⊢

end RPC

namespace RPC

theorem find_of_not_contains (request : Object) (key : String)
    (h : contains request key = false) : find key request = none := by
  unfold contains at h
  cases hf : find key request with
  | none => rfl
  | some v => simp [hf] at h

/-- The type the selection part derives when the request names one selector:
the type written in the branch of that selector. An accepted `index` is a
string. -/
theorem selectEntry_single_type (lib : ripple.Library) (request : Object) (name : String)
    (hname : name ∈
      ["index", "account_root", "check", "deposit_preauth", "directory", "escrow", "offer",
        "payment_channel", "ripple_state", "ticket"])
    (hpresent : contains request name = true)
    (hothers : ∀ other ∈
      ["index", "account_root", "check", "deposit_preauth", "directory", "escrow", "offer",
        "payment_channel", "ripple_state", "ticket"],
      other ≠ name → contains request other = false)
    (key : ripple.uint256) (expectedType : ripple.LedgerEntryType)
    (h : selectEntry lib request = Outcome.returned (Except.ok (key, expectedType))) :
    (name, expectedType) ∈
      [("index", ripple.LedgerEntryType.ltANY),
       ("account_root", ripple.LedgerEntryType.ltACCOUNT_ROOT),
       ("check", ripple.LedgerEntryType.ltCHECK),
       ("deposit_preauth", ripple.LedgerEntryType.ltDEPOSIT_PREAUTH),
       ("directory", ripple.LedgerEntryType.ltDIR_NODE),
       ("escrow", ripple.LedgerEntryType.ltESCROW),
       ("offer", ripple.LedgerEntryType.ltOFFER),
       ("payment_channel", ripple.LedgerEntryType.ltPAYCHAN),
       ("ripple_state", ripple.LedgerEntryType.ltRIPPLE_STATE),
       ("ticket", ripple.LedgerEntryType.ltTICKET)] ∧
    (name = "index" → ∃ text, find "index" request = some (Json.string text)) := by
  simp only [List.mem_cons, List.mem_singleton, List.not_mem_nil, or_false] at hname
  rcases hname with rfl | rfl | rfl | rfl | rfl | rfl | rfl | rfl | rfl | rfl
  · simp at hothers
    simp only [selectEntry, hothers, hpresent, Bool.false_eq_true, if_false, if_true] at h
    have hs := selectIndex_string lib request key expectedType h
    have ht := selectIndex_type lib request key expectedType h
    subst ht
    exact ⟨by simp, fun _ => hs⟩
  · simp at hothers
    simp only [selectEntry, hothers, hpresent, Bool.false_eq_true, if_false, if_true] at h
    have ht := selectAccountRoot_type lib request key expectedType h
    subst ht
    exact ⟨by simp, by simp⟩
  · simp at hothers
    simp only [selectEntry, hothers, hpresent, Bool.false_eq_true, if_false, if_true] at h
    have ht := selectCheck_type lib request key expectedType h
    subst ht
    exact ⟨by simp, by simp⟩
  · simp at hothers
    simp only [selectEntry, hothers, hpresent, Bool.false_eq_true, if_false, if_true] at h
    have ht := selectDepositPreauth_type lib request key expectedType h
    subst ht
    exact ⟨by simp, by simp⟩
  · simp at hothers
    simp only [selectEntry, hothers, hpresent, Bool.false_eq_true, if_false, if_true] at h
    have ht := selectDirectory_type lib request key expectedType h
    subst ht
    exact ⟨by simp, by simp⟩
  · simp at hothers
    simp only [selectEntry, hothers, hpresent, Bool.false_eq_true, if_false, if_true] at h
    have ht := selectEscrow_type lib request key expectedType h
    subst ht
    exact ⟨by simp, by simp⟩
  · simp at hothers
    simp only [selectEntry, hothers, hpresent, Bool.false_eq_true, if_false, if_true] at h
    have ht := selectOffer_type lib request key expectedType h
    subst ht
    exact ⟨by simp, by simp⟩
  · simp at hothers
    simp only [selectEntry, hothers, hpresent, Bool.false_eq_true, if_false, if_true] at h
    have ht := selectPaymentChannel_type lib request key expectedType h
    subst ht
    exact ⟨by simp, by simp⟩
  · simp at hothers
    simp only [selectEntry, hothers, hpresent, Bool.false_eq_true, if_false, if_true] at h
    have ht := selectRippleState_type lib request key expectedType h
    subst ht
    exact ⟨by simp, by simp⟩
  · simp at hothers
    simp only [selectEntry, hothers, hpresent, Bool.false_eq_true, if_false, if_true] at h
    have ht := selectTicket_type lib request key expectedType h
    subst ht
    exact ⟨by simp, by simp⟩

end RPC

namespace RPCng.LedgerEntryHandler

theorem value_to_type_any (mapOrder : List (String × ripple.LedgerEntryType))
    (members : Object) (hnone : mapOrder.find? (isStringField members) = none)
    (input : Input) (h : value_to mapOrder (Json.object members) = Outcome.returned input) :
    input.expectedType = ripple.LedgerEntryType.ltANY := by
  obtain ⟨jsonObject, ledgerHash, ledgerIndex, binary, hjv, h⟩ :=
    value_to_reaches_selector mapOrder _ input h
  cases hjv
  simp only [decodeSelector, hnone, bind, Outcome.bind, pure] at h
  repeat' split at h
  all_goals cases h
  all_goals rfl

theorem indexFieldTypeMap_keys_unique :
    ∀ a ∈ indexFieldTypeMap, ∀ b ∈ indexFieldTypeMap, a.1 = b.1 → a = b := by
  decide

theorem indexFieldTypeMap_keys_selectors :
    ∀ a ∈ indexFieldTypeMap, a.1 ∈
      ["index", "account_root", "check", "deposit_preauth", "directory", "escrow", "offer",
        "payment_channel", "ripple_state", "ticket"] := by
  decide

theorem indexFieldTypeMap_types_legacy :
    ∀ a ∈ indexFieldTypeMap, ∀ b ∈
      [("index", ripple.LedgerEntryType.ltANY),
       ("account_root", ripple.LedgerEntryType.ltACCOUNT_ROOT),
       ("check", ripple.LedgerEntryType.ltCHECK),
       ("deposit_preauth", ripple.LedgerEntryType.ltDEPOSIT_PREAUTH),
       ("directory", ripple.LedgerEntryType.ltDIR_NODE),
       ("escrow", ripple.LedgerEntryType.ltESCROW),
       ("offer", ripple.LedgerEntryType.ltOFFER),
       ("payment_channel", ripple.LedgerEntryType.ltPAYCHAN),
       ("ripple_state", ripple.LedgerEntryType.ltRIPPLE_STATE),
       ("ticket", ripple.LedgerEntryType.ltTICKET)],
      a.1 = b.1 → a.2 = b.2 := by
  decide

theorem legacy_any_only_index :
    ∀ b ∈
      [("index", ripple.LedgerEntryType.ltANY),
       ("account_root", ripple.LedgerEntryType.ltACCOUNT_ROOT),
       ("check", ripple.LedgerEntryType.ltCHECK),
       ("deposit_preauth", ripple.LedgerEntryType.ltDEPOSIT_PREAUTH),
       ("directory", ripple.LedgerEntryType.ltDIR_NODE),
       ("escrow", ripple.LedgerEntryType.ltESCROW),
       ("offer", ripple.LedgerEntryType.ltOFFER),
       ("payment_channel", ripple.LedgerEntryType.ltPAYCHAN),
       ("ripple_state", ripple.LedgerEntryType.ltRIPPLE_STATE),
       ("ticket", ripple.LedgerEntryType.ltTICKET)],
      b.2 = ripple.LedgerEntryType.ltANY → b.1 = "index" := by
  decide

end RPCng.LedgerEntryHandler

namespace RPCng.LedgerEntryHandler

/-- Counterexample to C31: the request names the one selector `account_root`
and both handlers accept it and return the entry. The decoder of the new
handler leaves expectedType at the any-type, for every order in which the
field map is visited; the legacy handler derives the account-root type. The
same holds for the object form of `directory`: stored under the key it names
is an account root, the new handler returns it and the legacy handler
answers unexpectedLedgerType. -/
theorem expectedType_left_any_for_account_root :
    (∀ mapOrder : List (String × ripple.LedgerEntryType),
      mapOrder.Perm indexFieldTypeMap →
      value_to mapOrder (Json.object [("account_root", Json.string "12")])
        = Outcome.returned { accountRoot := some "12" }) ∧
    ({ accountRoot := some "12" } : Input).expectedType = ripple.LedgerEntryType.ltANY ∧
    RPC.selectEntry Fixture.lib [("account_root", Json.string "12")]
      = Outcome.returned (Except.ok (1012, ripple.LedgerEntryType.ltACCOUNT_ROOT)) ∧
    ripple.LedgerEntryType.ltANY ≠ ripple.LedgerEntryType.ltACCOUNT_ROOT ∧
    process Fixture.lib Fixture.fullBackend Fixture.getLedgerInfoFromHashOrSeq
        { accountRoot := some "12" } ()
      = Outcome.returned (Except.ok
          { index := "1012", ledgerIndex := 10, ledgerHash := "99", node := some [] }) ∧
    RPC.doLedgerEntry Fixture.lib Fixture.helpers
        { params := [("account_root", Json.string "12")], backend := Fixture.fullBackend,
          yield := () }
      = Outcome.returned (Except.ok
          [("index", Json.string "1012"), ("ledger_hash", Json.string "99"),
           ("ledger_index", Json.uint64 10), ("node", Json.object [])]) ∧
    value_to indexFieldTypeMap
        (Json.object [("directory", Json.object [("dir_root", Json.string "7")])])
      = Outcome.returned { directory := some [("dir_root", Json.string "7")] } ∧
    process Fixture.lib Fixture.backend Fixture.getLedgerInfoFromHashOrSeq
        { directory := some [("dir_root", Json.string "7")] } ()
      = Outcome.returned (Except.ok
          { index := "7", ledgerIndex := 10, ledgerHash := "99", node := some [] }) ∧
    RPC.doLedgerEntry Fixture.lib Fixture.helpers
        (Fixture.context [("directory", Json.object [("dir_root", Json.string "7")])])
      = Outcome.returned (Except.error (RPC.Status.ofMessage "unexpectedLedgerType")) := by
  refine ⟨?_, rfl, rfl, by decide, rfl, rfl, rfl, rfl, rfl⟩
  intro mapOrder hperm
  have hnone : mapOrder.find? (isStringField [("account_root", Json.string "12")])
      = indexFieldTypeMap.find? (isStringField [("account_root", Json.string "12")]) := by
    apply find_perm_of_at_most_one _ _ _ indexFieldTypeMap hperm (List.Perm.refl _)
    decide
  rw [value_to_congr mapOrder indexFieldTypeMap _ hnone]
  rfl

/-- C31 as amended: take a request that names exactly one of the ten entry
selectors and is accepted by the decoder of the new handler, for any order in
which the field map is visited, and by the selection part of the legacy
handler. When the selector is one of the index fields `index`, `directory`,
`offer`, `check`, `escrow`, `payment_channel`, `deposit_preauth`, `ticket`
and holds a string, Input.expectedType equals the type the legacy handler
derives. In every other case, which covers `account_root`, `ripple_state` and
the object forms, Input.expectedType is the any-type and the type the legacy
handler derives is not. -/
theorem expectedType_agrees_on_string_index_fields (lib : ripple.Library)
    (mapOrder : List (String × ripple.LedgerEntryType))
    (hperm : mapOrder.Perm indexFieldTypeMap) (members : Object) (name : String)
    (field : Json)
    (hname : name ∈
      ["index", "account_root", "check", "deposit_preauth", "directory", "escrow", "offer",
        "payment_channel", "ripple_state", "ticket"])
    (hfield : find name members = some field)
    (hothers : ∀ other ∈
      ["index", "account_root", "check", "deposit_preauth", "directory", "escrow", "offer",
        "payment_channel", "ripple_state", "ticket"],
      other ≠ name → contains members other = false)
    (input : Input)
    (hnew : value_to mapOrder (Json.object members) = Outcome.returned input)
    (key : ripple.uint256) (expectedType : ripple.LedgerEntryType)
    (hold : RPC.selectEntry lib members = Outcome.returned (Except.ok (key, expectedType))) :
    (field.is_string = true ∧ name ∈ indexFieldTypeMap.map Prod.fst →
      input.expectedType = expectedType) ∧
    (¬ (field.is_string = true ∧ name ∈ indexFieldTypeMap.map Prod.fst) →
      input.expectedType = ripple.LedgerEntryType.ltANY ∧
      expectedType ≠ ripple.LedgerEntryType.ltANY) := by
  have hpresent := RPC.contains_of_find members name field hfield
  obtain ⟨hlegacy, hindex⟩ :=
    RPC.selectEntry_single_type lib members name hname hpresent hothers key expectedType hold
  constructor
  · rintro ⟨hs, hmem⟩
    obtain ⟨text, rfl⟩ : ∃ text, field = Json.string text := by
      cases field <;> simp [Json.is_string] at hs ⊢
    obtain ⟨entry, hentry, rfl⟩ := List.mem_map.mp hmem
    have hfind := find_index_entry mapOrder hperm members entry text hentry hfield (by
      intro other hother hne s hf
      have hkey : other.1 ≠ entry.1 := fun heq =>
        hne (indexFieldTypeMap_keys_unique other hother entry hentry heq)
      have habsent := hothers other.1 (indexFieldTypeMap_keys_selectors other hother) hkey
      rw [RPC.find_of_not_contains _ _ habsent] at hf
      cases hf)
    rw [(value_to_selected mapOrder members entry text hfind hfield input hnew).2.1]
    exact indexFieldTypeMap_types_legacy entry hentry (entry.1, expectedType) hlegacy rfl
  · intro hneg
    have hnone : mapOrder.find? (isStringField members) = none := by
      apply List.find?_eq_none.mpr
      intro x hx
      have hx0 := hperm.mem_iff.mp hx
      by_cases hxn : x.1 = name
      · have hstring : field.is_string ≠ true := fun hs =>
          hneg ⟨hs, List.mem_map.mpr ⟨x, hx0, hxn⟩⟩
        simpa [isStringField, hxn, hfield] using hstring
      · have habsent := hothers x.1 (indexFieldTypeMap_keys_selectors x hx0) hxn
        simp [isStringField, RPC.find_of_not_contains _ _ habsent]
    refine ⟨value_to_type_any mapOrder members hnone input hnew, ?_⟩
    intro hany
    subst hany
    have hisIndex : name = "index" := legacy_any_only_index _ hlegacy rfl
    obtain ⟨text, htext⟩ := hindex hisIndex
    subst hisIndex
    rw [hfield] at htext
    cases htext
    exact hneg ⟨rfl, by decide⟩

/-- Witness for the amended C31: the request names `check` as a string; both
handlers derive the check type. -/
theorem expectedType_agrees_on_string_index_fields_witness :
    value_to indexFieldTypeMap (Json.object [("check", Json.string "77")])
      = Outcome.returned
          { index := some "77", expectedType := ripple.LedgerEntryType.ltCHECK } ∧
    RPC.selectEntry Fixture.lib [("check", Json.string "77")]
      = Outcome.returned (Except.ok (77, ripple.LedgerEntryType.ltCHECK)) ∧
    ((Json.is_string (Json.string "77") = true ∧
        "check" ∈ indexFieldTypeMap.map Prod.fst →
      ({ index := some "77", expectedType := ripple.LedgerEntryType.ltCHECK } : Input).expectedType
        = ripple.LedgerEntryType.ltCHECK) ∧
     (¬ (Json.is_string (Json.string "77") = true ∧
        "check" ∈ indexFieldTypeMap.map Prod.fst) →
      ({ index := some "77", expectedType := ripple.LedgerEntryType.ltCHECK } : Input).expectedType
        = ripple.LedgerEntryType.ltANY ∧
      ripple.LedgerEntryType.ltCHECK ≠ ripple.LedgerEntryType.ltANY)) :=
  ⟨rfl, rfl,
    expectedType_agrees_on_string_index_fields Fixture.lib indexFieldTypeMap
      (List.Perm.refl _) [("check", Json.string "77")] "check" (Json.string "77")
      (by decide) rfl (by decide)
      { index := some "77", expectedType := ripple.LedgerEntryType.ltCHECK } rfl
      77 ripple.LedgerEntryType.ltCHECK rfl⟩

end RPCng.LedgerEntryHandler

/-! ## The encoded Output and the legacy response -/

namespace RPCng.LedgerEntryHandler

theorem response_perm (a b c d e : String × Json) :
    [a, b, c, d, e].Perm [d, a, b, e, c] := by
  have h1 : ([a, b, c] ++ d :: [e]).Perm (d :: ([a, b, c] ++ [e])) := List.perm_middle
  have h2 : [a, b, c, e].Perm [a, b, e, c] :=
    List.Perm.cons a (List.Perm.cons b (List.Perm.swap e c []))
  exact h1.trans (List.Perm.cons d h2)

/-- C34: for the same resolved key, ledger header, backend and binary flag,
when the last part of `process` returns an Output and the last part of the
legacy `doLedgerEntry` returns a response, the Output is encoded to a
document that holds the members of the legacy response extended with
`validated` = true, each once, and every field name reads the same value in
both. -/
theorem value_from_eq_legacy_response_with_validated {Yield : Type} (lib : ripple.Library)
    (backend : BackendInterface Yield)
    (getLedgerInfoFromHashOrSeq : GetLedgerInfoFromHashOrSeq Yield)
    (input : Input) (yield : Yield) (key : ripple.uint256) (params : Object)
    (range : LedgerRange) (lgrInfo : ripple.LedgerInfo)
    (expectedType : ripple.LedgerEntryType) (out : Output) (response : Object)
    (hrange : backend.fetchLedgerRange = some range)
    (hinfo : getLedgerInfoFromHashOrSeq backend yield input.ledgerHash input.ledgerIndex
        range.maxSequence = Outcome.returned (Except.ok lgrInfo))
    (hnew : lookup lib backend getLedgerInfoFromHashOrSeq input yield key
      = Outcome.returned (Except.ok out))
    (hold : RPC.respond lib { params := params, backend := backend, yield := yield }
        input.binary lgrInfo key expectedType
      = Outcome.returned (Except.ok response)) :
    ∃ doc, value_from out = Outcome.returned (Json.object doc) ∧
      doc.Perm (response.set "validated" (Json.bool true)) ∧
      ∀ name, find name doc = find name (response.set "validated" (Json.bool true)) := by
  simp only [lookup, RPC.respond, hrange, hinfo, Outcome.deref, bind, Outcome.bind, pure]
    at hnew hold
  cases hfetch : backend.fetchLedgerObject key lgrInfo.seq yield with
  | threw => simp [hfetch] at hnew
  | undefined => simp [hfetch] at hnew
  | returned ledgerObject =>
    cases ledgerObject with
    | none => simp [hfetch] at hnew
    | some blob =>
      simp only [hfetch] at hnew hold
      by_cases hlen : blob.length = 0
      · simp [hlen] at hold
      · simp only [hlen, if_false] at hnew hold
        cases hsle : lib.deserialize blob key with
        | threw => simp [hsle] at hold
        | undefined => simp [hsle] at hold
        | returned sle =>
          simp only [hsle] at hnew hold
          split at hold
          · cases hold
          · split at hnew
            · cases hnew
            · cases hb : input.binary
              · simp only [hb, Bool.false_eq_true, if_false, Outcome.returned.injEq,
                  Except.ok.injEq] at hnew hold
                subst hnew hold
                refine ⟨_, rfl, ?_, ?_⟩
                · exact response_perm _ _ _ _ _
                · intro name
                  simp only [find, Object.set]
                  repeat' split
                  all_goals first
                    | rfl
                    | (subst name; simp_all)
              · simp only [hb, if_true, Outcome.returned.injEq, Except.ok.injEq] at hnew hold
                subst hnew hold
                refine ⟨_, rfl, ?_, ?_⟩
                · exact response_perm _ _ _ _ _
                · intro name
                  simp only [find, Object.set]
                  repeat' split
                  all_goals first
                    | rfl
                    | (subst name; simp_all)

theorem value_from_eq_legacy_response_with_validated_witness :
    ∃ doc,
      value_from { index := "7", ledgerIndex := 10, ledgerHash := "99", node := some [] }
        = Outcome.returned (Json.object doc) ∧
      doc.Perm
        (Object.set
          [("index", Json.string "7"), ("ledger_hash", Json.string "99"),
           ("ledger_index", Json.uint64 10), ("node", Json.object [])]
          "validated" (Json.bool true)) ∧
      ∀ name, find name doc
        = find name
          (Object.set
            [("index", Json.string "7"), ("ledger_hash", Json.string "99"),
             ("ledger_index", Json.uint64 10), ("node", Json.object [])]
            "validated" (Json.bool true)) :=
  value_from_eq_legacy_response_with_validated Fixture.lib Fixture.backend
    Fixture.getLedgerInfoFromHashOrSeq { index := some "7" } () 7 []
    { minSequence := 1, maxSequence := 10 } { seq := 10, hash := 99 }
    ripple.LedgerEntryType.ltANY
    { index := "7", ledgerIndex := 10, ledgerHash := "99", node := some [] }
    [("index", Json.string "7"), ("ledger_hash", Json.string "99"),
     ("ledger_index", Json.uint64 10), ("node", Json.object [])]
    rfl rfl rfl rfl

end RPCng.LedgerEntryHandler
